import Mathlib

/-!
# discord.js `InternalClient`: the gateway session engine

A shallow embedding of `src/Client/InternalClient.js`.

* JavaScript values are the inductive `JSVal`; a property read on `undefined`
  or `null` raises a `TypeError`, as in JavaScript.
* The client object is the record `InternalClient`; every method and every
  frame handler is a function from the client (and its inputs) to the client
  afterwards, the list of effects it performed in order, and the exception it
  raised, if any.
* Objects that the source mutates in place (users, servers, channels) are
  referred to by identity: a reference to such an object is its `id`, and the
  object is reached through the cache that holds it.  Roles and messages are
  never mutated in place by the source and are stored as values.
* Every effect records the client as it is at the moment of the effect, which
  is what a listener called synchronously by `emit` observes.
-/

namespace DiscordJS

/-! ## JavaScript values -/

/-- A JavaScript value as decoded from JSON, together with `undefined`.
Numbers are integers. -/
inductive JSVal where
  | undefined
  | null
  | bool (b : Bool)
  | num (n : Int)
  | str (s : String)
  | arr (items : List JSVal)
  | obj (fields : List (String × JSVal))

namespace JSVal

instance : Inhabited JSVal := ⟨JSVal.undefined⟩

mutual
/-- Structural equality of values. -/
def beq : JSVal → JSVal → Bool
  | undefined, undefined => true
  | null, null => true
  | bool a, bool b => a == b
  | num a, num b => a == b
  | str a, str b => a == b
  | arr a, arr b => beqList a b
  | obj a, obj b => beqFields a b
  | _, _ => false
/-- Structural equality of arrays. -/
def beqList : List JSVal → List JSVal → Bool
  | [], [] => true
  | a :: as, b :: bs => beq a b && beqList as bs
  | _, _ => false
/-- Structural equality of field lists. -/
def beqFields : List (String × JSVal) → List (String × JSVal) → Bool
  | [], [] => true
  | (k, a) :: as, (l, b) :: bs => k == l && beq a b && beqFields as bs
  | _, _ => false
end

mutual
theorem beq_iff : ∀ (a b : JSVal), beq a b = true ↔ a = b
  | undefined, b => by cases b <;> simp [beq]
  | null, b => by cases b <;> simp [beq]
  | bool a, b => by cases b <;> simp [beq]
  | num a, b => by cases b <;> simp [beq]
  | str a, b => by cases b <;> simp [beq]
  | arr a, b => by cases b <;> simp [beq, beqList_iff a]
  | obj a, b => by cases b <;> simp [beq, beqFields_iff a]
theorem beqList_iff : ∀ (a b : List JSVal), beqList a b = true ↔ a = b
  | [], b => by cases b <;> simp [beqList]
  | x :: xs, b => by cases b <;> simp [beqList, beq_iff x, beqList_iff xs]
theorem beqFields_iff : ∀ (a b : List (String × JSVal)), beqFields a b = true ↔ a = b
  | [], b => by cases b <;> simp [beqFields]
  | (k, x) :: xs, b => by
    cases b with
    | nil => simp [beqFields]
    | cons y ys =>
      obtain ⟨l, y⟩ := y
      simp [beqFields, beq_iff x, beqFields_iff xs, and_assoc]
end

instance : DecidableEq JSVal := fun a b => decidable_of_iff _ (beq_iff a b)

/-- JavaScript truthiness: `undefined`, `null`, `false`, `0` and `""` are
falsy, every other value (every array and object included) is truthy. -/
def truthy : JSVal → Bool
  | undefined => false
  | null => false
  | bool b => b
  | num n => n != 0
  | str s => s != ""
  | arr _ => true
  | obj _ => true

/-- The JavaScript operator `a || b`. -/
def or (a b : JSVal) : JSVal := if a.truthy then a else b

/-- Whether the value is `undefined` or `null`. -/
def nullish : JSVal → Bool
  | undefined => true
  | null => true
  | _ => false

/-- The value of key `k` in a field list, `undefined` when there is none. -/
def lookup : List (String × JSVal) → String → JSVal
  | [], _ => undefined
  | (k', v) :: rest, k => if k' = k then v else lookup rest k

/-- The value of property `k` of a value that is not nullish: the field of an
object, `undefined` for every other value (none of the property names read
by the client is a built-in property of a string, number, boolean or array). -/
def field : JSVal → String → JSVal
  | obj fs, k => lookup fs k
  | _, _ => undefined

end JSVal

/-- An exception raised by the JavaScript run time. -/
inductive JSError where
  | typeError (what : String)
  | syntaxError (what : String)
  | failure (what : String)
  deriving DecidableEq

namespace JSVal

/-- The property read `v.k`: a `TypeError` on `undefined` and `null`. -/
def get (v : JSVal) (k : String) : Except JSError JSVal :=
  if v.nullish then Except.error (JSError.typeError k) else Except.ok (v.field k)

/-- The field list after the assignment of `x` to key `k`. -/
def assign : List (String × JSVal) → String → JSVal → List (String × JSVal)
  | [], k, x => [(k, x)]
  | (k', v) :: rest, k, x => if k' = k then (k, x) :: rest else (k', v) :: assign rest k x

/-- The property write `v.k = x`, giving the value afterwards.  The file is in
strict mode: the write raises a `TypeError` on `undefined`, `null` and on a
primitive.  A named property on an array is not represented: the array is
returned as it is. -/
def set (v : JSVal) (k : String) (x : JSVal) : Except JSError JSVal :=
  match v with
  | obj fs => Except.ok (obj (assign fs k x))
  | arr xs => Except.ok (arr xs)
  | _ => Except.error (JSError.typeError k)

/-- The elements of an array on which `forEach` or `map` is called: a
`TypeError` when the value is not an array. -/
def elements (v : JSVal) (k : String) : Except JSError (List JSVal) :=
  match v with
  | arr xs => Except.ok xs
  | _ => Except.error (JSError.typeError k)

mutual
/-- String conversion, as in a template literal or a string concatenation. -/
def toStr : JSVal → String
  | undefined => "undefined"
  | null => "null"
  | bool true => "true"
  | bool false => "false"
  | num n => toString n
  | str s => s
  | arr xs => joinItems xs
  | obj _ => "[object Object]"
/-- String conversion of an array: its items separated by commas, `undefined`
and `null` items giving the empty text. -/
def joinItems : List JSVal → String
  | [] => ""
  | x :: rest =>
    (match x with
      | undefined => ""
      | null => ""
      | v => toStr v) ++
    (match rest with
      | [] => ""
      | _ => "," ++ joinItems rest)
end

end JSVal

/-! ## The data model -/

/-- The constant table `ConnectionState`. -/
inductive ConnectionState where
  | IDLE
  | LOGGING_IN
  | LOGGED_IN
  | READY
  | DISCONNECTED
  deriving DecidableEq

/-- The typing state of a user: `since` and `channel`, each `null` (`none`)
or set.  The channel is referred to by its id. -/
structure TypingState where
  since : Option Int
  channel : Option JSVal
  deriving DecidableEq

/-- A `User`. -/
structure User where
  id : JSVal
  username : JSVal
  discriminator : JSVal
  avatar : JSVal
  status : JSVal
  gameID : JSVal
  typing : TypingState
  deriving DecidableEq

/-- A `Role`; `server` is the id of the owning server. -/
structure Role where
  id : JSVal
  name : JSVal
  permissions : JSVal
  server : JSVal
  deriving DecidableEq

/-- A `Message`; `channel` is the id of its channel. -/
structure Message where
  id : JSVal
  channel : JSVal
  nonce : JSVal
  attachments : JSVal
  tts : JSVal
  embeds : JSVal
  timestamp : JSVal
  everyoneMentioned : JSVal
  content : JSVal
  mentions : JSVal
  author : JSVal
  deriving DecidableEq

/-- The class of a channel object. -/
inductive ChannelKind where
  | text
  | voice
  | pm
  deriving DecidableEq

/-- A `TextChannel`, `VoiceChannel` or `PMChannel`; `server` is the id of the
parent server, absent for a direct channel. -/
structure Channel where
  kind : ChannelKind
  id : JSVal
  type : JSVal
  name : JSVal
  server : Option JSVal
  messages : List Message
  deriving DecidableEq

/-- An entry of a server's member map. -/
structure Member where
  roles : List (Option Role)
  mute : JSVal
  deaf : JSVal
  joinedAt : JSVal
  deriving DecidableEq

/-- A `Server`.  `channels` and `members` hold the ids of the cached channel
and user objects; `memberMap` maps a user id to its entry, or to `null`
(`none`). -/
structure Server where
  id : JSVal
  name : JSVal
  region : JSVal
  channels : List JSVal
  roles : List Role
  members : List JSVal
  memberMap : List (JSVal × Option Member)
  deriving DecidableEq

/-- The handle of the push connection. -/
structure WebSocket where
  url : JSVal
  deriving DecidableEq

/-- The fields of an `InternalClient`. -/
structure InternalClient where
  state : ConnectionState
  websocket : Option WebSocket
  token : JSVal
  email : JSVal
  password : JSVal
  users : List User
  channels : List Channel
  servers : List Server
  private_channels : List Channel
  deriving DecidableEq

/-- The client after its constructor has run. -/
def InternalClient.new : InternalClient :=
  { state := ConnectionState.IDLE, websocket := none,
    token := JSVal.undefined, email := JSVal.undefined, password := JSVal.undefined,
    users := [], channels := [], servers := [], private_channels := [] }

/-! ## Effects -/

/-- An argument of an emitted notification. -/
inductive Arg where
  | absent
  | val (v : JSVal)
  | text (s : String)
  | error (e : JSError)
  | user (u : User)
  | channel (c : Channel)
  | server (s : Server)
  | message (m : Message)
  | role (r : Role)
  deriving DecidableEq

/-- The constant table `Endpoints`, kept symbolic. -/
inductive Endpoint where
  | LOGIN
  | LOGOUT
  | GATEWAY
  | SERVERS
  | SERVER (id : JSVal)
  | USER_CHANNELS (id : JSVal)
  | CHANNEL_MESSAGES (id : JSVal)
  | CHANNEL_MESSAGE (channel : JSVal) (id : JSVal)
  deriving DecidableEq

/-- An outbound request: method, endpoint, the text appended to the
endpoint, the `authorization` header when it is set, the body sent and the
file attached. -/
structure Request where
  method : String
  endpoint : Endpoint
  query : String
  authorization : Option JSVal
  body : JSVal
  file : Option (JSVal × JSVal)
  deriving DecidableEq

/-- A callback handed to `setInterval` or `setTimeout`. -/
inductive Task where
  | heartbeat
  | typingStop (user : JSVal) (channel : Channel)
  | awaitServer (res : JSVal)
  | deleteMsg (message : Message)
  deriving DecidableEq

/-- What the client does to the outside world. -/
inductive Action where
  | emit (name : String) (args : List Arg)
  | request (r : Request)
  | wsOpen (url : JSVal)
  | wsSend (payload : JSVal)
  | wsClose
  | setInterval (task : Task) (ms : JSVal)
  | setTimeout (task : Task) (ms : JSVal)
  | clearInterval (task : Task)
  deriving DecidableEq

/-- An action together with the client as it is when the action happens. -/
structure Effect where
  action : Action
  seen : InternalClient
  deriving DecidableEq

/-- The call `client.emit(name, args...)` made when the client is `c`. -/
def emit (c : InternalClient) (name : String) (args : List Arg) : Effect :=
  { action := Action.emit name args, seen := c }

/-- The name of the notification when the effect is an `emit`. -/
def Effect.emitted (e : Effect) : Option String :=
  match e.action with
  | Action.emit name _ => some name
  | _ => none

/-- The names of the notifications emitted, in order. -/
def emittedNames (es : List Effect) : List String :=
  es.filterMap Effect.emitted

/-- The requests issued, in order. -/
def requestsOf (es : List Effect) : List Request :=
  es.filterMap (fun e => match e.action with
    | Action.request r => some r
    | _ => none)

/-- The result of running a handler: the client afterwards, the effects in
order, and the exception that ended the handler, if one was raised. -/
structure Run where
  client : InternalClient
  effects : List Effect
  thrown : Option JSError
  deriving DecidableEq

/-- A handler that ran to its end. -/
def Run.done (c : InternalClient) (es : List Effect) : Run :=
  { client := c, effects := es, thrown := none }

/-- A handler ended by an exception. -/
def Run.raise (c : InternalClient) (es : List Effect) (e : JSError) : Run :=
  { client := c, effects := es, thrown := some e }

/-- The run with effect `e` performed before it. -/
def Run.after (e : Effect) (r : Run) : Run :=
  { r with effects := e :: r.effects }

/-- The state of the promise returned by a command. -/
inductive Outcome where
  | pending
  | resolved (v : Arg)
  | rejected (message : JSVal)
  deriving DecidableEq

/-- The result of running a command, or one of its callbacks. -/
structure Settled where
  client : InternalClient
  effects : List Effect
  outcome : Outcome
  thrown : Option JSError
  deriving DecidableEq

/-- The names of the constant table `PacketType`, in the order of the cases
of the `switch` of `websocket.onmessage`. -/
inductive PacketType where
  | READY
  | MESSAGE_CREATE
  | MESSAGE_DELETE
  | MESSAGE_UPDATE
  | SERVER_CREATE
  | SERVER_DELETE
  | SERVER_UPDATE
  | CHANNEL_CREATE
  | CHANNEL_DELETE
  | CHANNEL_UPDATE
  | SERVER_ROLE_CREATE
  | SERVER_ROLE_DELETE
  | SERVER_ROLE_UPDATE
  | SERVER_MEMBER_ADD
  | SERVER_MEMBER_REMOVE
  | SERVER_MEMBER_UPDATE
  | PRESENCE_UPDATE
  | TYPING
  | SERVER_BAN_ADD
  | SERVER_BAN_REMOVE
  deriving DecidableEq

/-- What the surroundings supply: the clock (`now` when a handler starts,
`later` when `READY` reads the clock again), the built-ins `Date.parse`,
`JSON.parse` and `zlib.inflateSync`, the values of the constant table
`PacketType` (Constants.js is absent) and the option `compress`. -/
structure Env where
  now : Int
  later : Int
  dateParse : JSVal → JSVal
  jsonParse : String → Except JSError JSVal
  inflate : String → Except JSError String
  packetType : PacketType → JSVal
  compress : JSVal

/-! ## The entity cache -/

/-- The primary discriminator of a cached entity. -/
class Keyed (α : Type) where
  key : α → JSVal

instance : Keyed User := ⟨User.id⟩
instance : Keyed Role := ⟨Role.id⟩
instance : Keyed Message := ⟨Message.id⟩
instance : Keyed Channel := ⟨Channel.id⟩
instance : Keyed Server := ⟨Server.id⟩
instance : Keyed JSVal := ⟨fun v => v⟩

namespace Cache

/-- Modelled from the spec: `Cache.get("id", value)` (Util/Cache.js is absent):
the matching entity or an absent result; never raises. -/
def get {α : Type} [Keyed α] (xs : List α) (v : JSVal) : Option α :=
  xs.find? (fun x => decide (Keyed.key x = v))

/-- Modelled from the spec: `Cache.add(entity)`: inserts if absent by the
primary discriminator and returns the stored entity; adding an entity whose
key is present is a no-op that returns the existing value. -/
def add {α : Type} [Keyed α] (xs : List α) (e : α) : List α × α :=
  match get xs (Keyed.key e) with
  | some x => (xs, x)
  | none => (xs ++ [e], e)

/-- Modelled from the spec: removal by primary discriminator: the cache
without its entry of key `k`; a no-op if there is none. -/
def removeKey {α : Type} [Keyed α] (xs : List α) (k : JSVal) : List α :=
  xs.eraseP (fun x => decide (Keyed.key x = k))

/-- Modelled from the spec: `Cache.remove(entity)`: removes the entry with the
entity's primary discriminator; a no-op if absent. -/
def remove {α : Type} [Keyed α] (xs : List α) (e : α) : List α :=
  removeKey xs (Keyed.key e)

/-- Modelled from the spec: `Cache.update(old, new)`: replaces the stored value,
keeping the position of `old`; a no-op if `old` is no longer present. -/
def update {α : Type} [Keyed α] : List α → α → α → List α
  | [], _, _ => []
  | x :: rest, old, new =>
    if Keyed.key x = Keyed.key old then new :: rest else x :: update rest old new

/-- Modelled from the spec: what `Cache.update(old, new)` returns: the stored
value, or an absent result when `old` is not present. -/
def updated {α : Type} [Keyed α] (xs : List α) (old new : α) : Option α :=
  match get xs (Keyed.key old) with
  | some _ => some new
  | none => none

/-- An in-place mutation of the object that `get xs k` returns. -/
def modify {α : Type} [Keyed α] : List α → JSVal → (α → α) → List α
  | [], _, _ => []
  | x :: rest, k, f =>
    if Keyed.key x = k then f x :: rest else x :: modify rest k f

end Cache

/-! ## The entity constructors -/

/-- Modelled from the spec: the constructor `new User(data, client)`
(Structures/User.js is absent): identity, display name, avatar reference and
presence status are read from the payload, the typing state starts empty. -/
def User.construct (d : JSVal) : Except JSError User :=
  if d.nullish then Except.error (JSError.typeError "id")
  else Except.ok
    { id := d.field "id", username := d.field "username",
      discriminator := d.field "discriminator", avatar := d.field "avatar",
      status := d.field "status", gameID := d.field "game_id",
      typing := { since := none, channel := none } }

/-- Modelled from the spec: `User.equalsStrict` (Structures/User.js is absent):
whether the identity-affecting fields (identity, name, discriminator, avatar)
are the same; presence status and game are not compared. -/
def User.equalsStrict (a b : User) : Bool :=
  decide (a.id = b.id) && decide (a.username = b.username) &&
    decide (a.discriminator = b.discriminator) && decide (a.avatar = b.avatar)

/-- Modelled from the spec: the constructor `new Role(data, server, client)`
(Structures/Role.js is absent). -/
def Role.construct (d : JSVal) (server : JSVal) : Except JSError Role :=
  if d.nullish then Except.error (JSError.typeError "id")
  else Except.ok
    { id := d.field "id", name := d.field "name",
      permissions := d.field "permissions", server := server }

/-- Modelled from the spec: the constructor `new Message(data, channel, client)`
(Structures/Message.js is absent): the message keeps the payload's values. -/
def Message.construct (d : JSVal) (channel : JSVal) : Except JSError Message :=
  if d.nullish then Except.error (JSError.typeError "id")
  else Except.ok
    { id := d.field "id", channel := channel, nonce := d.field "nonce",
      attachments := d.field "attachments", tts := d.field "tts",
      embeds := d.field "embeds", timestamp := d.field "timestamp",
      everyoneMentioned := d.field "mention_everyone",
      content := d.field "content", mentions := d.field "mentions",
      author := d.field "author" }

/-- Modelled from the spec: the constructors `new TextChannel(data, client, server)`,
`new VoiceChannel(data, client, server)` and `new PMChannel(data, client)`
(Structures/*.js are absent): a channel starts with an empty message
collection. -/
def Channel.construct (kind : ChannelKind) (d : JSVal) (server : Option JSVal) :
    Except JSError Channel :=
  if d.nullish then Except.error (JSError.typeError "id")
  else Except.ok
    { kind := kind, id := d.field "id", type := d.field "type",
      name := d.field "name", server := server, messages := [] }

/-- The expression `roles.map((pid) => server.roles.get("id", pid))`. -/
def memberRoles (roles : List Role) (pids : List JSVal) : List (Option Role) :=
  pids.map (fun pid => Cache.get roles pid)

/-- The assignment `memberMap[id] = entry`. -/
def setMember : List (JSVal × Option Member) → JSVal → Option Member →
    List (JSVal × Option Member)
  | [], k, x => [(k, x)]
  | (k', v) :: rest, k, x =>
    if k' = k then (k, x) :: rest else (k', v) :: setMember rest k x

/-- The read `memberMap[id]`: `none` when the key is not set (`undefined`),
`some none` when it is set to `null`. -/
def getMember : List (JSVal × Option Member) → JSVal → Option (Option Member)
  | [], _ => none
  | (k', v) :: rest, k => if k' = k then some v else getMember rest k

/-- A server under construction: the client, whose caches the constructor
fills, the server so far, and the exception raised, if any. -/
structure Built where
  client : InternalClient
  server : Server
  thrown : Option JSError

/-- The items of a list field of a payload; a field that is not an array has
none. -/
def listField (d : JSVal) (k : String) : List JSVal :=
  match d.field k with
  | JSVal.arr xs => xs
  | _ => []

/-- Modelled from the spec: the role set of a new server. -/
def Server.addRoles (sid : JSVal) : List JSVal → List Role → Except JSError (List Role)
  | [], acc => Except.ok acc
  | r :: rest, acc =>
    match Role.construct r sid with
    | Except.error e => Except.error e
    | Except.ok role => Server.addRoles sid rest (Cache.add acc role).1

/-- Modelled from the spec: the channels of a new server are built as text
or voice channels, stored in the global channel cache and listed in the
server's channel list. -/
def Server.addChannels : List JSVal → InternalClient → Server → Built
  | [], c, s => { client := c, server := s, thrown := none }
  | d :: rest, c, s =>
    match Channel.construct
      (if d.field "type" = JSVal.str "text" then ChannelKind.text else ChannelKind.voice)
      d (some s.id) with
    | Except.error e => { client := c, server := s, thrown := some e }
    | Except.ok ch =>
      let stored := Cache.add c.channels ch
      Server.addChannels rest { c with channels := stored.1 }
        { s with channels := (Cache.add s.channels stored.2.id).1 }

/-- Modelled from the spec: the members of a new server are entered in the
member map (identity to roles, mute, deaf, joinedAt), their users stored in
the global user cache and listed in the server's members. -/
def Server.addMembers (env : Env) : List JSVal → InternalClient → Server → Built
  | [], c, s => { client := c, server := s, thrown := none }
  | m :: rest, c, s =>
    match User.construct (m.field "user") with
    | Except.error e => { client := c, server := s, thrown := some e }
    | Except.ok u =>
      let entry : Member :=
        { roles := memberRoles s.roles (listField m "roles"),
          mute := m.field "mute", deaf := m.field "deaf",
          joinedAt := env.dateParse (m.field "joined_at") }
      let stored := Cache.add c.users u
      Server.addMembers env rest { c with users := stored.1 }
        { s with memberMap := setMember s.memberMap u.id (some entry),
                 members := (Cache.add s.members stored.2.id).1 }

/-- Modelled from the spec: the constructor `new Server(data, client)`
(Structures/Server.js is absent): identity, name and region are read from the
payload; the server owns its roles and channels and keys its member map by
user identity; the entities it observes are created in the global caches. -/
def Server.construct (env : Env) (c : InternalClient) (d : JSVal) : Built :=
  let s0 : Server :=
    { id := d.field "id", name := d.field "name", region := d.field "region",
      channels := [], roles := [], members := [], memberMap := [] }
  if d.nullish then { client := c, server := s0, thrown := some (JSError.typeError "id") }
  else
    match Server.addRoles s0.id (listField d "roles") [] with
    | Except.error e => { client := c, server := s0, thrown := some e }
    | Except.ok roles =>
      let b := Server.addChannels (listField d "channels") c { s0 with roles := roles }
      match b.thrown with
      | some e => { client := b.client, server := b.server, thrown := some e }
      | none => Server.addMembers env (listField d "members") b.client b.server

/-- Modelled from the spec: `Server.equalsStrict` (Structures/Server.js is
absent): the deep equality check of two server values. -/
def Server.equalsStrict (a b : Server) : Bool := decide (a = b)

/-! ## The frame handlers of `createWS`: `websocket.onmessage` -/

/-- The call `client.emit("warn", text)`. -/
def warn (c : InternalClient) (text : String) : Effect :=
  emit c "warn" [Arg.text text]

/-- The method `sendWS(object)`: sends when there is a websocket. -/
def sendWS (c : InternalClient) (object : JSVal) : List Effect :=
  match c.websocket with
  | some _ => [{ action := Action.wsSend object, seen := c }]
  | none => []

/-- The heartbeat callback scheduled by `READY`, run at time `now`. -/
def heartbeat (now : Int) (c : InternalClient) : Run :=
  Run.done c (sendWS c (JSVal.obj [("op", JSVal.num 1), ("d", JSVal.num now)]))

/-- The loop `data.guilds.forEach((server) => self.servers.add(new Server(server, client)))`. -/
def addServers (env : Env) : List JSVal → InternalClient → InternalClient × Option JSError
  | [], c => (c, none)
  | d :: rest, c =>
    let b := Server.construct env c d
    match b.thrown with
    | some e => (b.client, some e)
    | none =>
      addServers env rest { b.client with servers := (Cache.add b.client.servers b.server).1 }

/-- The loop `data.private_channels.forEach((pm) => self.private_channels.add(new PMChannel(pm, client)))`. -/
def addPrivateChannels : List JSVal → InternalClient → InternalClient × Option JSError
  | [], c => (c, none)
  | d :: rest, c =>
    match Channel.construct ChannelKind.pm d none with
    | Except.error e => (c, some e)
    | Except.ok ch =>
      addPrivateChannels rest { c with private_channels := (Cache.add c.private_channels ch).1 }

/-- The case `PacketType.READY`. -/
def onReady (env : Env) (c : InternalClient) (data : JSVal) : Run :=
  match data.get "user" with
  | Except.error e => Run.raise c [] e
  | Except.ok du =>
    match User.construct du with
    | Except.error e => Run.raise c [] e
    | Except.ok u =>
      let c1 := { c with users := (Cache.add c.users u).1 }
      match (data.field "guilds").elements "forEach" with
      | Except.error e => Run.raise c1 [] e
      | Except.ok guilds =>
        match addServers env guilds c1 with
        | (c2, some e) => Run.raise c2 [] e
        | (c2, none) =>
          match (data.field "private_channels").elements "forEach" with
          | Except.error e => Run.raise c2 [] e
          | Except.ok pms =>
            match addPrivateChannels pms c2 with
            | (c3, some e) => Run.raise c3 [] e
            | (c3, none) =>
              let c4 := { c3 with state := ConnectionState.READY }
              Run.done c4
                [ { action := Action.setInterval Task.heartbeat (data.field "heartbeat_interval"),
                    seen := c4 },
                  emit c4 "ready" [],
                  emit c4 "debug" [Arg.text ("ready packet took " ++ toString (env.later - env.now)
                    ++ "ms to process")],
                  emit c4 "debug" [Arg.text ("ready with " ++ toString c4.servers.length
                    ++ " servers, " ++ toString c4.channels.length ++ " channels and "
                    ++ toString c4.users.length ++ " users cached.")] ]

/-- The case `PacketType.MESSAGE_CREATE`. -/
def onMessageCreate (c : InternalClient) (data : JSVal) : Run :=
  match data.get "channel_id" with
  | Except.error e => Run.raise c [] e
  | Except.ok cid =>
    match Cache.get c.channels cid with
    | some channel =>
      match Message.construct data channel.id with
      | Except.error e => Run.raise c [] e
      | Except.ok m =>
        let stored := Cache.add channel.messages m
        let channels1 := Cache.modify c.channels cid (fun ch => { ch with messages := stored.1 })
        let c1 := { c with channels := channels1 }
        Run.done c1 [emit c1 "message" [Arg.message stored.2]]
    | none => Run.done c [warn c "message created but channel is not cached"]

/-- The case `PacketType.MESSAGE_DELETE`: the notification is emitted before
the message is removed. -/
def onMessageDelete (c : InternalClient) (data : JSVal) : Run :=
  match data.get "channel_id" with
  | Except.error e => Run.raise c [] e
  | Except.ok cid =>
    match Cache.get c.channels cid with
    | some channel =>
      match Cache.get channel.messages (data.field "id") with
      | some msg =>
        let channels1 := Cache.modify c.channels cid
            (fun ch => { ch with messages := Cache.remove channel.messages msg })
        let c1 := { c with channels := channels1 }
        Run.done c1 [emit c "messageDeleted" [Arg.message msg]]
      | none => Run.done c [emit c "messageDeleted" [Arg.absent]]
    | none => Run.done c [warn c "message was deleted but channel is not cached"]

/-- The nine assignments `data.F = data.F || msg.F` of the case
`PacketType.MESSAGE_UPDATE`, giving the payload afterwards. -/
def mergeMessage (data : JSVal) (msg : Message) : Except JSError JSVal := do
  let d1 ← data.set "nonce" ((data.field "nonce").or msg.nonce)
  let d2 ← d1.set "attachments" ((d1.field "attachments").or msg.attachments)
  let d3 ← d2.set "tts" ((d2.field "tts").or msg.tts)
  let d4 ← d3.set "embeds" ((d3.field "embeds").or msg.embeds)
  let d5 ← d4.set "timestamp" ((d4.field "timestamp").or msg.timestamp)
  let d6 ← d5.set "mention_everyone" ((d5.field "mention_everyone").or msg.everyoneMentioned)
  let d7 ← d6.set "content" ((d6.field "content").or msg.content)
  let d8 ← d7.set "mentions" ((d7.field "mentions").or msg.mentions)
  d8.set "author" ((d8.field "author").or msg.author)

/-- The case `PacketType.MESSAGE_UPDATE`. -/
def onMessageUpdate (c : InternalClient) (data : JSVal) : Run :=
  match data.get "channel_id" with
  | Except.error e => Run.raise c [] e
  | Except.ok cid =>
    match Cache.get c.channels cid with
    | some channel =>
      match Cache.get channel.messages (data.field "id") with
      | some msg =>
        match mergeMessage data msg with
        | Except.error e => Run.raise c [] e
        | Except.ok merged =>
          match Message.construct merged channel.id with
          | Except.error e => Run.raise c [] e
          | Except.ok newMsg =>
            let channels1 := Cache.modify c.channels cid
                (fun ch => { ch with messages := Cache.update channel.messages msg newMsg })
            let c1 := { c with channels := channels1 }
            Run.done c1 [emit c1 "messageUpdated" [Arg.message newMsg, Arg.message msg]]
      | none => Run.done c []
    | none => Run.done c [warn c "message was updated but channel is not cached"]

/-- The loop `for (var channel of server.channels) self.channels.remove(channel)`. -/
def removeChannels (channels : List Channel) (ids : List JSVal) : List Channel :=
  ids.foldl (fun acc id => Cache.removeKey acc id) channels

/-- The case `PacketType.SERVER_CREATE`: the notification carries the variable
`server`, which holds the absent result of the lookup. -/
def onServerCreate (env : Env) (c : InternalClient) (data : JSVal) : Run :=
  match data.get "id" with
  | Except.error e => Run.raise c [] e
  | Except.ok sid =>
    match Cache.get c.servers sid with
    | none =>
      let b := Server.construct env c data
      match b.thrown with
      | some e => Run.raise b.client [] e
      | none =>
        let c1 := { b.client with servers := (Cache.add b.client.servers b.server).1 }
        Run.done c1 [emit c1 "serverCreated" [Arg.absent]]
    | some _ => Run.done c []

/-- The case `PacketType.SERVER_DELETE`. -/
def onServerDelete (c : InternalClient) (data : JSVal) : Run :=
  match data.get "id" with
  | Except.error e => Run.raise c [] e
  | Except.ok sid =>
    match Cache.get c.servers sid with
    | some server =>
      let c1 := { c with channels := removeChannels c.channels server.channels,
                         servers := Cache.remove c.servers server }
      Run.done c1 [emit c1 "serverDeleted" [Arg.server server]]
    | none => Run.done c [warn c "server was deleted but it was not in the cache"]

/-- The two assignments `data.members = data.members || []` and
`data.channels = data.channels || []` of the case `PacketType.SERVER_UPDATE`. -/
def defaultLists (data : JSVal) : Except JSError JSVal := do
  let d1 ← data.set "members" ((data.field "members").or (JSVal.arr []))
  d1.set "channels" ((d1.field "channels").or (JSVal.arr []))

/-- The case `PacketType.SERVER_UPDATE`. -/
def onServerUpdate (env : Env) (c : InternalClient) (data : JSVal) : Run :=
  match data.get "id" with
  | Except.error e => Run.raise c [] e
  | Except.ok sid =>
    match Cache.get c.servers sid with
    | some server =>
      match defaultLists data with
      | Except.error e => Run.raise c [] e
      | Except.ok data1 =>
        let b := Server.construct env c data1
        match b.thrown with
        | some e => Run.raise b.client [] e
        | none =>
          let newserver := { b.server with members := server.members,
                                           memberMap := server.memberMap,
                                           channels := server.channels }
          if newserver.equalsStrict server then
            Run.done b.client
              [emit b.client "debug" [Arg.text "received server update but server already updated"]]
          else
            let c1 := { b.client with servers := Cache.update b.client.servers server newserver }
            Run.done c1 [emit c1 "serverUpdated" [Arg.server server, Arg.server newserver]]
    | none =>
      let w := warn c "server was updated but it was not in the cache"
      let b := Server.construct env c data
      match b.thrown with
      | some e => Run.raise b.client [w] e
      | none =>
        let c1 := { b.client with servers := (Cache.add b.client.servers b.server).1 }
        Run.done c1 [w, emit c1 "serverCreated" [Arg.absent]]

/-- The case `PacketType.CHANNEL_CREATE`. -/
def onChannelCreate (c : InternalClient) (data : JSVal) : Run :=
  match data.get "id" with
  | Except.error e => Run.raise c [] e
  | Except.ok cid =>
    match Cache.get c.channels cid with
    | none =>
      match Cache.get c.servers (data.field "guild_id") with
      | some server =>
        if (data.field "is_private").truthy then
          match Channel.construct ChannelKind.pm data none with
          | Except.error e => Run.raise c [] e
          | Except.ok pm =>
            let stored := Cache.add c.private_channels pm
            let c1 := { c with private_channels := stored.1 }
            Run.done c1 [emit c1 "channelCreated" [Arg.channel stored.2]]
        else
          match Channel.construct
            (if data.field "type" = JSVal.str "text" then ChannelKind.text else ChannelKind.voice)
            data (some server.id) with
          | Except.error e => Run.raise c [] e
          | Except.ok ch =>
            let stored := Cache.add c.channels ch
            let servers1 := Cache.modify c.servers server.id
              (fun s => { s with channels := (Cache.add s.channels stored.2.id).1 })
            let c1 := { c with channels := stored.1, servers := servers1 }
            Run.done c1 [emit c1 "channelCreated" [Arg.channel stored.2]]
      | none => Run.done c [warn c "channel created but server does not exist"]
    | some _ => Run.done c [warn c "channel created but already in cache"]

/-- The case `PacketType.CHANNEL_DELETE`. -/
def onChannelDelete (c : InternalClient) (data : JSVal) : Run :=
  match data.get "id" with
  | Except.error e => Run.raise c [] e
  | Except.ok cid =>
    match Cache.get c.channels cid with
    | some channel =>
      let servers1 :=
        match channel.server with
        | some sid =>
          Cache.modify c.servers sid
            (fun s => { s with channels := Cache.removeKey s.channels channel.id })
        | none => c.servers
      let c1 := { c with servers := servers1, channels := Cache.remove c.channels channel }
      Run.done c1 [emit c1 "channelDeleted" [Arg.channel channel]]
    | none => Run.done c [warn c "channel deleted but already out of cache?"]

/-- The lookup `self.channels.get("id", id) || self.private_channels.get("id", id)`. -/
def findChannel (c : InternalClient) (id : JSVal) : Option Channel :=
  match Cache.get c.channels id with
  | some ch => some ch
  | none => Cache.get c.private_channels id

/-- The case `PacketType.CHANNEL_UPDATE`. -/
def onChannelUpdate (c : InternalClient) (data : JSVal) : Run :=
  match data.get "id" with
  | Except.error e => Run.raise c [] e
  | Except.ok cid =>
    match findChannel c cid with
    | some channel =>
      if channel.kind = ChannelKind.pm then
        match Channel.construct ChannelKind.pm data none with
        | Except.error e => Run.raise c [] e
        | Except.ok pm =>
          let c1 := { c with private_channels := Cache.update c.private_channels channel pm }
          match Cache.updated c.private_channels channel pm with
          | some stored => Run.done c1 [emit c1 "channelUpdated" [Arg.channel stored]]
          | none => Run.done c1 [emit c1 "channelUpdated" [Arg.absent]]
      else
        match channel.server with
        | some sid =>
          match Channel.construct
            (if channel.type = JSVal.str "text" then ChannelKind.text else ChannelKind.voice)
            data (some sid) with
          | Except.error e => Run.raise c [] e
          | Except.ok built =>
            let chan : Channel :=
              if channel.type = JSVal.str "text" then { built with messages := channel.messages }
              else built
            let servers1 := Cache.modify c.servers sid
              (fun s => { s with channels := Cache.update s.channels channel.id chan.id })
            let c1 := { c with servers := servers1,
                               channels := Cache.update c.channels channel chan }
            Run.done c1 [emit c1 "channelUpdated" [Arg.channel channel, Arg.channel chan]]
        | none => Run.done c [warn c "channel updated but server non-existant"]
    | none => Run.done c [warn c "channel updated but not in cache"]

/-- The case `PacketType.SERVER_ROLE_CREATE`. -/
def onServerRoleCreate (c : InternalClient) (data : JSVal) : Run :=
  match data.get "guild_id" with
  | Except.error e => Run.raise c [] e
  | Except.ok gid =>
    match Cache.get c.servers gid with
    | some server =>
      match Role.construct (data.field "role") server.id with
      | Except.error e => Run.raise c [] e
      | Except.ok role =>
        let stored := Cache.add server.roles role
        let server1 := { server with roles := stored.1 }
        let c1 := { c with servers := Cache.modify c.servers gid (fun _ => server1) }
        Run.done c1 [emit c1 "serverRoleCreated" [Arg.role stored.2, Arg.server server1]]
    | none => Run.done c [warn c "server role made but server not in cache"]

/-- The case `PacketType.SERVER_ROLE_DELETE`. -/
def onServerRoleDelete (c : InternalClient) (data : JSVal) : Run :=
  match data.get "guild_id" with
  | Except.error e => Run.raise c [] e
  | Except.ok gid =>
    match Cache.get c.servers gid with
    | some server =>
      match Cache.get server.roles (data.field "role_id") with
      | some role =>
        let server1 := { server with roles := Cache.remove server.roles role }
        let c1 := { c with servers := Cache.modify c.servers gid (fun _ => server1) }
        Run.done c1 [emit c1 "serverRoleDeleted" [Arg.role role]]
      | none => Run.done c [warn c "server role deleted but role not in cache"]
    | none => Run.done c [warn c "server role deleted but server not in cache"]

/-- The case `PacketType.SERVER_ROLE_UPDATE`. -/
def onServerRoleUpdate (c : InternalClient) (data : JSVal) : Run :=
  match data.get "guild_id" with
  | Except.error e => Run.raise c [] e
  | Except.ok gid =>
    match Cache.get c.servers gid with
    | some server =>
      match (data.field "role").get "id" with
      | Except.error e => Run.raise c [] e
      | Except.ok rid =>
        match Cache.get server.roles rid with
        | some role =>
          match Role.construct (data.field "role") server.id with
          | Except.error e => Run.raise c [] e
          | Except.ok newRole =>
            let server1 := { server with roles := Cache.update server.roles role newRole }
            let c1 := { c with servers := Cache.modify c.servers gid (fun _ => server1) }
            Run.done c1 [emit c1 "serverRoleUpdated" [Arg.role role, Arg.role newRole]]
        | none => Run.done c [warn c "server role updated but role not in cache"]
    | none => Run.done c [warn c "server role updated but server not in cache"]

/-- The case `PacketType.SERVER_MEMBER_ADD`. -/
def onServerMemberAdd (env : Env) (c : InternalClient) (data : JSVal) : Run :=
  match data.get "guild_id" with
  | Except.error e => Run.raise c [] e
  | Except.ok gid =>
    match Cache.get c.servers gid with
    | some server =>
      match (data.field "user").get "id" with
      | Except.error e => Run.raise c [] e
      | Except.ok uid =>
        match (data.field "roles").elements "map" with
        | Except.error e => Run.raise c [] e
        | Except.ok pids =>
          let entry : Member :=
            { roles := memberRoles server.roles pids, mute := JSVal.bool false,
              deaf := JSVal.bool false, joinedAt := env.dateParse (data.field "joined_at") }
          let server0 := { server with memberMap := setMember server.memberMap uid (some entry) }
          match User.construct (data.field "user") with
          | Except.error e =>
            Run.raise { c with servers := Cache.modify c.servers gid (fun _ => server0) } [] e
          | Except.ok u =>
            let stored := Cache.add c.users u
            let server1 := { server0 with members := (Cache.add server0.members stored.2.id).1 }
            let c1 := { c with users := stored.1,
                               servers := Cache.modify c.servers gid (fun _ => server1) }
            Run.done c1 [emit c1 "serverNewMember" [Arg.server server1, Arg.user stored.2]]
    | none => Run.done c [warn c "server member added but server doesn't exist in cache"]

/-- The case `PacketType.SERVER_MEMBER_REMOVE`. -/
def onServerMemberRemove (c : InternalClient) (data : JSVal) : Run :=
  match data.get "guild_id" with
  | Except.error e => Run.raise c [] e
  | Except.ok gid =>
    match Cache.get c.servers gid with
    | some server =>
      match (data.field "user").get "id" with
      | Except.error e => Run.raise c [] e
      | Except.ok uid =>
        match Cache.get c.users uid with
        | some user =>
          let server1 := { server with memberMap := setMember server.memberMap uid none,
                                       members := Cache.removeKey server.members user.id }
          let c1 := { c with servers := Cache.modify c.servers gid (fun _ => server1) }
          Run.done c1 [emit c1 "serverMemberRemoved" [Arg.server server1, Arg.user user]]
        | none => Run.done c [warn c "server member removed but user doesn't exist in cache"]
    | none => Run.done c [warn c "server member removed but server doesn't exist in cache"]

/-- The case `PacketType.SERVER_MEMBER_UPDATE`: the three writes go to the
entry `server.memberMap[data.user.id]`, and raise a `TypeError` when that
entry is `undefined` or `null`. -/
def onServerMemberUpdate (c : InternalClient) (data : JSVal) : Run :=
  match data.get "guild_id" with
  | Except.error e => Run.raise c [] e
  | Except.ok gid =>
    match Cache.get c.servers gid with
    | some server =>
      match (data.field "user").get "id" with
      | Except.error e => Run.raise c [] e
      | Except.ok uid =>
        match Cache.get c.users uid with
        | some user =>
          match getMember server.memberMap uid with
          | some (some entry) =>
            match (data.field "roles").elements "map" with
            | Except.error e => Run.raise c [] e
            | Except.ok pids =>
              let entry1 : Member :=
                { entry with roles := memberRoles server.roles pids,
                             mute := data.field "mute", deaf := data.field "deaf" }
              let server1 := { server with
                memberMap := setMember server.memberMap uid (some entry1) }
              let c1 := { c with servers := Cache.modify c.servers gid (fun _ => server1) }
              Run.done c1 [emit c1 "serverMemberUpdated" [Arg.server server1, Arg.user user]]
          | _ => Run.raise c [] (JSError.typeError "roles")
        | none => Run.done c [warn c "server member removed but user doesn't exist in cache"]
    | none => Run.done c [warn c "server member updated but server doesn't exist in cache"]

/-- The four assignments `data.user.F = data.user.F || user.F` of the case
`PacketType.PRESENCE_UPDATE`, giving `data.user` afterwards. -/
def mergeUser (du : JSVal) (user : User) : Except JSError JSVal := do
  let d1 ← du.set "username" ((du.field "username").or user.username)
  let d2 ← d1.set "id" ((d1.field "id").or user.id)
  let d3 ← d2.set "avatar" ((d2.field "avatar").or user.avatar)
  d3.set "discriminator" ((d3.field "discriminator").or user.discriminator)

/-- The case `PacketType.PRESENCE_UPDATE`: each notification is emitted before
the cache is changed. -/
def onPresenceUpdate (c : InternalClient) (data : JSVal) : Run :=
  match data.get "user" with
  | Except.error e => Run.raise c [] e
  | Except.ok du =>
    match du.get "id" with
    | Except.error e => Run.raise c [] e
    | Except.ok uid =>
      match Cache.get c.users uid with
      | some user =>
        match mergeUser du user with
        | Except.error e => Run.raise c [] e
        | Except.ok du1 =>
          match User.construct du1 with
          | Except.error e => Run.raise c [] e
          | Except.ok presenceUser =>
            if presenceUser.equalsStrict user then
              let users1 := Cache.modify c.users uid
                (fun u => { u with status := data.field "status", gameID := data.field "game_id" })
              Run.done { c with users := users1 }
                [emit c "presence"
                  [Arg.user user, Arg.val (data.field "status"), Arg.val (data.field "game_id")]]
            else
              Run.done { c with users := Cache.update c.users user presenceUser }
                [emit c "userUpdate" [Arg.user user, Arg.user presenceUser]]
      | none => Run.done c [warn c "presence update but user not in cache"]

/-- The case `PacketType.TYPING`, handled at time `env.now`. -/
def onTyping (env : Env) (c : InternalClient) (data : JSVal) : Run :=
  match data.get "user_id" with
  | Except.error e => Run.raise c [] e
  | Except.ok uid =>
    match Cache.get c.users uid, Cache.get c.channels (data.field "channel_id") with
    | some user, some channel =>
      let user1 := { user with typing := { since := some env.now, channel := some channel.id } }
      let c1 := { c with users := Cache.modify c.users uid (fun _ => user1) }
      Run.done c1
        [ emit c1 "userTypingStart" [Arg.user user1, Arg.channel channel],
          { action := Action.setTimeout (Task.typingStop uid channel) (JSVal.num 6000),
            seen := c1 } ]
    | _, _ => Run.done c [warn c "user typing but user or channel not existant in cache"]

/-- The callback that the case `PacketType.TYPING` hands to `setTimeout`, run at
time `now`.  The `user` of the closure is the cached object of id `uid` (the
client never removes a user from the user cache), `channel` is the channel
the frame found; `null` counts as `0` in the subtraction
`Date.now() - user.typing.since`. -/
def typingStop (now : Int) (c : InternalClient) (uid : JSVal) (channel : Channel) : Run :=
  match Cache.get c.users uid with
  | some user =>
    if now - user.typing.since.getD 0 > 5990 then
      let user1 := { user with typing := { since := none, channel := none } }
      let c1 := { c with users := Cache.modify c.users uid (fun _ => user1) }
      Run.done c1 [emit c1 "userTypingStop" [Arg.user user1, Arg.channel channel]]
    else Run.done c []
  | none => Run.done c []

/-- The cases `PacketType.SERVER_BAN_ADD` and `PacketType.SERVER_BAN_REMOVE`,
which differ in the notification and the warning text. -/
def onBan (name text : String) (c : InternalClient) (data : JSVal) : Run :=
  match data.get "user" with
  | Except.error e => Run.raise c [] e
  | Except.ok du =>
    match du.get "id" with
    | Except.error e => Run.raise c [] e
    | Except.ok uid =>
      match Cache.get c.users uid, Cache.get c.servers (data.field "guild_id") with
      | some user, some server => Run.done c [emit c name [Arg.user user, Arg.server server]]
      | _, _ => Run.done c [warn c text]

/-- The cases of the `switch`, in source order. -/
def PacketType.all : List PacketType :=
  [ PacketType.READY, PacketType.MESSAGE_CREATE, PacketType.MESSAGE_DELETE,
    PacketType.MESSAGE_UPDATE, PacketType.SERVER_CREATE, PacketType.SERVER_DELETE,
    PacketType.SERVER_UPDATE, PacketType.CHANNEL_CREATE, PacketType.CHANNEL_DELETE,
    PacketType.CHANNEL_UPDATE, PacketType.SERVER_ROLE_CREATE, PacketType.SERVER_ROLE_DELETE,
    PacketType.SERVER_ROLE_UPDATE, PacketType.SERVER_MEMBER_ADD,
    PacketType.SERVER_MEMBER_REMOVE, PacketType.SERVER_MEMBER_UPDATE,
    PacketType.PRESENCE_UPDATE, PacketType.TYPING, PacketType.SERVER_BAN_ADD,
    PacketType.SERVER_BAN_REMOVE ]

/-- The case selected by `switch (packet.t)`: the first one whose constant is
the tag; none when no constant is. -/
def selectCase (env : Env) (t : JSVal) : Option PacketType :=
  PacketType.all.find? (fun p => decide (env.packetType p = t))

/-- The body of the selected case. -/
def handle (env : Env) (c : InternalClient) (p : PacketType) (data : JSVal) : Run :=
  match p with
  | PacketType.READY => onReady env c data
  | PacketType.MESSAGE_CREATE => onMessageCreate c data
  | PacketType.MESSAGE_DELETE => onMessageDelete c data
  | PacketType.MESSAGE_UPDATE => onMessageUpdate c data
  | PacketType.SERVER_CREATE => onServerCreate env c data
  | PacketType.SERVER_DELETE => onServerDelete c data
  | PacketType.SERVER_UPDATE => onServerUpdate env c data
  | PacketType.CHANNEL_CREATE => onChannelCreate c data
  | PacketType.CHANNEL_DELETE => onChannelDelete c data
  | PacketType.CHANNEL_UPDATE => onChannelUpdate c data
  | PacketType.SERVER_ROLE_CREATE => onServerRoleCreate c data
  | PacketType.SERVER_ROLE_DELETE => onServerRoleDelete c data
  | PacketType.SERVER_ROLE_UPDATE => onServerRoleUpdate c data
  | PacketType.SERVER_MEMBER_ADD => onServerMemberAdd env c data
  | PacketType.SERVER_MEMBER_REMOVE => onServerMemberRemove c data
  | PacketType.SERVER_MEMBER_UPDATE => onServerMemberUpdate c data
  | PacketType.PRESENCE_UPDATE => onPresenceUpdate c data
  | PacketType.TYPING => onTyping env c data
  | PacketType.SERVER_BAN_ADD =>
    onBan "userBanned" "user banned but user/server not in cache." c data
  | PacketType.SERVER_BAN_REMOVE =>
    onBan "userUnbanned" "user unbanned but user/server not in cache." c data

/-- The event handed to `websocket.onmessage`. -/
structure MessageEvent where
  type : String
  data : String

/-- The `try` block of `websocket.onmessage`: `packet = JSON.parse(e.data)` and
`data = packet.d`. -/
def decode (env : Env) (text : String) : Except JSError (JSVal × JSVal) :=
  match env.jsonParse text with
  | Except.error x => Except.error x
  | Except.ok packet =>
    match packet.get "d" with
    | Except.error x => Except.error x
    | Except.ok data => Except.ok (packet, data)

/-- The handler `websocket.onmessage`. -/
def onmessage (env : Env) (c : InternalClient) (e : MessageEvent) : Run :=
  match (if e.type = "Binary" then env.inflate e.data else Except.ok e.data) with
  | Except.error x => Run.raise c [] x
  | Except.ok text =>
    match decode env text with
    | Except.error x => Run.done c [emit c "error" [Arg.error x]]
    | Except.ok (packet, data) =>
      match selectCase env (packet.field "t") with
      | some p => Run.after (emit c "raw" [Arg.val packet]) (handle env c p data)
      | none => Run.done c [emit c "raw" [Arg.val packet]]

/-- The handler `websocket.onopen`: the handshake frame. -/
def onopen (env : Env) (c : InternalClient) : Run :=
  Run.done c (sendWS c (JSVal.obj
    [ ("op", JSVal.num 2),
      ("d", JSVal.obj
        [ ("token", c.token), ("v", JSVal.num 3), ("compress", env.compress),
          ("properties", JSVal.obj
            [ ("$os", JSVal.str "discord.js"), ("$browser", JSVal.str "discord.js"),
              ("$device", JSVal.str "discord.js"), ("$referrer", JSVal.str "discord.js"),
              ("$referring_domain", JSVal.str "discord.js") ]) ]) ]))

/-- The handler `websocket.onclose`. -/
def onclose (c : InternalClient) : Run :=
  let c1 := { c with websocket := none, state := ConnectionState.DISCONNECTED }
  Run.done c1 [emit c1 "disconnected" []]

/-- The method `createWS(url)` up to the installation of the three handlers. -/
def createWS (c : InternalClient) (url : JSVal) : Run :=
  match c.websocket with
  | some _ => Run.done c []
  | none =>
    Run.done { c with websocket := some { url := url } }
      [{ action := Action.wsOpen url, seen := c }]

/-! ## The commands

A command is given with the arguments it has after the resolver
(Resolver/Resolver.js, an outside collaborator) has run.  The function named
after the command is what runs when the command is called, up to the moment
the request is handed to the transport; the callback of the request is a
function of its own, taking the `err` and `res` the transport supplies. -/

/-- The call `request.<method>(endpoint).set("authorization", self.token)`
with body `body`, issued when the client is `c`. -/
def authorized (c : InternalClient) (method : String) (endpoint : Endpoint) (query : String)
    (body : JSVal) : Effect :=
  { action := Action.request
      { method := method, endpoint := endpoint, query := query,
        authorization := some c.token, body := body, file := none },
    seen := c }

/-- A command that left its promise pending. -/
def Settled.wait (c : InternalClient) (es : List Effect) : Settled :=
  { client := c, effects := es, outcome := Outcome.pending, thrown := none }

/-- The call `reject(new Error(message))`. -/
def Settled.reject (c : InternalClient) (es : List Effect) (message : JSVal) : Settled :=
  { client := c, effects := es, outcome := Outcome.rejected message, thrown := none }

/-- The call `resolve(v)`. -/
def Settled.resolve (c : InternalClient) (es : List Effect) (v : Arg) : Settled :=
  { client := c, effects := es, outcome := Outcome.resolved v, thrown := none }

/-- A callback ended by an exception: its promise stays pending. -/
def Settled.raise (c : InternalClient) (es : List Effect) (e : JSError) : Settled :=
  { client := c, effects := es, outcome := Outcome.pending, thrown := some e }

/-- The expression `err.response.text`. -/
def responseText (err : JSVal) : Except JSError JSVal :=
  match err.get "response" with
  | Except.error e => Except.error e
  | Except.ok r => r.get "text"

/-- The branch `if (err) reject(new Error(err.response.text))` shared by the
request callbacks. -/
def rejectWith (c : InternalClient) (es : List Effect) (err : JSVal) : Settled :=
  match responseText err with
  | Except.error e => Settled.raise c es e
  | Except.ok text => Settled.reject c es text

/-- The method `createServer(name, region = "london")`. -/
def createServer (c : InternalClient) (name region : JSVal) : Settled :=
  let region1 := if region = JSVal.undefined then JSVal.str "london" else region
  Settled.wait c [authorized c "POST" Endpoint.SERVERS ""
    (JSVal.obj [("name", name), ("region", region1)])]

/-- The callback of the request of `createServer`. -/
def createServerDone (c : InternalClient) (err res : JSVal) : Settled :=
  if err.truthy then rejectWith c [] err
  else Settled.wait c
    [{ action := Action.setInterval (Task.awaitServer res) (JSVal.num 20), seen := c }]

/-- The callback that `createServer` hands to `setInterval`. -/
def awaitServer (c : InternalClient) (res : JSVal) : Settled :=
  match res.get "body" with
  | Except.error e => Settled.raise c [] e
  | Except.ok body =>
    match body.get "id" with
    | Except.error e => Settled.raise c [] e
    | Except.ok id =>
      match Cache.get c.servers id with
      | some server =>
        Settled.resolve c
          [{ action := Action.clearInterval (Task.awaitServer res), seen := c }]
          (Arg.server server)
      | none => Settled.wait c []

/-- Modelled from the spec: `resolver.resolveServer` (Resolver/Resolver.js is
absent): the cached entity or an absent result, never a fabricated one. -/
def resolveServer (c : InternalClient) (srv : JSVal) : Option Server :=
  Cache.get c.servers srv

/-- Modelled from the spec: `resolver.resolveUser` (Resolver/Resolver.js is
absent): the cached entity or an absent result. -/
def resolveUser (c : InternalClient) (resUser : JSVal) : Option User :=
  Cache.get c.users resUser

/-- The method `leaveServer(srv)`. -/
def leaveServer (c : InternalClient) (srv : JSVal) : Settled :=
  match resolveServer c srv with
  | some server =>
    Settled.wait c [authorized c "DELETE" (Endpoint.SERVER server.id) "" JSVal.undefined]
  | none => Settled.reject c [] (JSVal.str "server did not resolve")

/-- The callback of the request of `leaveServer`, for the server that the
command resolved. -/
def leaveServerDone (c : InternalClient) (server : Server) (err : JSVal) : Settled :=
  if err.truthy then rejectWith c [] err
  else
    let listed :=
      match Cache.get c.servers server.id with
      | some s => s.channels
      | none => server.channels
    Settled.resolve
      { c with channels := removeChannels c.channels listed,
               servers := Cache.remove c.servers server }
      [] Arg.absent

/-- The method `login(email, password)`. -/
def login (c : InternalClient) (email password : JSVal) : Settled :=
  if c.state = ConnectionState.DISCONNECTED ∨ c.state = ConnectionState.IDLE then
    let c1 := { c with state := ConnectionState.LOGGING_IN }
    Settled.wait c1
      [{ action := Action.request
          { method := "POST", endpoint := Endpoint.LOGIN, query := "", authorization := none,
            body := JSVal.obj [("email", email), ("password", password)], file := none },
         seen := c1 }]
  else Settled.reject c [] (JSVal.str "already logging in/logged in/ready!")

/-- The callback of the credential request of `login`; on success it calls
`getGateway()`, which issues the gateway request. -/
def loginDone (c : InternalClient) (email password err res : JSVal) : Settled :=
  if err.truthy then
    let c1 := { c with state := ConnectionState.DISCONNECTED, websocket := none }
    rejectWith c1 [emit c1 "disconnected" []] err
  else
    match res.get "body" with
    | Except.error e => Settled.raise c [] e
    | Except.ok body =>
      match body.get "token" with
      | Except.error e => Settled.raise c [] e
      | Except.ok token =>
        let c1 := { c with state := ConnectionState.LOGGED_IN, token := token,
                           email := email, password := password }
        Settled.wait c1 [authorized c1 "GET" Endpoint.GATEWAY "" JSVal.undefined]

/-- The callback of the gateway request together with the `then` and `catch`
that `login` attaches to `getGateway()`.  `err` is the variable of the
credential callback, which the `catch` handler reads; `token` is its local
variable. -/
def gatewayDone (c : InternalClient) (err token gerr gres : JSVal) : Settled :=
  if gerr.truthy then
    let c1 := { c with state := ConnectionState.DISCONNECTED }
    rejectWith c1 [emit c1 "disconnected" []] err
  else
    match gres.get "body" with
    | Except.error e => Settled.raise c [] e
    | Except.ok body =>
      match body.get "url" with
      | Except.error e => Settled.raise c [] e
      | Except.ok url =>
        let r := createWS c url
        Settled.resolve r.client r.effects (Arg.val token)

/-- The method `logout()`. -/
def logout (c : InternalClient) : Settled :=
  if c.state = ConnectionState.DISCONNECTED ∨ c.state = ConnectionState.IDLE then
    Settled.reject c [] (JSVal.str "Client is not logged in!")
  else Settled.wait c [authorized c "POST" Endpoint.LOGOUT "" JSVal.undefined]

/-- The callback of the request of `logout`. -/
def logoutDone (c : InternalClient) (err : JSVal) : Settled :=
  if err.truthy then rejectWith c [] err
  else
    let closing : List Effect :=
      match c.websocket with
      | some _ => [{ action := Action.wsClose, seen := c }]
      | none => []
    Settled.resolve
      { c with websocket := none, token := JSVal.null, email := JSVal.null,
               password := JSVal.null, state := ConnectionState.DISCONNECTED }
      closing Arg.absent

/-- The method `startPM(resUser)`. -/
def startPM (c : InternalClient) (resUser : JSVal) : Settled :=
  match resolveUser c resUser with
  | some user =>
    Settled.wait c [authorized c "POST" (Endpoint.USER_CHANNELS user.id) ""
      (JSVal.obj [("recipient_id", user.id)])]
  | none => Settled.reject c [] (JSVal.str "Unable to resolve resUser to a User")

/-- The function `next` of `sendMessage`, called with the destination that
`resolveChannel` gave; `content` and `mentions` are the results of
`resolveString` and `resolveMentions`, `tts` is `options.tts`. -/
def sendMessage (c : InternalClient) (destination : Channel) (content mentions tts : JSVal) :
    Settled :=
  Settled.wait c [authorized c "POST" (Endpoint.CHANNEL_MESSAGES destination.id) ""
    (JSVal.obj [("content", content), ("mentions", mentions), ("tts", tts)])]

/-- The function `deleteMsg` of `deleteMessage`. -/
def deleteMsg (c : InternalClient) (message : Message) : Settled :=
  Settled.wait c [authorized c "DELETE" (Endpoint.CHANNEL_MESSAGE message.channel message.id) ""
    JSVal.undefined]

/-- The method `deleteMessage(_message, options)`; `message` is the result
of `resolveMessage`, `wait` is `options.wait`. -/
def deleteMessage (c : InternalClient) (message : Option Message) (wait : JSVal) : Settled :=
  match message with
  | some m =>
    if wait.truthy then
      Settled.wait c [{ action := Action.setTimeout (Task.deleteMsg m) wait, seen := c }]
    else deleteMsg c m
  | none => Settled.reject c [] (JSVal.str "Supplied message did not resolve to a message!")

/-- The method `updateMessage(msg, _content, options)`; `message` is the result
of `resolveMessage`. -/
def updateMessage (c : InternalClient) (message : Option Message) (content mentions tts : JSVal) :
    Settled :=
  match message with
  | some m =>
    Settled.wait c [authorized c "PATCH" (Endpoint.CHANNEL_MESSAGE m.channel m.id) ""
      (JSVal.obj [("content", content), ("tts", tts), ("mentions", mentions)])]
  | none => Settled.reject c [] (JSVal.str "Supplied message did not resolve to a message!")

/-- The function `next` of `sendFile`, called with the channel that
`resolveChannel` gave; `file` is the result of `resolveFile`. -/
def sendFile (c : InternalClient) (channel : Channel) (file name : JSVal) : Settled :=
  let name1 := if name = JSVal.undefined then JSVal.str "image.png" else name
  Settled.wait c
    [{ action := Action.request
        { method := "POST", endpoint := Endpoint.CHANNEL_MESSAGES channel.id, query := "",
          authorization := some c.token, body := JSVal.undefined, file := some (file, name1) },
       seen := c }]

/-- The array `params` of `getChannelLogs`; `before` and `after` are the
results of `resolveMessage`, absent when the option is not given or does not
resolve. -/
def logParams (before after : Option Message) : List String :=
  (match before with
    | some m => ["before=" ++ m.id.toStr]
    | none => []) ++
  (match after with
    | some m => ["after=" ++ m.id.toStr]
    | none => [])

/-- The text `joinedParams` of `getChannelLogs`: `params.join()` separates
with a comma. -/
def joinedParams (params : List String) : String :=
  if ",".intercalate params ≠ "" then "&" ++ ",".intercalate params else ""

/-- The function `next` of `getChannelLogs`, called with the channel that
`resolveChannel` gave; `limit` defaults to 500. -/
def getChannelLogs (c : InternalClient) (channel : Channel) (limit : JSVal)
    (before after : Option Message) : Settled :=
  let limit1 := if limit = JSVal.undefined then JSVal.num 500 else limit
  Settled.wait c [authorized c "GET" (Endpoint.CHANNEL_MESSAGES channel.id)
    ("?limit=" ++ limit1.toStr ++ joinedParams (logParams before after)) JSVal.undefined]

/-! ## Example states and frames -/

/-- A cached message of channel "10" that mentions everyone. -/
def exMessage : Message :=
  { id := JSVal.str "100", channel := JSVal.str "10", nonce := JSVal.undefined,
    attachments := JSVal.arr [], tts := JSVal.bool true, embeds := JSVal.arr [],
    timestamp := JSVal.str "2015-11-01T10:00:00", everyoneMentioned := JSVal.bool true,
    content := JSVal.str "hi", mentions := JSVal.arr [],
    author := JSVal.obj [("id", JSVal.str "7")] }

/-- The text channel "10" of server "1", holding `exMessage`. -/
def exChannel : Channel :=
  { kind := ChannelKind.text, id := JSVal.str "10", type := JSVal.str "text",
    name := JSVal.str "general", server := some (JSVal.str "1"), messages := [exMessage] }

/-- A live client whose channel cache holds `exChannel`. -/
def exClient : InternalClient :=
  { InternalClient.new with
    state := ConnectionState.READY, token := JSVal.str "token",
    websocket := some { url := JSVal.str "wss://gateway" }, channels := [exChannel] }

/-- A message-updated frame for `exMessage` that provides `mention_everyone: false`,
`tts: false` and the empty content. -/
def exUpdateFrame : JSVal :=
  JSVal.obj
    [ ("channel_id", JSVal.str "10"), ("id", JSVal.str "100"),
      ("mention_everyone", JSVal.bool false), ("tts", JSVal.bool false),
      ("content", JSVal.str "") ]

/-- A member entry. -/
def exMember : Member :=
  { roles := [], mute := JSVal.bool false, deaf := JSVal.bool false, joinedAt := JSVal.num 0 }

/-- The server "1": its channel list holds channel "10", its member map
holds user "7" only. -/
def exServer : Server :=
  { id := JSVal.str "1", name := JSVal.str "guild", region := JSVal.str "london",
    channels := [JSVal.str "10"], roles := [], members := [JSVal.str "7"],
    memberMap := [(JSVal.str "7", some exMember)] }

/-- A user that is online. -/
def exUser (id name : String) : User :=
  { id := JSVal.str id, username := JSVal.str name, discriminator := JSVal.str "0001",
    avatar := JSVal.null, status := JSVal.str "online", gameID := JSVal.null,
    typing := { since := none, channel := none } }

/-- A live client that caches server "1", its channel "10", its member "7"
and a user "8" who is not a member of server "1". -/
def exGuildClient : InternalClient :=
  { exClient with servers := [exServer], users := [exUser "7" "bob", exUser "8" "eve"] }

/-- The payload of a member frame of server "1" for the user of the given id. -/
def exMemberFrame (user : String) : JSVal :=
  JSVal.obj
    [ ("guild_id", JSVal.str "1"), ("user", JSVal.obj [("id", JSVal.str user)]),
      ("roles", JSVal.arr []), ("mute", JSVal.bool true), ("deaf", JSVal.bool false),
      ("joined_at", JSVal.str "2015-11-01T10:00:00") ]

/-- The tags of the gateway's frames, as an example of the constant table. -/
def exTags : PacketType → JSVal
  | PacketType.READY => JSVal.str "READY"
  | PacketType.MESSAGE_CREATE => JSVal.str "MESSAGE_CREATE"
  | PacketType.MESSAGE_DELETE => JSVal.str "MESSAGE_DELETE"
  | PacketType.MESSAGE_UPDATE => JSVal.str "MESSAGE_UPDATE"
  | PacketType.SERVER_CREATE => JSVal.str "GUILD_CREATE"
  | PacketType.SERVER_DELETE => JSVal.str "GUILD_DELETE"
  | PacketType.SERVER_UPDATE => JSVal.str "GUILD_UPDATE"
  | PacketType.CHANNEL_CREATE => JSVal.str "CHANNEL_CREATE"
  | PacketType.CHANNEL_DELETE => JSVal.str "CHANNEL_DELETE"
  | PacketType.CHANNEL_UPDATE => JSVal.str "CHANNEL_UPDATE"
  | PacketType.SERVER_ROLE_CREATE => JSVal.str "GUILD_ROLE_CREATE"
  | PacketType.SERVER_ROLE_DELETE => JSVal.str "GUILD_ROLE_DELETE"
  | PacketType.SERVER_ROLE_UPDATE => JSVal.str "GUILD_ROLE_UPDATE"
  | PacketType.SERVER_MEMBER_ADD => JSVal.str "GUILD_MEMBER_ADD"
  | PacketType.SERVER_MEMBER_REMOVE => JSVal.str "GUILD_MEMBER_REMOVE"
  | PacketType.SERVER_MEMBER_UPDATE => JSVal.str "GUILD_MEMBER_UPDATE"
  | PacketType.PRESENCE_UPDATE => JSVal.str "PRESENCE_UPDATE"
  | PacketType.TYPING => JSVal.str "TYPING_START"
  | PacketType.SERVER_BAN_ADD => JSVal.str "GUILD_BAN_ADD"
  | PacketType.SERVER_BAN_REMOVE => JSVal.str "GUILD_BAN_REMOVE"

/-- Surroundings in which the clock reads `now`. -/
def exEnv (now : Int) : Env :=
  { now := now, later := now, dateParse := fun _ => JSVal.num 0,
    jsonParse := fun _ => Except.error (JSError.syntaxError "Unexpected token"),
    inflate := fun text => Except.ok text, packetType := exTags,
    compress := JSVal.bool false }

/-- The voice channel "20" of server "2". -/
def exChannel20 : Channel :=
  { kind := ChannelKind.voice, id := JSVal.str "20", type := JSVal.str "voice",
    name := JSVal.str "lounge", server := some (JSVal.str "2"), messages := [] }

/-- The server "2", whose channel list holds channel "20". -/
def exServer2 : Server :=
  { id := JSVal.str "2", name := JSVal.str "other", region := JSVal.str "london",
    channels := [JSVal.str "20"], roles := [], members := [], memberMap := [] }

/-- A live client that caches the servers "1" and "2" and their channels
"10" and "20". -/
def exTwoGuilds : InternalClient :=
  { exGuildClient with servers := [exServer, exServer2], channels := [exChannel, exChannel20] }

/-- A presence frame for user "7" that carries a status and a game only. -/
def exPresenceFrame : JSVal :=
  JSVal.obj
    [ ("user", JSVal.obj [("id", JSVal.str "7")]), ("status", JSVal.str "idle"),
      ("game_id", JSVal.num 3), ("guild_id", JSVal.str "1") ]

/-- A presence frame for user "7" that carries the new username "robert". -/
def exRenameFrame : JSVal :=
  JSVal.obj
    [ ("user", JSVal.obj [("id", JSVal.str "7"), ("username", JSVal.str "robert")]),
      ("status", JSVal.str "online"), ("game_id", JSVal.null), ("guild_id", JSVal.str "1") ]

/-- A full-sync payload with one server "1" that contains one text channel "10". -/
def exReadyFrame : JSVal :=
  JSVal.obj
    [ ("user", JSVal.obj [("id", JSVal.str "5"), ("username", JSVal.str "me")]),
      ("guilds", JSVal.arr
        [ JSVal.obj
            [ ("id", JSVal.str "1"), ("name", JSVal.str "guild"),
              ("region", JSVal.str "london"), ("roles", JSVal.arr []),
              ("channels", JSVal.arr
                [ JSVal.obj [("id", JSVal.str "10"), ("type", JSVal.str "text"),
                    ("name", JSVal.str "general")] ]),
              ("members", JSVal.arr []) ] ]),
      ("private_channels", JSVal.arr []),
      ("heartbeat_interval", JSVal.num 41250) ]

/-- An authenticated client whose websocket is open and whose caches are
empty. -/
def exLoggedIn : InternalClient :=
  { InternalClient.new with
    state := ConnectionState.LOGGED_IN, token := JSVal.str "token",
    websocket := some { url := JSVal.str "wss://gateway" } }

/-- The client after the full-sync frame `exReadyFrame`. -/
def exSynced : InternalClient := (onReady (exEnv 0) exLoggedIn exReadyFrame).client

/-- The message-created frame of the end-to-end scenario. -/
def exCreateFrame : JSVal :=
  JSVal.obj
    [ ("channel_id", JSVal.str "10"), ("id", JSVal.str "100"), ("content", JSVal.str "hi") ]

/-- A typing frame of user "7" in channel "10". -/
def exTypingFrame : JSVal :=
  JSVal.obj [("user_id", JSVal.str "7"), ("channel_id", JSVal.str "10")]

/-- The role "r1" of server "1". -/
def exRole : Role :=
  { id := JSVal.str "r1", name := JSVal.str "admin", permissions := JSVal.num 8,
    server := JSVal.str "1" }

/-- The server "1" with the role "r1" in its role set. -/
def exServerWithRole : Server := { exServer with roles := [exRole] }

/-- A live client whose only cached server is the server "1" with its role. -/
def exRoleClient : InternalClient := { exGuildClient with servers := [exServerWithRole] }

/-- A guild payload that carries identity, name and region only: it mentions
no members, no roles and no channels. -/
def exGuildFrame (id name : String) : JSVal :=
  JSVal.obj
    [ ("id", JSVal.str id), ("name", JSVal.str name), ("region", JSVal.str "london") ]

/-- A channel-created frame for the direct channel "50" with user "8": a
direct channel has no parent server, the payload carries no `guild_id`. -/
def exDirectFrame : JSVal :=
  JSVal.obj
    [ ("id", JSVal.str "50"), ("is_private", JSVal.bool true),
      ("recipient", JSVal.obj [("id", JSVal.str "8"), ("username", JSVal.str "eve")]) ]

/-- The same frame with the `guild_id` of the cached server "1" added. -/
def exDirectInGuildFrame : JSVal :=
  JSVal.obj
    [ ("id", JSVal.str "50"), ("is_private", JSVal.bool true), ("guild_id", JSVal.str "1"),
      ("recipient", JSVal.obj [("id", JSVal.str "8"), ("username", JSVal.str "eve")]) ]

/-- The client after an accepted credential request and before the gateway
answer: state `LOGGED_IN`, token and credentials stored, no websocket yet. -/
def exAuthenticated : InternalClient :=
  { InternalClient.new with state := ConnectionState.LOGGED_IN, token := JSVal.str "token",
                            email := JSVal.str "a@b.c", password := JSVal.str "pw" }

/-- The error of a failed request, as the transport hands it over: it carries
the response and the response its text. -/
def exHttpError : JSVal :=
  JSVal.obj [("response", JSVal.obj [("text", JSVal.str "503 gateway unavailable")])]

/-- The response of an accepted credential request. -/
def exLoginResponse : JSVal :=
  JSVal.obj [("body", JSVal.obj [("token", JSVal.str "token")])]

/-- A message-deleted frame for message "100" of channel "10". -/
def exDeleteFrame : JSVal :=
  JSVal.obj [("channel_id", JSVal.str "10"), ("id", JSVal.str "100")]

/-- A channel-deleted frame for channel "10". -/
def exChannelGone : JSVal := JSVal.obj [("id", JSVal.str "10")]

/-- A second message of channel "10", of identity "200". -/
def exLaterMessage : Message := { exMessage with id := JSVal.str "200" }

/-- The direct channel "50", as the full-sync case, the channel-created case
and `startPM` store it: in the direct-channel cache, with no parent server. -/
def exDirectChannel : Channel :=
  { kind := ChannelKind.pm, id := JSVal.str "50", type := JSVal.undefined,
    name := JSVal.undefined, server := none, messages := [] }

/-- A live client that caches server "1" and holds the direct channel "50". -/
def exDirectClient : InternalClient :=
  { exGuildClient with private_channels := [exDirectChannel] }

/-- A channel-deleted (or channel-updated) frame for the direct channel "50". -/
def exDirectGone : JSVal := JSVal.obj [("id", JSVal.str "50"), ("is_private", JSVal.bool true)]

/-- Surroundings whose `JSON.parse` gives `packet`. -/
def exParsing (packet : JSVal) : Env :=
  { exEnv 0 with jsonParse := fun _ => Except.ok packet }

/-- The error of a request that got no answer (a network failure): it carries
a message and no response. -/
def exNetworkError : JSVal :=
  JSVal.obj [("message", JSVal.str "connect ECONNREFUSED")]

/-! ## Predicates used by the properties -/

/-- The payload is there, and so is its `user` object for the frames whose
case reads `data.user.id`. -/
def carriesReferences (p : PacketType) (data : JSVal) : Bool :=
  !data.nullish &&
  (match p with
    | PacketType.SERVER_MEMBER_ADD => !(data.field "user").nullish
    | PacketType.SERVER_MEMBER_REMOVE => !(data.field "user").nullish
    | PacketType.SERVER_MEMBER_UPDATE => !(data.field "user").nullish
    | PacketType.PRESENCE_UPDATE => !(data.field "user").nullish
    | _ => true)

/-- The frame refers to an entity that its case needs cached and that is not
cached: the channel of a message frame; the server of a role or member
frame; the user of a member-removed, member-updated or presence frame; the
user or the channel of a typing frame.  A member-added frame needs its server
only: its user is added to the user cache. -/
def lacksReferent (c : InternalClient) (p : PacketType) (data : JSVal) : Bool :=
  match p with
  | PacketType.MESSAGE_CREATE => (Cache.get c.channels (data.field "channel_id")).isNone
  | PacketType.MESSAGE_DELETE => (Cache.get c.channels (data.field "channel_id")).isNone
  | PacketType.MESSAGE_UPDATE => (Cache.get c.channels (data.field "channel_id")).isNone
  | PacketType.SERVER_ROLE_CREATE => (Cache.get c.servers (data.field "guild_id")).isNone
  | PacketType.SERVER_ROLE_DELETE => (Cache.get c.servers (data.field "guild_id")).isNone
  | PacketType.SERVER_ROLE_UPDATE => (Cache.get c.servers (data.field "guild_id")).isNone
  | PacketType.SERVER_MEMBER_ADD => (Cache.get c.servers (data.field "guild_id")).isNone
  | PacketType.SERVER_MEMBER_REMOVE =>
    (Cache.get c.servers (data.field "guild_id")).isNone ||
      (Cache.get c.users ((data.field "user").field "id")).isNone
  | PacketType.SERVER_MEMBER_UPDATE =>
    (Cache.get c.servers (data.field "guild_id")).isNone ||
      (Cache.get c.users ((data.field "user").field "id")).isNone
  | PacketType.PRESENCE_UPDATE => (Cache.get c.users ((data.field "user").field "id")).isNone
  | PacketType.TYPING =>
    (Cache.get c.users (data.field "user_id")).isNone ||
      (Cache.get c.channels (data.field "channel_id")).isNone
  | _ => false

/-- A guild payload whose role, channel and member entries are objects the
`Server` constructor can read: the payload is there, no role or channel entry
is `undefined` or `null`, and every member entry carries its `user`. -/
def wellFormedGuild (d : JSVal) : Bool :=
  !d.nullish &&
  (listField d "roles").all (fun r => !r.nullish) &&
  (listField d "channels").all (fun ch => !ch.nullish) &&
  (listField d "members").all (fun m => !(m.field "user").nullish)

/-- A full-sync payload that carries its fields: its own `user`, an array of
well-formed guilds and an array of private channels. -/
def wellFormedReady (data : JSVal) : Bool :=
  !data.nullish && !(data.field "user").nullish &&
  (match data.field "guilds" with
    | JSVal.arr gs => gs.all wellFormedGuild
    | _ => false) &&
  (match data.field "private_channels" with
    | JSVal.arr ps => ps.all (fun p => !p.nullish)
    | _ => false)

/-- The calls of `setInterval` among the effects: callback and period. -/
def scheduledIntervals (es : List Effect) : List (Task × JSVal) :=
  es.filterMap (fun e => match e.action with
    | Action.setInterval task ms => some (task, ms)
    | _ => none)

/-- Every notification of the run other than the diagnostic "warn" is observed
with the client as the run leaves it. -/
def SeesResult (r : Run) : Prop :=
  ∀ e ∈ r.effects, ∀ name, e.emitted = some name → name ≠ "warn" → e.seen = r.client

/-- Every effect of the run is observed with the client `c`. -/
def SeesClient (c : InternalClient) (r : Run) : Prop :=
  ∀ e ∈ r.effects, e.seen = c

/-- Every cache holds at most one entry per identity: the global channel
cache, the server cache and the channel list of every cached server. -/
def DistinctIds (c : InternalClient) : Prop :=
  (c.channels.map Channel.id).Nodup ∧ (c.servers.map Server.id).Nodup ∧
  ∀ S ∈ c.servers, S.channels.Nodup

/-- A channel is in the global channel cache with parent server `S` if and
only if it is in the channel list of the cached server `S`: every id listed
by a cached server is the id of a cached channel whose parent is that server,
and every cached channel whose parent is a cached server is listed by it. -/
def Consistent (c : InternalClient) : Prop :=
  ∀ S ∈ c.servers,
    (∀ id ∈ S.channels, ∃ ch ∈ c.channels, ch.id = id ∧ ch.server = some S.id) ∧
    (∀ ch ∈ c.channels, ch.server = some S.id → ch.id ∈ S.channels)

instance (c : InternalClient) : Decidable (DistinctIds c) := by
  unfold DistinctIds; infer_instance

instance (c : InternalClient) : Decidable (Consistent c) := by
  unfold Consistent; infer_instance

/-- The predicates `DistinctIds` and `Consistent` together, on the two caches
they read. -/
def Linked (channels : List Channel) (servers : List Server) : Prop :=
  ((channels.map Channel.id).Nodup ∧ (servers.map Server.id).Nodup ∧
    ∀ S ∈ servers, S.channels.Nodup) ∧
  ∀ S ∈ servers,
    (∀ id ∈ S.channels, ∃ ch ∈ channels, ch.id = id ∧ ch.server = some S.id) ∧
    (∀ ch ∈ channels, ch.server = some S.id → ch.id ∈ S.channels)

/-- The two clients have the same connection state, token, email, password
and websocket handle. -/
def SameSession (a b : InternalClient) : Prop :=
  a.state = b.state ∧ a.token = b.token ∧ a.email = b.email ∧ a.password = b.password ∧
  a.websocket = b.websocket

instance (a b : InternalClient) : Decidable (SameSession a b) := by
  unfold SameSession; infer_instance

/-! ## Properties -/

theorem JSVal.get_of_not_nullish {v : JSVal} (h : v.nullish = false) (k : String) :
    v.get k = Except.ok (v.field k) := by
  simp [JSVal.get, h]

theorem JSVal.lookup_assign (fs : List (String × JSVal)) (k k' : String) (x : JSVal) :
    JSVal.lookup (JSVal.assign fs k x) k' = if k = k' then x else JSVal.lookup fs k' := by
  induction fs with
  | nil => simp [JSVal.assign, JSVal.lookup]
  | cons p rest ih =>
    obtain ⟨k0, v⟩ := p
    by_cases h : k0 = k
    · subst h
      by_cases h2 : k0 = k' <;> simp [JSVal.assign, JSVal.lookup, h2]
    · by_cases h' : k0 = k'
      · subst h'
        have hk : ¬ k = k0 := fun e => h e.symm
        simp [JSVal.assign, JSVal.lookup, h, hk]
      · simp [JSVal.assign, JSVal.lookup, h, h', ih]

/-- What the nine assignments of `MESSAGE_UPDATE` do on an object payload: the
payload handed to the replacement message carries, for each field, the
frame's value when that value is truthy and the message's previous value
otherwise (also when the frame provides a falsy value). -/
theorem mergeMessage_fields (fs : List (String × JSVal)) (msg : Message) :
    ∃ merged, mergeMessage (JSVal.obj fs) msg = Except.ok merged ∧
      merged.field "nonce" = (JSVal.lookup fs "nonce").or msg.nonce ∧
      merged.field "attachments" = (JSVal.lookup fs "attachments").or msg.attachments ∧
      merged.field "tts" = (JSVal.lookup fs "tts").or msg.tts ∧
      merged.field "embeds" = (JSVal.lookup fs "embeds").or msg.embeds ∧
      merged.field "timestamp" = (JSVal.lookup fs "timestamp").or msg.timestamp ∧
      merged.field "mention_everyone" =
        (JSVal.lookup fs "mention_everyone").or msg.everyoneMentioned ∧
      merged.field "content" = (JSVal.lookup fs "content").or msg.content ∧
      merged.field "mentions" = (JSVal.lookup fs "mentions").or msg.mentions ∧
      merged.field "author" = (JSVal.lookup fs "author").or msg.author := by
  simp [mergeMessage, JSVal.set, bind, Except.bind, JSVal.field, JSVal.lookup_assign]

/-- C1, at the failing input.  The cached message `exMessage` mentions everyone,
has `tts` set and content "hi"; the frame `exUpdateFrame` explicitly provides
`mention_everyone: false`, `tts: false` and the empty content.  The payload
handed to the replacement message, and the message stored, carry the previous
values `true`, `true` and "hi", not the values of the frame. -/
theorem C1_update_keeps_previous_over_falsy :
    exUpdateFrame.field "mention_everyone" = JSVal.bool false ∧
    exUpdateFrame.field "tts" = JSVal.bool false ∧
    exUpdateFrame.field "content" = JSVal.str "" ∧
    (mergeMessage exUpdateFrame exMessage).toOption.map
      (fun d => (d.field "mention_everyone", d.field "tts", d.field "content"))
      = some (JSVal.bool true, JSVal.bool true, JSVal.str "hi") ∧
    (onMessageUpdate exClient exUpdateFrame).client.channels.map
      (fun ch => ch.messages.map (fun m => (m.id, m.everyoneMentioned, m.tts, m.content)))
      = [[(JSVal.str "100", JSVal.bool true, JSVal.bool true, JSVal.str "hi")]] ∧
    emittedNames (onMessageUpdate exClient exUpdateFrame).effects = ["messageUpdated"] := by
  decide

/-- C2, as stated, fails: in state `IDLE` the command `createServer` does not
reject; it leaves its promise pending and issues the request `POST SERVERS`,
with the `authorization` header set to the token the client has (`undefined`). -/
theorem C2_createServer_not_gated :
    InternalClient.new.state = ConnectionState.IDLE ∧
    (createServer InternalClient.new (JSVal.str "guild") JSVal.undefined).outcome
      = Outcome.pending ∧
    requestsOf (createServer InternalClient.new (JSVal.str "guild") JSVal.undefined).effects
      = [{ method := "POST", endpoint := Endpoint.SERVERS, query := "",
           authorization := some JSVal.undefined,
           body := JSVal.obj [("name", JSVal.str "guild"), ("region", JSVal.str "london")],
           file := none }] := by
  decide

/-- C2, amended.  In state `IDLE` or `DISCONNECTED`, `logout` rejects with
"Client is not logged in!", issues no request and leaves the client as it
is.  The other authenticated commands have no state gate: once their
arguments resolve, each of them issues exactly one request in these states
too, and leaves its promise pending. -/
theorem C2_logout_gated_others_not (c : InternalClient)
    (h : c.state = ConnectionState.IDLE ∨ c.state = ConnectionState.DISCONNECTED) :
    logout c = Settled.reject c [] (JSVal.str "Client is not logged in!") ∧
    (∀ name region, (requestsOf (createServer c name region).effects).length = 1 ∧
      (createServer c name region).outcome = Outcome.pending) ∧
    (∀ srv server, resolveServer c srv = some server →
      (requestsOf (leaveServer c srv).effects).length = 1 ∧
      (leaveServer c srv).outcome = Outcome.pending) ∧
    (∀ resUser user, resolveUser c resUser = some user →
      (requestsOf (startPM c resUser).effects).length = 1 ∧
      (startPM c resUser).outcome = Outcome.pending) ∧
    (∀ destination content mentions tts,
      (requestsOf (sendMessage c destination content mentions tts).effects).length = 1 ∧
      (sendMessage c destination content mentions tts).outcome = Outcome.pending) ∧
    (∀ m, (requestsOf (deleteMessage c (some m) JSVal.undefined).effects).length = 1 ∧
      (deleteMessage c (some m) JSVal.undefined).outcome = Outcome.pending) ∧
    (∀ m content mentions tts,
      (requestsOf (updateMessage c (some m) content mentions tts).effects).length = 1 ∧
      (updateMessage c (some m) content mentions tts).outcome = Outcome.pending) ∧
    (∀ channel file name, (requestsOf (sendFile c channel file name).effects).length = 1 ∧
      (sendFile c channel file name).outcome = Outcome.pending) ∧
    (∀ channel limit before after,
      (requestsOf (getChannelLogs c channel limit before after).effects).length = 1 ∧
      (getChannelLogs c channel limit before after).outcome = Outcome.pending) := by
  refine ⟨?_, ?_, ?_, ?_, ?_, ?_, ?_, ?_, ?_⟩
  · rcases h with h | h <;> simp [logout, h]
  · intro name region
    simp [createServer, Settled.wait, requestsOf, authorized]
  · intro srv server hs
    simp [leaveServer, hs, Settled.wait, requestsOf, authorized]
  · intro resUser user hu
    simp [startPM, hu, Settled.wait, requestsOf, authorized]
  · intro destination content mentions tts
    simp [sendMessage, Settled.wait, requestsOf, authorized]
  · intro m
    simp [deleteMessage, deleteMsg, JSVal.truthy, Settled.wait, requestsOf, authorized]
  · intro m content mentions tts
    simp [updateMessage, Settled.wait, requestsOf, authorized]
  · intro channel file name
    simp [sendFile, Settled.wait, requestsOf]
  · intro channel limit before after
    simp [getChannelLogs, Settled.wait, requestsOf, authorized]

/-- A witness of `C2_logout_gated_others_not`: the client as constructed is
in state `IDLE`. -/
theorem C2_logout_gated_others_not_witness :
    InternalClient.new.state = ConnectionState.IDLE ∧
    logout InternalClient.new
      = Settled.reject InternalClient.new [] (JSVal.str "Client is not logged in!") :=
  ⟨rfl, (C2_logout_gated_others_not InternalClient.new (Or.inl rfl)).1⟩

/-- C3.  In state `LOGGING_IN`, `LOGGED_IN` or `READY`, `login` rejects with
"already logging in/logged in/ready!", performs no effect (no request) and
leaves the client, so its state, token, email, password and websocket handle,
as it is.  In state `IDLE` or `DISCONNECTED`, `login` issues exactly one
request, the credential request, and the client at the moment the request is
issued, as afterwards, is the client before with its state set to
`LOGGING_IN`. -/
theorem C3_login_gating (c : InternalClient) (email password : JSVal) :
    ((c.state = ConnectionState.LOGGING_IN ∨ c.state = ConnectionState.LOGGED_IN ∨
        c.state = ConnectionState.READY) →
      login c email password
        = Settled.reject c [] (JSVal.str "already logging in/logged in/ready!")) ∧
    ((c.state = ConnectionState.IDLE ∨ c.state = ConnectionState.DISCONNECTED) →
      login c email password
        = Settled.wait { c with state := ConnectionState.LOGGING_IN }
            [{ action := Action.request
                { method := "POST", endpoint := Endpoint.LOGIN, query := "",
                  authorization := none,
                  body := JSVal.obj [("email", email), ("password", password)],
                  file := none },
               seen := { c with state := ConnectionState.LOGGING_IN } }]) := by
  constructor
  · intro h
    rcases h with h | h | h <;> simp [login, h]
  · intro h
    rcases h with h | h <;> simp [login, h]

/-- A witness of `C3_login_gating`: a live client, and the client as
constructed. -/
theorem C3_login_gating_witness :
    login exClient (JSVal.str "a@b.c") (JSVal.str "pw")
      = Settled.reject exClient [] (JSVal.str "already logging in/logged in/ready!") ∧
    login InternalClient.new (JSVal.str "a@b.c") (JSVal.str "pw")
      = Settled.wait { InternalClient.new with state := ConnectionState.LOGGING_IN }
          [{ action := Action.request
              { method := "POST", endpoint := Endpoint.LOGIN, query := "",
                authorization := none,
                body := JSVal.obj [("email", JSVal.str "a@b.c"), ("password", JSVal.str "pw")],
                file := none },
             seen := { InternalClient.new with state := ConnectionState.LOGGING_IN } }] :=
  ⟨(C3_login_gating exClient (JSVal.str "a@b.c") (JSVal.str "pw")).1 (Or.inr (Or.inr rfl)),
   (C3_login_gating InternalClient.new (JSVal.str "a@b.c") (JSVal.str "pw")).2 (Or.inl rfl)⟩

/-- C4, at the failing input.  Server "1" and user "8" are both cached and the
member map of server "1" has no entry for "8": the member-updated frame raises
a `TypeError`.  The same frame for the member "7" completes; once a
member-removed frame for "7" has set the entry to `null`, the member-updated
frame for "7" raises a `TypeError` as well. -/
theorem C4_member_update_raises :
    Cache.get exGuildClient.servers (JSVal.str "1") = some exServer ∧
    Cache.get exGuildClient.users (JSVal.str "8") = some (exUser "8" "eve") ∧
    getMember exServer.memberMap (JSVal.str "8") = none ∧
    (onServerMemberUpdate exGuildClient (exMemberFrame "8")).thrown
      = some (JSError.typeError "roles") ∧
    (onServerMemberUpdate exGuildClient (exMemberFrame "7")).thrown = none ∧
    (onServerMemberRemove exGuildClient (exMemberFrame "7")).thrown = none ∧
    (onServerMemberUpdate (onServerMemberRemove exGuildClient (exMemberFrame "7")).client
        (exMemberFrame "7")).thrown
      = some (JSError.typeError "roles") := by
  decide

/-- The member-updated handler raises a `TypeError` whenever server and user
are cached and the member map of the server has no entry, or the entry
`null`, for the user. -/
theorem memberUpdate_raises_without_entry (c : InternalClient) (data : JSVal) (S : Server)
    (u : User) (hdata : data.nullish = false) (huser : (data.field "user").nullish = false)
    (hS : Cache.get c.servers (data.field "guild_id") = some S)
    (hu : Cache.get c.users ((data.field "user").field "id") = some u)
    (hentry : getMember S.memberMap ((data.field "user").field "id") = none ∨
      getMember S.memberMap ((data.field "user").field "id") = some none) :
    onServerMemberUpdate c data = Run.raise c [] (JSError.typeError "roles") := by
  rcases hentry with h | h <;>
    simp [onServerMemberUpdate, JSVal.get, hdata, huser, hS, hu, h]

/-- C5, as stated, fails on a member-added frame whose user is not in the
cache: with its server cached, the frame emits the domain notification
"serverNewMember" and no warning, and adds the user to the user cache and to
the member map. -/
theorem C5_member_added_caches_new_user :
    Cache.get exGuildClient.users (JSVal.str "9") = none ∧
    emittedNames (onServerMemberAdd (exEnv 0) exGuildClient (exMemberFrame "9")).effects
      = ["serverNewMember"] ∧
    (onServerMemberAdd (exEnv 0) exGuildClient (exMemberFrame "9")).client.users.map User.id
      = [JSVal.str "7", JSVal.str "8", JSVal.str "9"] ∧
    (onServerMemberAdd (exEnv 0) exGuildClient (exMemberFrame "9")).client.servers.map
        (fun s => s.memberMap.map Prod.fst)
      = [[JSVal.str "7", JSVal.str "9"]] := by
  decide

/-- C5, amended.  For a message-created, message-deleted, message-updated,
role, member, presence or typing frame that carries its references and refers
to an entity its case needs cached and that is not cached (`lacksReferent`:
for a member-added frame this is the server only), the handler performs
exactly one effect, the emission of one "warn" notification, raises nothing
and leaves the client, and so every cache and member map, as it is. -/
theorem C5_graceful_degradation (env : Env) (c : InternalClient) (p : PacketType)
    (data : JSVal) (hw : carriesReferences p data = true)
    (hm : lacksReferent c p data = true) :
    ∃ text, handle env c p data = Run.done c [warn c text] := by
  cases p <;> simp [lacksReferent] at hm <;> simp [carriesReferences] at hw
  · simp [handle, onMessageCreate, JSVal.get, hw, hm]; exact ⟨_, rfl⟩
  · simp [handle, onMessageDelete, JSVal.get, hw, hm]; exact ⟨_, rfl⟩
  · simp [handle, onMessageUpdate, JSVal.get, hw, hm]; exact ⟨_, rfl⟩
  · simp [handle, onServerRoleCreate, JSVal.get, hw, hm]; exact ⟨_, rfl⟩
  · simp [handle, onServerRoleDelete, JSVal.get, hw, hm]; exact ⟨_, rfl⟩
  · simp [handle, onServerRoleUpdate, JSVal.get, hw, hm]; exact ⟨_, rfl⟩
  · simp [handle, onServerMemberAdd, JSVal.get, hw, hm]; exact ⟨_, rfl⟩
  · rcases hm with hm | hm
    · simp [handle, onServerMemberRemove, JSVal.get, hw, hm]; exact ⟨_, rfl⟩
    · cases hs : Cache.get c.servers (data.field "guild_id") <;>
        simp [handle, onServerMemberRemove, JSVal.get, hw, hm, hs] <;> exact ⟨_, rfl⟩
  · rcases hm with hm | hm
    · simp [handle, onServerMemberUpdate, JSVal.get, hw, hm]; exact ⟨_, rfl⟩
    · cases hs : Cache.get c.servers (data.field "guild_id") <;>
        simp [handle, onServerMemberUpdate, JSVal.get, hw, hm, hs] <;> exact ⟨_, rfl⟩
  · simp [handle, onPresenceUpdate, JSVal.get, hw, hm]; exact ⟨_, rfl⟩
  · rcases hm with hm | hm
    · simp [handle, onTyping, JSVal.get, hw, hm]; exact ⟨_, rfl⟩
    · cases hu : Cache.get c.users (data.field "user_id") <;>
        simp [handle, onTyping, JSVal.get, hw, hm, hu] <;> exact ⟨_, rfl⟩

/-- A witness of `C5_graceful_degradation`: a message-created frame for the
channel "11", which is not cached. -/
theorem C5_graceful_degradation_witness :
    carriesReferences PacketType.MESSAGE_CREATE
        (JSVal.obj [("channel_id", JSVal.str "11"), ("id", JSVal.str "100")]) = true ∧
    lacksReferent exGuildClient PacketType.MESSAGE_CREATE
        (JSVal.obj [("channel_id", JSVal.str "11"), ("id", JSVal.str "100")]) = true ∧
    ∃ text, handle (exEnv 0) exGuildClient PacketType.MESSAGE_CREATE
        (JSVal.obj [("channel_id", JSVal.str "11"), ("id", JSVal.str "100")])
      = Run.done exGuildClient [warn exGuildClient text] :=
  ⟨by decide, by decide,
    C5_graceful_degradation (exEnv 0) exGuildClient PacketType.MESSAGE_CREATE
      (JSVal.obj [("channel_id", JSVal.str "11"), ("id", JSVal.str "100")])
      (by decide) (by decide)⟩

/-- In a cache that holds at most one entry per identity, removing the entry
of key `k` leaves exactly the entries of another key, in order. -/
theorem Cache.removeKey_eq_filter {α : Type} [Keyed α] (xs : List α) (k : JSVal)
    (h : (xs.map Keyed.key).Nodup) :
    Cache.removeKey xs k = xs.filter (fun x => decide (Keyed.key x ≠ k)) := by
  induction xs with
  | nil => simp [Cache.removeKey]
  | cons x rest ih =>
    simp only [List.map_cons, List.nodup_cons] at h
    by_cases hx : Keyed.key x = k
    · have hrest : rest.filter (fun y => decide (Keyed.key y ≠ k)) = rest := by
        rw [List.filter_eq_self]
        intro y hy
        have : Keyed.key y ≠ k := by
          intro e
          exact h.1 (by rw [hx, ← e]; exact List.mem_map_of_mem _ hy)
        simpa using this
      simp only [Cache.removeKey, List.eraseP_cons, hx, decide_True, cond_true]
      rw [List.filter_cons]
      have hd : decide (Keyed.key x ≠ k) = false := by simp [hx]
      rw [hd]
      exact hrest.symm
    · have := ih h.2
      simp only [Cache.removeKey] at this
      simp [Cache.removeKey, List.eraseP_cons, hx, this]

/-- A part of a cache with distinct identities has distinct identities. -/
theorem Cache.nodup_filter {α : Type} [Keyed α] (xs : List α) (q : α → Bool)
    (h : (xs.map Keyed.key).Nodup) : ((xs.filter q).map Keyed.key).Nodup :=
  List.Nodup.sublist (List.Sublist.map _ (List.filter_sublist xs)) h

/-- The cascade loop removes exactly the channels whose id is listed. -/
theorem removeChannels_eq_filter (ids : List JSVal) (channels : List Channel)
    (h : (channels.map Channel.id).Nodup) :
    removeChannels channels ids = channels.filter (fun ch => decide (ch.id ∉ ids)) := by
  induction ids generalizing channels with
  | nil => simp [removeChannels]
  | cons id rest ih =>
    have h1 : Cache.removeKey channels id
        = channels.filter (fun ch => decide (Keyed.key ch ≠ id)) :=
      Cache.removeKey_eq_filter channels id h
    have h2 := ih (channels.filter (fun ch => decide (Keyed.key ch ≠ id)))
      (Cache.nodup_filter channels _ h)
    simp only [removeChannels, List.foldl_cons] at h2 ⊢
    rw [h1, h2, List.filter_filter]
    apply List.filter_congr
    intro ch _
    simp [Keyed.key, Bool.and_comm]

/-- The entity that `get` returns has the key asked for. -/
theorem Cache.key_of_get {α : Type} [Keyed α] {xs : List α} {v : JSVal} {x : α}
    (h : Cache.get xs v = some x) : Keyed.key x = v := by
  have := List.find?_some h
  simpa using this

/-- C6.  Let the caches hold at most one entry per identity, let server `S` be
cached under the frame's id, and let `S`'s channel list hold exactly the ids
of the channels of the global channel cache whose parent is `S`.  After the
server-deleted frame the global channel cache is the cache before without the
channels whose parent is `S`: no channel of parent `S` is left, and the
channels of every other parent are unchanged and in the same order; the
server cache is the cache before without `S`.  The callback of a successful
`leaveServer(S)` leaves the same client, and resolves. -/
theorem C6_cascade_delete (c : InternalClient) (data sid : JSVal) (S : Server)
    (hd : data.get "id" = Except.ok sid)
    (hS : Cache.get c.servers sid = some S)
    (hcu : (c.channels.map Channel.id).Nodup)
    (hsu : (c.servers.map Server.id).Nodup)
    (hlist : ∀ id, id ∈ S.channels ↔ ∃ ch ∈ c.channels, ch.id = id ∧ ch.server = some S.id)
    (err : JSVal) (herr : err.truthy = false) :
    (onServerDelete c data).client.channels
      = c.channels.filter (fun ch => decide (ch.server ≠ some S.id)) ∧
    (∀ ch ∈ (onServerDelete c data).client.channels, ch.server ≠ some S.id) ∧
    (onServerDelete c data).client.servers
      = c.servers.filter (fun s => decide (s.id ≠ S.id)) ∧
    (∀ s ∈ (onServerDelete c data).client.servers, s.id ≠ S.id) ∧
    (leaveServerDone c S err).client = (onServerDelete c data).client ∧
    (leaveServerDone c S err).outcome = Outcome.resolved Arg.absent := by
  have hkey : S.id = sid := Cache.key_of_get hS
  have hchan : removeChannels c.channels S.channels
      = c.channels.filter (fun ch => decide (ch.server ≠ some S.id)) := by
    rw [removeChannels_eq_filter S.channels c.channels hcu]
    apply List.filter_congr
    intro ch hch
    have hiff : ch.id ∈ S.channels ↔ ch.server = some S.id := by
      rw [hlist]
      constructor
      · rintro ⟨ch2, h2, hid, hsrv⟩
        have : ch2 = ch := List.inj_on_of_nodup_map hcu h2 hch hid
        rw [← this]; exact hsrv
      · intro hsrv
        exact ⟨ch, hch, rfl, hsrv⟩
    simp [hiff]
  have hsrv : Cache.remove c.servers S = c.servers.filter (fun s => decide (s.id ≠ S.id)) :=
    Cache.removeKey_eq_filter c.servers S.id hsu
  have hS2 : Cache.get c.servers S.id = some S := by rw [hkey]; exact hS
  have hrun : (onServerDelete c data).client
      = { c with channels := c.channels.filter (fun ch => decide (ch.server ≠ some S.id)),
                 servers := c.servers.filter (fun s => decide (s.id ≠ S.id)) } := by
    simp only [onServerDelete, hd, hS, Run.done, hchan, hsrv]
  refine ⟨by rw [hrun], ?_, by rw [hrun], ?_, ?_, ?_⟩
  · rw [hrun]
    intro ch hch
    simpa using (List.mem_filter.mp hch).2
  · rw [hrun]
    intro s hs
    simpa using (List.mem_filter.mp hs).2
  · rw [hrun]
    simp [leaveServerDone, herr, hS2, Settled.resolve, hchan, hsrv]
  · simp [leaveServerDone, herr, Settled.resolve]

/-- A witness of `C6_cascade_delete`: with servers "1" and "2" cached, the
server-deleted frame for "1" leaves channel "20" and server "2". -/
theorem C6_cascade_delete_witness :
    (onServerDelete exTwoGuilds (JSVal.obj [("id", JSVal.str "1")])).client.channels
      = [exChannel20] ∧
    (onServerDelete exTwoGuilds (JSVal.obj [("id", JSVal.str "1")])).client.servers
      = [exServer2] := by
  have h := C6_cascade_delete exTwoGuilds (JSVal.obj [("id", JSVal.str "1")]) (JSVal.str "1")
    exServer rfl (by decide) (by decide) (by decide)
    (by
      intro id
      simp [exTwoGuilds, exGuildClient, exClient, exServer, exChannel, exChannel20, eq_comm])
    JSVal.null (by decide)
  refine ⟨?_, ?_⟩
  · rw [h.1]; decide
  · rw [h.2.2.1]; decide

/-- After an in-place mutation that keeps the key, `get` returns the mutated
object. -/
theorem Cache.get_modify {α : Type} [Keyed α] (xs : List α) (k : JSVal) (f : α → α) (x : α)
    (h : Cache.get xs k = some x) (hf : Keyed.key (f x) = k) :
    Cache.get (Cache.modify xs k f) k = some (f x) := by
  induction xs with
  | nil => simp [Cache.get] at h
  | cons y rest ih =>
    by_cases hy : Keyed.key y = k
    · have hx : y = x := by simpa [Cache.get, List.find?_cons, hy] using h
      subst hx
      simp [Cache.modify, hy, Cache.get, List.find?_cons, hf]
    · have hrest : Cache.get rest k = some x := by
        simpa [Cache.get, List.find?_cons, hy] using h
      have := ih hrest
      simp only [Cache.get] at this
      simp [Cache.modify, hy, Cache.get, List.find?_cons, this]

/-- An in-place mutation of the object of key `k` leaves the entries of every
other key unchanged and in order. -/
theorem Cache.filter_modify {α : Type} [Keyed α] (xs : List α) (k : JSVal) (f : α → α)
    (hf : ∀ x, Keyed.key (f x) = Keyed.key x) :
    (Cache.modify xs k f).filter (fun x => decide (Keyed.key x ≠ k))
      = xs.filter (fun x => decide (Keyed.key x ≠ k)) := by
  induction xs with
  | nil => simp [Cache.modify]
  | cons y rest ih =>
    by_cases hy : Keyed.key y = k
    · simp [Cache.modify, hy, List.filter_cons, hf]
    · simp only [Cache.modify, hy, if_false, List.filter_cons, ih]

/-- After `update(old, new)` with `old` present and `new` of the same key,
`get` returns `new`. -/
theorem Cache.get_update {α : Type} [Keyed α] (xs : List α) (old new x : α)
    (h : Cache.get xs (Keyed.key old) = some x) (hk : Keyed.key new = Keyed.key old) :
    Cache.get (Cache.update xs old new) (Keyed.key old) = some new := by
  induction xs with
  | nil => simp [Cache.get] at h
  | cons y rest ih =>
    by_cases hy : Keyed.key y = Keyed.key old
    · simp [Cache.update, hy, Cache.get, List.find?_cons, hk]
    · have hrest : Cache.get rest (Keyed.key old) = some x := by
        simpa [Cache.get, List.find?_cons, hy] using h
      have := ih hrest
      simp only [Cache.get] at this
      simp [Cache.update, hy, Cache.get, List.find?_cons, this]

/-- The value of `a || b` is `b` when `a` is falsy or is `b`. -/
theorem JSVal.or_eq_right {a b : JSVal} (h : a.truthy = false ∨ a = b) : a.or b = b := by
  rcases h with h | h
  · simp [JSVal.or, h]
  · subst h; simp [JSVal.or]

/-- What the four assignments of `PRESENCE_UPDATE` do on an object payload. -/
theorem mergeUser_fields (fs : List (String × JSVal)) (user : User) :
    ∃ merged, mergeUser (JSVal.obj fs) user = Except.ok merged ∧
      merged.nullish = false ∧
      merged.field "username" = (JSVal.lookup fs "username").or user.username ∧
      merged.field "id" = (JSVal.lookup fs "id").or user.id ∧
      merged.field "avatar" = (JSVal.lookup fs "avatar").or user.avatar ∧
      merged.field "discriminator" = (JSVal.lookup fs "discriminator").or user.discriminator ∧
      merged.field "status" = JSVal.lookup fs "status" ∧
      merged.field "game_id" = JSVal.lookup fs "game_id" := by
  simp [mergeUser, JSVal.set, bind, Except.bind, JSVal.field, JSVal.lookup_assign, JSVal.nullish]

/-- A presence frame emits at most one of "presence" and "userUpdate". -/
theorem presence_exclusive (c : InternalClient) (data : JSVal) :
    (emittedNames (onPresenceUpdate c data).effects).count "presence"
      + (emittedNames (onPresenceUpdate c data).effects).count "userUpdate" ≤ 1 := by
  unfold onPresenceUpdate
  repeat' split
  all_goals simp [Run.raise, Run.done, emittedNames, Effect.emitted, emit, warn]

/-- C7.  Let the frame's `user` object carry the id of the cached user `U`.
(1) If username, avatar and discriminator of that object are each absent
(falsy) or equal to `U`'s, the handler emits exactly one notification,
"presence", sets the status and game of `U` in the user cache to the frame's
values and changes nothing else: username and avatar of `U` stay.
(2) If the object carries a username, a non-empty string, that differs from
`U`'s, the handler emits exactly one notification, "userUpdate", and the user
cache entry of `U`'s identity is afterwards a user with the new username.
(3) For every client and every frame, at most one of "presence" and
"userUpdate" is emitted. -/
theorem C7_presence_split (c : InternalClient) (data : JSVal) (fs : List (String × JSVal))
    (U : User)
    (hdata : data.nullish = false)
    (huser : data.field "user" = JSVal.obj fs)
    (hU : Cache.get c.users (JSVal.lookup fs "id") = some U) :
    (((JSVal.lookup fs "username").truthy = false ∨ JSVal.lookup fs "username" = U.username) →
      ((JSVal.lookup fs "avatar").truthy = false ∨ JSVal.lookup fs "avatar" = U.avatar) →
      ((JSVal.lookup fs "discriminator").truthy = false ∨
        JSVal.lookup fs "discriminator" = U.discriminator) →
      onPresenceUpdate c data
        = Run.done
            { c with users := (Cache.modify c.users U.id
                (fun u => { u with status := data.field "status",
                                   gameID := data.field "game_id" })) }
            [emit c "presence"
              [Arg.user U, Arg.val (data.field "status"), Arg.val (data.field "game_id")]] ∧
      Cache.get (onPresenceUpdate c data).client.users U.id
        = some { U with status := data.field "status", gameID := data.field "game_id" }) ∧
    (∀ name, JSVal.lookup fs "username" = JSVal.str name → name ≠ "" →
      U.username ≠ JSVal.str name →
      ∃ V, V.username = JSVal.str name ∧ V.id = U.id ∧
        onPresenceUpdate c data
          = Run.done { c with users := Cache.update c.users U V }
              [emit c "userUpdate" [Arg.user U, Arg.user V]] ∧
        Cache.get (onPresenceUpdate c data).client.users U.id = some V) ∧
    (∀ c1 data1,
      (emittedNames (onPresenceUpdate c1 data1).effects).count "presence"
        + (emittedNames (onPresenceUpdate c1 data1).effects).count "userUpdate" ≤ 1) := by
  have hid : U.id = JSVal.lookup fs "id" := Cache.key_of_get hU
  have hU2 : Cache.get c.users U.id = some U := by rw [hid]; exact hU
  obtain ⟨merged, hmerged, hnn, hname, hmid, havatar, hdisc, hstatus, hgame⟩ :=
    mergeUser_fields fs U
  have hmid2 : merged.field "id" = U.id := by
    rw [hmid]; exact JSVal.or_eq_right (Or.inr hid.symm)
  have hobj : (JSVal.obj fs).nullish = false := rfl
  have hfid : (JSVal.obj fs).field "id" = JSVal.lookup fs "id" := rfl
  refine ⟨?_, ?_, presence_exclusive⟩
  · intro h1 h2 h3
    have hrun : onPresenceUpdate c data
        = Run.done
            { c with users := (Cache.modify c.users U.id
                (fun u => { u with status := data.field "status",
                                   gameID := data.field "game_id" })) }
            [emit c "presence"
              [Arg.user U, Arg.val (data.field "status"), Arg.val (data.field "game_id")]] := by
      simp [onPresenceUpdate, JSVal.get, hdata, huser, hobj, hfid, hU2, hmerged,
        User.construct, hnn, User.equalsStrict, hname, hmid2, havatar, hdisc,
        JSVal.or_eq_right h1, JSVal.or_eq_right h2, JSVal.or_eq_right h3, ← hid]
    refine ⟨hrun, ?_⟩
    rw [hrun]
    exact Cache.get_modify c.users U.id _ U hU2 rfl
  · intro name hn hne hdiff
    have hname2 : merged.field "username" = JSVal.str name := by
      rw [hname, hn]; simp [JSVal.or, JSVal.truthy, hne]
    refine ⟨{ id := merged.field "id", username := merged.field "username",
              discriminator := merged.field "discriminator", avatar := merged.field "avatar",
              status := merged.field "status", gameID := merged.field "game_id",
              typing := { since := none, channel := none } }, hname2, hmid2, ?_, ?_⟩
    · have hneq : ¬ (JSVal.str name = U.username) := fun e => hdiff e.symm
      simp [onPresenceUpdate, JSVal.get, hdata, huser, hobj, hfid, hU2, hmerged,
        User.construct, hnn, User.equalsStrict, hname2, hmid2, hneq, ← hid]
    · have hrun : (onPresenceUpdate c data).client.users
          = Cache.update c.users U
              { id := merged.field "id", username := merged.field "username",
                discriminator := merged.field "discriminator", avatar := merged.field "avatar",
                status := merged.field "status", gameID := merged.field "game_id",
                typing := { since := none, channel := none } } := by
        have hneq : ¬ (JSVal.str name = U.username) := fun e => hdiff e.symm
        simp [onPresenceUpdate, JSVal.get, hdata, huser, hobj, hfid, hU2, hmerged,
          User.construct, hnn, User.equalsStrict, hname2, hmid2, hneq, ← hid, Run.done]
      rw [hrun]
      exact Cache.get_update c.users U _ U hU2 hmid2

/-- A witness of `C7_presence_split`: a status change and a rename of the
cached user "7". -/
theorem C7_presence_split_witness :
    emittedNames (onPresenceUpdate exGuildClient exPresenceFrame).effects = ["presence"] ∧
    (∃ V, V.username = JSVal.str "robert" ∧
      emittedNames (onPresenceUpdate exGuildClient exRenameFrame).effects = ["userUpdate"] ∧
      Cache.get (onPresenceUpdate exGuildClient exRenameFrame).client.users (JSVal.str "7")
        = some V) := by
  have h1 := (C7_presence_split exGuildClient exPresenceFrame [("id", JSVal.str "7")]
    (exUser "7" "bob") rfl rfl rfl).1 (Or.inl rfl) (Or.inl rfl) (Or.inl rfl)
  obtain ⟨V, hV, _, hrun, hget⟩ := (C7_presence_split exGuildClient exRenameFrame
    [("id", JSVal.str "7"), ("username", JSVal.str "robert")]
    (exUser "7" "bob") rfl rfl rfl).2.1 "robert" rfl (by decide) (by decide)
  refine ⟨?_, V, hV, ?_, hget⟩
  · rw [h1.1]; rfl
  · rw [hrun]; rfl

/-- C8.  Let channel `C` be the channel cached under the frame's `channel_id`,
and let `C`'s message collection hold no message of the frame's `id`.  Then
the message-created handler raises nothing and there is a message `msg` with
the frame's id and content such that: the handler emits exactly one
notification, "message", carrying `msg`, observed with the message already
stored; `C`'s message collection is afterwards its previous messages followed
by `msg`, so it holds exactly one message of that identity and its other
messages are unchanged; every channel of another identity is unchanged and
in order; and no other field of the client changes. -/
theorem C8_message_created (c : InternalClient) (data : JSVal) (C : Channel)
    (hdata : data.nullish = false)
    (hC : Cache.get c.channels (data.field "channel_id") = some C)
    (hnew : Cache.get C.messages (data.field "id") = none) :
    ∃ msg : Message, msg.id = data.field "id" ∧ msg.content = data.field "content" ∧
      msg.channel = C.id ∧
      (onMessageCreate c data).effects
        = [emit (onMessageCreate c data).client "message" [Arg.message msg]] ∧
      (onMessageCreate c data).thrown = none ∧
      Cache.get (onMessageCreate c data).client.channels (data.field "channel_id")
        = some { C with messages := C.messages ++ [msg] } ∧
      (C.messages ++ [msg]).filter (fun x => decide (x.id = data.field "id")) = [msg] ∧
      (onMessageCreate c data).client.channels.filter
          (fun ch => decide (ch.id ≠ data.field "channel_id"))
        = c.channels.filter (fun ch => decide (ch.id ≠ data.field "channel_id")) ∧
      (onMessageCreate c data).client
        = { c with channels := (onMessageCreate c data).client.channels } := by
  obtain ⟨msg, hmsg⟩ : ∃ msg, Message.construct data C.id = Except.ok msg := by
    simp [Message.construct, hdata]
  have hmid : msg.id = data.field "id" := by
    simp [Message.construct, hdata] at hmsg; rw [← hmsg]
  have hmc : msg.content = data.field "content" := by
    simp [Message.construct, hdata] at hmsg; rw [← hmsg]
  have hmch : msg.channel = C.id := by
    simp [Message.construct, hdata] at hmsg; rw [← hmsg]
  have hadd : Cache.add C.messages msg = (C.messages ++ [msg], msg) := by
    have : Cache.get C.messages (Keyed.key msg) = none := by
      show Cache.get C.messages msg.id = none
      rw [hmid]; exact hnew
    simp [Cache.add, this]
  have hrun : onMessageCreate c data
      = Run.done
          { c with channels := (Cache.modify c.channels (data.field "channel_id")
              (fun ch => { ch with messages := C.messages ++ [msg] })) }
          [emit { c with channels := (Cache.modify c.channels (data.field "channel_id")
              (fun ch => { ch with messages := C.messages ++ [msg] })) }
            "message" [Arg.message msg]] := by
    simp [onMessageCreate, JSVal.get, hdata, hC, hmsg, hadd]
  have hkey : C.id = data.field "channel_id" := Cache.key_of_get hC
  refine ⟨msg, hmid, hmc, hmch, ?_, ?_, ?_, ?_, ?_, ?_⟩
  · rw [hrun]; rfl
  · rw [hrun]; rfl
  · rw [hrun]
    exact Cache.get_modify c.channels _ _ C hC hkey
  · have hnone : ∀ x ∈ C.messages, ¬ (x.id = data.field "id") := by
      intro x hx
      have := List.find?_eq_none.mp hnew x hx
      simpa using this
    rw [List.filter_append]
    have h1 : C.messages.filter (fun x => decide (x.id = data.field "id")) = [] := by
      rw [List.filter_eq_nil_iff]
      intro x hx
      simpa using hnone x hx
    simp [h1, hmid]
  · rw [hrun]
    exact Cache.filter_modify c.channels _ _ (fun _ => rfl)
  · rw [hrun]; rfl

/-- The full-sync frame `exReadyFrame` makes the client live, with server "1"
cached and its text channel "10" in the global channel cache, without
messages. -/
theorem exSynced_eq :
    exSynced.state = ConnectionState.READY ∧
    exSynced.servers.map (fun s => (s.id, s.channels)) = [(JSVal.str "1", [JSVal.str "10"])] ∧
    exSynced.channels
      = [{ kind := ChannelKind.text, id := JSVal.str "10", type := JSVal.str "text",
           name := JSVal.str "general", server := some (JSVal.str "1"), messages := [] }] := by
  decide

/-- A witness of `C8_message_created`, the end-to-end scenario: after the
full-sync frame with server "1" and its text channel "10", the frame
`exCreateFrame` leaves channel "10" with exactly one message, of identity
"100" and content "hi", and emits one "message" notification. -/
theorem C8_message_created_witness :
    ∃ msg : Message, msg.id = JSVal.str "100" ∧ msg.content = JSVal.str "hi" ∧
      emittedNames (onMessageCreate exSynced exCreateFrame).effects = ["message"] ∧
      (onMessageCreate exSynced exCreateFrame).client.channels.map (fun ch => (ch.id, ch.messages))
        = [(JSVal.str "10", [msg])] := by
  obtain ⟨msg, hid, hcontent, _, heff, _, hget, _, _, _⟩ :=
    C8_message_created exSynced exCreateFrame
      { kind := ChannelKind.text, id := JSVal.str "10", type := JSVal.str "text",
        name := JSVal.str "general", server := some (JSVal.str "1"), messages := [] }
      rfl (by decide) (by decide)
  refine ⟨msg, hid, hcontent, ?_, ?_⟩
  · rw [heff]; rfl
  · have hlen : ((onMessageCreate exSynced exCreateFrame).client.channels).length = 1 := by
      decide
    match hch : (onMessageCreate exSynced exCreateFrame).client.channels, hlen with
    | [ch], _ =>
      have hk : ch.id = JSVal.str "10" := by
        have : ((onMessageCreate exSynced exCreateFrame).client.channels.map Channel.id)
            = [JSVal.str "10"] := by decide
        rw [hch] at this
        simpa using this
      rw [hch] at hget
      have : exCreateFrame.field "channel_id" = JSVal.str "10" := rfl
      rw [this] at hget
      simp [Cache.get, List.find?_cons, Keyed.key, hk] at hget
      simp [hget, hk]

/-- The transitions of `logout`.  In state `LOGGED_IN` or `READY`, `logout`
issues the invalidation request.  When the request succeeds (`err` falsy) the
callback sets the state to `DISCONNECTED`, token, email and password to `null`
and the websocket handle to `null`, closes the websocket if there was one,
changes nothing else and resolves.  When the request fails (`err` truthy) the
callback performs no effect and leaves the client, so state, credentials and
websocket handle, as it is; it rejects with `err.response.text` when the
error carries its response, and when the error carries none it raises a
`TypeError` and leaves the promise pending. -/
theorem logout_transition (c : InternalClient) (err : JSVal)
    (hstate : c.state = ConnectionState.LOGGED_IN ∨ c.state = ConnectionState.READY) :
    logout c = Settled.wait c [authorized c "POST" Endpoint.LOGOUT "" JSVal.undefined] ∧
    (err.truthy = false →
      (logoutDone c err).client
        = { c with websocket := none, token := JSVal.null, email := JSVal.null,
                   password := JSVal.null, state := ConnectionState.DISCONNECTED } ∧
      (logoutDone c err).outcome = Outcome.resolved Arg.absent ∧
      (logoutDone c err).thrown = none ∧
      (logoutDone c err).effects.map Effect.action
        = (if c.websocket.isSome then [Action.wsClose] else [])) ∧
    (err.truthy = true →
      (logoutDone c err).client = c ∧
      (logoutDone c err).effects = [] ∧
      ((err.field "response").nullish = false →
        (logoutDone c err).outcome = Outcome.rejected ((err.field "response").field "text")) ∧
      ((err.field "response").nullish = true →
        (logoutDone c err).outcome = Outcome.pending ∧
        (logoutDone c err).thrown = some (JSError.typeError "text"))) := by
  refine ⟨?_, ?_, ?_⟩
  · rcases hstate with h | h <;> simp [logout, h]
  · intro herr
    cases hws : c.websocket <;> simp [logoutDone, herr, Settled.resolve, hws]
  · intro herr
    have hnn : err.nullish = false := by
      cases err <;> simp [JSVal.truthy] at herr <;> rfl
    refine ⟨?_, ?_, ?_, ?_⟩
    · simp only [logoutDone, herr, if_true, rejectWith]
      split <;> rfl
    · simp only [logoutDone, herr, if_true, rejectWith]
      split <;> rfl
    · intro hresp
      simp [logoutDone, herr, rejectWith, responseText, JSVal.get, hnn, hresp, Settled.reject]
    · intro hresp
      simp [logoutDone, herr, rejectWith, responseText, JSVal.get, hnn, hresp, Settled.raise]

/-- The theorem `logout_transition` at a live client with an open websocket. -/
theorem logout_transition_witness :
    (logoutDone exClient JSVal.null).client.state = ConnectionState.DISCONNECTED ∧
    (logoutDone exClient JSVal.null).client.websocket = none ∧
    (logoutDone exClient JSVal.null).client.token = JSVal.null ∧
    (logoutDone exClient JSVal.null).effects.map Effect.action = [Action.wsClose] := by
  have h := (logout_transition exClient JSVal.null (Or.inr rfl)).2.1 rfl
  refine ⟨by rw [h.1], by rw [h.1], by rw [h.1], by rw [h.2.2.2]; rfl⟩

/-- C9.  A live client (state `READY`) logs out and the invalidation request
fails with a network error, which carries a message and no response: the
callback raises a `TypeError` on `err.response.text` and the promise of
`logout` stays pending, it is not rejected; the client, so state, credentials
and websocket handle, is unchanged.  When the error carries its response the
promise is rejected with the response text. -/
theorem C9_logout_failure_without_response :
    exClient.state = ConnectionState.READY ∧
    logout exClient
      = Settled.wait exClient [authorized exClient "POST" Endpoint.LOGOUT "" JSVal.undefined] ∧
    exNetworkError.truthy = true ∧
    (logoutDone exClient exNetworkError).outcome = Outcome.pending ∧
    (logoutDone exClient exNetworkError).thrown = some (JSError.typeError "text") ∧
    (logoutDone exClient exNetworkError).client = exClient ∧
    (logoutDone exClient exNetworkError).effects = [] ∧
    (logoutDone exClient exHttpError).outcome
      = Outcome.rejected (JSVal.str "503 gateway unavailable") := by
  refine ⟨by decide, by decide, by decide, by decide, by decide, by decide, by decide,
    by decide⟩

/-- The typing state that the typing handler leaves for the user of the frame. -/
theorem onTyping_sets_since (env : Env) (c : InternalClient) (data : JSVal) (u : User)
    (ch : Channel) (hdata : data.nullish = false)
    (hu : Cache.get c.users (data.field "user_id") = some u)
    (hch : Cache.get c.channels (data.field "channel_id") = some ch) :
    Cache.get (onTyping env c data).client.users (data.field "user_id")
      = some { u with typing := { since := some env.now, channel := some ch.id } } ∧
    (onTyping env c data).client.channels = c.channels := by
  have hk : u.id = data.field "user_id" := Cache.key_of_get hu
  have hrun : (onTyping env c data).client
      = { c with users := (Cache.modify c.users (data.field "user_id")
            (fun _ => { u with typing := { since := some env.now, channel := some ch.id } })) } := by
    simp [onTyping, JSVal.get, hdata, hu, hch, Run.done]
  rw [hrun]
  exact ⟨Cache.get_modify c.users _ _ u hu hk, rfl⟩

/-- After two typing frames of the same cached user and channel, handled at
times `t1` and `t2`, the check scheduled by the first frame, run at
`t1 + 6000`, emits "userTypingStop" exactly when `t2 < t1 + 10`. -/
theorem first_check_fires_iff (env : Env) (c : InternalClient) (data : JSVal) (u : User)
    (ch : Channel) (t1 t2 : Int) (hdata : data.nullish = false)
    (hu : Cache.get c.users (data.field "user_id") = some u)
    (hch : Cache.get c.channels (data.field "channel_id") = some ch) :
    emittedNames (typingStop (t1 + 6000)
        (onTyping { env with now := t2 } (onTyping { env with now := t1 } c data).client
          data).client
        (data.field "user_id") ch).effects
      = (if t2 < t1 + 10 then ["userTypingStop"] else []) := by
  obtain ⟨h1, h1c⟩ := onTyping_sets_since { env with now := t1 } c data u ch hdata hu hch
  obtain ⟨h2, _⟩ := onTyping_sets_since { env with now := t2 }
    (onTyping { env with now := t1 } c data).client data _ ch hdata h1 (by rw [h1c]; exact hch)
  simp only [typingStop, h2, Option.getD_some]
  by_cases h : t2 < t1 + 10
  · have : t1 + 6000 - t2 > 5990 := by omega
    simp [h, this, Run.done, emittedNames, emit, Effect.emitted]
  · have : ¬ (t1 + 6000 - t2 > 5990) := by omega
    simp [h, this, Run.done, emittedNames]

/-- C10, at the failing input.  User "7" and channel "10" are cached; two
typing frames for them arrive at times 1000 and 1005.  The second frame
schedules its own check and leaves the live timestamp 1005.  The check of the
first frame, run at 1000 + 6000, sees 7000 - 1005 = 5995 > 5990: it emits
"userTypingStop" and clears the typing state.  The check of the second frame,
run at 1005 + 6000, reads the cleared timestamp as 0 and emits
"userTypingStop" again: the two signals produce two notifications. -/
theorem C10_superseded_check_fires :
    (onTyping (exEnv 1005) (onTyping (exEnv 1000) exGuildClient exTypingFrame).client
        exTypingFrame).effects.map Effect.action
      = [ Action.emit "userTypingStart"
            [ Arg.user { exUser "7" "bob" with
                typing := { since := some 1005, channel := some (JSVal.str "10") } },
              Arg.channel exChannel ],
          Action.setTimeout (Task.typingStop (JSVal.str "7") exChannel) (JSVal.num 6000) ] ∧
    emittedNames
        (typingStop 7000
          (onTyping (exEnv 1005) (onTyping (exEnv 1000) exGuildClient exTypingFrame).client
            exTypingFrame).client
          (JSVal.str "7") exChannel).effects
      = ["userTypingStop"] ∧
    (typingStop 7000
        (onTyping (exEnv 1005) (onTyping (exEnv 1000) exGuildClient exTypingFrame).client
          exTypingFrame).client
        (JSVal.str "7") exChannel).client.users.map User.typing
      = [{ since := none, channel := none }, { since := none, channel := none }] ∧
    emittedNames
        (typingStop 7005
          (typingStop 7000
            (onTyping (exEnv 1005) (onTyping (exEnv 1000) exGuildClient exTypingFrame).client
              exTypingFrame).client
            (JSVal.str "7") exChannel).client
          (JSVal.str "7") exChannel).effects
      = ["userTypingStop"] := by
  decide

/-! ### The `Server` constructor -/

/-- What the channel loop of the `Server` constructor leaves alone. -/
theorem Server.addChannels_frame (ds : List JSVal) (c : InternalClient) (s : Server) :
    (Server.addChannels ds c s).client.servers = c.servers ∧
    (Server.addChannels ds c s).client.users = c.users ∧
    (Server.addChannels ds c s).client.private_channels = c.private_channels ∧
    (Server.addChannels ds c s).client.state = c.state ∧
    (Server.addChannels ds c s).client.websocket = c.websocket ∧
    (Server.addChannels ds c s).client.token = c.token ∧
    (Server.addChannels ds c s).client.email = c.email ∧
    (Server.addChannels ds c s).client.password = c.password ∧
    (Server.addChannels ds c s).server.id = s.id ∧
    (Server.addChannels ds c s).server.roles = s.roles := by
  induction ds generalizing c s with
  | nil => simp [Server.addChannels]
  | cons d rest ih =>
    simp only [Server.addChannels]
    split
    · simp
    · simpa using ih _ _

/-- What the member loop of the `Server` constructor leaves alone. -/
theorem Server.addMembers_frame (env : Env) (ms : List JSVal) (c : InternalClient) (s : Server) :
    (Server.addMembers env ms c s).client.servers = c.servers ∧
    (Server.addMembers env ms c s).client.channels = c.channels ∧
    (Server.addMembers env ms c s).client.private_channels = c.private_channels ∧
    (Server.addMembers env ms c s).client.state = c.state ∧
    (Server.addMembers env ms c s).client.websocket = c.websocket ∧
    (Server.addMembers env ms c s).client.token = c.token ∧
    (Server.addMembers env ms c s).client.email = c.email ∧
    (Server.addMembers env ms c s).client.password = c.password ∧
    (Server.addMembers env ms c s).server.id = s.id ∧
    (Server.addMembers env ms c s).server.roles = s.roles ∧
    (Server.addMembers env ms c s).server.channels = s.channels := by
  induction ms generalizing c s with
  | nil => simp [Server.addMembers]
  | cons d rest ih =>
    simp only [Server.addMembers]
    split
    · simp
    · simpa using ih _ _

/-- The `Server` constructor changes neither the server cache, nor the
direct-channel cache, nor the session fields of the client, and the server it
builds has the identity of the payload. -/
theorem Server.construct_frame (env : Env) (c : InternalClient) (d : JSVal) :
    (Server.construct env c d).client.servers = c.servers ∧
    (Server.construct env c d).client.private_channels = c.private_channels ∧
    (Server.construct env c d).client.state = c.state ∧
    (Server.construct env c d).client.websocket = c.websocket ∧
    (Server.construct env c d).client.token = c.token ∧
    (Server.construct env c d).client.email = c.email ∧
    (Server.construct env c d).client.password = c.password ∧
    (Server.construct env c d).server.id = d.field "id" := by
  simp only [Server.construct]
  split
  · simp
  · split
    · simp
    · split
      · have h := Server.addChannels_frame (listField d "channels") c
          { id := d.field "id", name := d.field "name", region := d.field "region",
            channels := [], roles := ‹List Role›, members := [], memberMap := [] }
        simp [h]
      · have h := Server.addChannels_frame (listField d "channels") c
          { id := d.field "id", name := d.field "name", region := d.field "region",
            channels := [], roles := ‹List Role›, members := [], memberMap := [] }
        have h2 := Server.addMembers_frame env (listField d "members")
          (Server.addChannels (listField d "channels") c
            { id := d.field "id", name := d.field "name", region := d.field "region",
              channels := [], roles := ‹List Role›, members := [], memberMap := [] }).client
          (Server.addChannels (listField d "channels") c
            { id := d.field "id", name := d.field "name", region := d.field "region",
              channels := [], roles := ‹List Role›, members := [], memberMap := [] }).server
        simp [h, h2]

/-- On a payload that mentions no roles, channels or members, the `Server`
constructor touches no cache and builds a server with none of them. -/
theorem Server.construct_plain (env : Env) (c : InternalClient) (d : JSVal)
    (hd : d.nullish = false) (hr : listField d "roles" = [])
    (hc : listField d "channels" = []) (hm : listField d "members" = []) :
    (Server.construct env c d).client = c ∧
    (Server.construct env c d).thrown = none ∧
    (Server.construct env c d).server
      = { id := d.field "id", name := d.field "name", region := d.field "region",
          channels := [], roles := [], members := [], memberMap := [] } := by
  simp [Server.construct, hd, hr, hc, hm, Server.addRoles, Server.addChannels,
    Server.addMembers]

/-- The role loop of the `Server` constructor completes when no entry is
`undefined` or `null`. -/
theorem Server.addRoles_ok (sid : JSVal) (rs : List JSVal) (acc : List Role)
    (h : rs.all (fun r => !r.nullish) = true) :
    ∃ roles, Server.addRoles sid rs acc = Except.ok roles := by
  induction rs generalizing acc with
  | nil => exact ⟨acc, rfl⟩
  | cons r rest ih =>
    simp only [List.all_cons, Bool.and_eq_true, Bool.not_eq_true'] at h
    simp only [Server.addRoles, Role.construct, h.1]
    exact ih _ h.2

/-- The channel loop of the `Server` constructor completes when no entry is
`undefined` or `null`. -/
theorem Server.addChannels_ok (ds : List JSVal) (c : InternalClient) (s : Server)
    (h : ds.all (fun ch => !ch.nullish) = true) :
    (Server.addChannels ds c s).thrown = none := by
  induction ds generalizing c s with
  | nil => rfl
  | cons d rest ih =>
    simp only [List.all_cons, Bool.and_eq_true, Bool.not_eq_true'] at h
    simp only [Server.addChannels, Channel.construct, h.1]
    exact ih _ _ h.2

/-- The member loop of the `Server` constructor completes when every entry
carries its `user`. -/
theorem Server.addMembers_ok (env : Env) (ms : List JSVal) (c : InternalClient) (s : Server)
    (h : ms.all (fun m => !(m.field "user").nullish) = true) :
    (Server.addMembers env ms c s).thrown = none := by
  induction ms generalizing c s with
  | nil => rfl
  | cons d rest ih =>
    simp only [List.all_cons, Bool.and_eq_true, Bool.not_eq_true'] at h
    simp only [Server.addMembers, User.construct, h.1]
    exact ih _ _ h.2

/-- The `Server` constructor completes on a well-formed guild payload. -/
theorem Server.construct_ok (env : Env) (c : InternalClient) (d : JSVal)
    (h : wellFormedGuild d = true) : (Server.construct env c d).thrown = none := by
  simp only [wellFormedGuild, Bool.and_eq_true, Bool.not_eq_true'] at h
  obtain ⟨⟨⟨hd, hr⟩, hc⟩, hm⟩ := h
  obtain ⟨roles, hroles⟩ := Server.addRoles_ok (d.field "id") (listField d "roles") [] hr
  simp only [Server.construct, hd, hroles]
  have h1 := Server.addChannels_ok (listField d "channels") c
    { id := d.field "id", name := d.field "name", region := d.field "region",
      channels := [], roles := roles, members := [], memberMap := [] } hc
  simp [h1]
  exact Server.addMembers_ok env _ _ _ hm

/-! ### Server-updated frames -/

/-- The two defaulting assignments of the server-updated case complete on an
object payload and change its `members` and `channels` fields only. -/
theorem defaultLists_fields (fs : List (String × JSVal)) :
    ∃ d1, defaultLists (JSVal.obj fs) = Except.ok d1 ∧ d1.nullish = false ∧
      d1.field "members" = (JSVal.lookup fs "members").or (JSVal.arr []) ∧
      d1.field "channels" = (JSVal.lookup fs "channels").or (JSVal.arr []) ∧
      d1.field "roles" = JSVal.lookup fs "roles" ∧
      d1.field "id" = JSVal.lookup fs "id" ∧
      d1.field "name" = JSVal.lookup fs "name" ∧
      d1.field "region" = JSVal.lookup fs "region" := by
  simp [defaultLists, JSVal.set, bind, Except.bind, JSVal.field, JSVal.lookup_assign,
    JSVal.nullish]

/-- C11, counterexample.  Server "1" is cached with the role "r1" in its role
set.  A server-updated frame for "1" that carries a new name and mentions no
members, roles or channels is handled with "serverUpdated", and the
replacement server stored in the server cache has an empty role set: the
role set is not carried forward. -/
theorem C11_roles_not_carried :
    exServerWithRole.roles = [exRole] ∧
    Cache.get exRoleClient.servers (JSVal.str "1") = some exServerWithRole ∧
    (Cache.get (onServerUpdate (exEnv 0) exRoleClient (exGuildFrame "1" "renamed")).client.servers
        (JSVal.str "1")).map Server.roles = some [] ∧
    emittedNames (onServerUpdate (exEnv 0) exRoleClient (exGuildFrame "1" "renamed")).effects
      = ["serverUpdated"] := by
  refine ⟨by decide, by decide, by decide, by decide⟩

/-- C11, amended.  For every cached server `S` and every server-updated frame
for `S` whose payload mentions no members, no roles and no channels, the
handler completes and the server stored in the server cache under the
frame's id afterwards has the members, the member map and the channel list
that `S` had, the id, name and region of the payload, and an empty role set;
no other field of the client changes. -/
theorem C11_server_update_carries (env : Env) (c : InternalClient)
    (fs : List (String × JSVal)) (S : Server)
    (hS : Cache.get c.servers (JSVal.lookup fs "id") = some S)
    (hm : JSVal.lookup fs "members" = JSVal.undefined)
    (hr : JSVal.lookup fs "roles" = JSVal.undefined)
    (hc : JSVal.lookup fs "channels" = JSVal.undefined) :
    (onServerUpdate env c (JSVal.obj fs)).thrown = none ∧
    Cache.get (onServerUpdate env c (JSVal.obj fs)).client.servers (JSVal.lookup fs "id")
      = some { id := JSVal.lookup fs "id", name := JSVal.lookup fs "name",
               region := JSVal.lookup fs "region", channels := S.channels, roles := [],
               members := S.members, memberMap := S.memberMap } ∧
    (onServerUpdate env c (JSVal.obj fs)).client
      = { c with servers := (onServerUpdate env c (JSVal.obj fs)).client.servers } := by
  obtain ⟨d1, hd1, hnn, hmem, hch, hro, hid, hname, hreg⟩ := defaultLists_fields fs
  have hlr : listField d1 "roles" = [] := by simp [listField, hro, hr]
  have hlc : listField d1 "channels" = [] := by simp [listField, hch, hc, JSVal.or, JSVal.truthy]
  have hlm : listField d1 "members" = [] := by simp [listField, hmem, hm, JSVal.or, JSVal.truthy]
  obtain ⟨hb1, hb2, hb3⟩ := Server.construct_plain env c d1 hnn hlr hlc hlm
  have hkey : S.id = JSVal.lookup fs "id" := Cache.key_of_get hS
  have hobj : (JSVal.obj fs).nullish = false := rfl
  have hfid : (JSVal.obj fs).field "id" = JSVal.lookup fs "id" := rfl
  by_cases heq :
      ({ id := JSVal.lookup fs "id", name := JSVal.lookup fs "name",
         region := JSVal.lookup fs "region", channels := S.channels, roles := [],
         members := S.members, memberMap := S.memberMap } : Server) = S
  · have hrun : onServerUpdate env c (JSVal.obj fs)
        = Run.done c
            [emit c "debug" [Arg.text "received server update but server already updated"]] := by
      simp [onServerUpdate, JSVal.get, hobj, hfid, hS, hd1, hb1, hb2, hb3, hid, hname, hreg,
        Server.equalsStrict, heq]
    rw [hrun]
    refine ⟨rfl, ?_, rfl⟩
    simp only [Run.done]
    rw [hS, heq]
  · have hrun : onServerUpdate env c (JSVal.obj fs)
        = Run.done
            { c with servers := (Cache.update c.servers S
                { id := JSVal.lookup fs "id", name := JSVal.lookup fs "name",
                  region := JSVal.lookup fs "region", channels := S.channels, roles := [],
                  members := S.members, memberMap := S.memberMap }) }
            [emit
              { c with servers := (Cache.update c.servers S
                { id := JSVal.lookup fs "id", name := JSVal.lookup fs "name",
                  region := JSVal.lookup fs "region", channels := S.channels, roles := [],
                  members := S.members, memberMap := S.memberMap }) }
              "serverUpdated"
              [Arg.server S,
               Arg.server
                { id := JSVal.lookup fs "id", name := JSVal.lookup fs "name",
                  region := JSVal.lookup fs "region", channels := S.channels, roles := [],
                  members := S.members, memberMap := S.memberMap }]] := by
      simp [onServerUpdate, JSVal.get, hobj, hfid, hS, hd1, hb1, hb2, hb3, hid, hname, hreg,
        Server.equalsStrict, heq]
    rw [hrun]
    refine ⟨rfl, ?_, rfl⟩
    simp only [Run.done]
    have hS2 : Cache.get c.servers (Keyed.key S) = some S := by
      show Cache.get c.servers S.id = some S
      rw [hkey]; exact hS
    have := Cache.get_update c.servers S
      { id := JSVal.lookup fs "id", name := JSVal.lookup fs "name",
        region := JSVal.lookup fs "region", channels := S.channels, roles := [],
        members := S.members, memberMap := S.memberMap } S hS2 hkey.symm
    have hk2 : Keyed.key S = JSVal.lookup fs "id" := hkey
    rw [hk2] at this
    exact this

/-- A witness of `C11_server_update_carries`: the rename of server "1". -/
theorem C11_server_update_carries_witness :
    (Cache.get (onServerUpdate (exEnv 0) exRoleClient (exGuildFrame "1" "renamed")).client.servers
        (JSVal.str "1"))
      = some { id := JSVal.str "1", name := JSVal.str "renamed", region := JSVal.str "london",
               channels := exServerWithRole.channels, roles := [],
               members := exServerWithRole.members, memberMap := exServerWithRole.memberMap } :=
  (C11_server_update_carries (exEnv 0) exRoleClient
    [ ("id", JSVal.str "1"), ("name", JSVal.str "renamed"), ("region", JSVal.str "london") ]
    exServerWithRole (by decide) rfl rfl rfl).2.1

/-- C12, counterexample.  No server "3" is cached; a server-updated frame for
"3" emits "warn" and then "serverCreated", and the server cache holds a
server "3" afterwards: the frame is not discarded. -/
theorem C12_update_of_uncached_server_creates :
    Cache.get exGuildClient.servers (JSVal.str "3") = none ∧
    emittedNames (onServerUpdate (exEnv 0) exGuildClient (exGuildFrame "3" "new")).effects
      = ["warn", "serverCreated"] ∧
    (onServerUpdate (exEnv 0) exGuildClient (exGuildFrame "3" "new")).client.servers.map Server.id
      = [JSVal.str "1", JSVal.str "3"] := by
  decide

/-- C12, amended.  For every cache state in which no server has the frame's
id, handling a well-formed server-updated frame raises nothing and emits
exactly two notifications: first the diagnostic "warn", with the server cache
still as it was, then one "serverCreated", with the server built from the
payload already appended to the server cache; it emits no "serverUpdated"
and leaves the connection state as it is. -/
theorem C12_server_update_uncached (env : Env) (c : InternalClient) (data : JSVal)
    (hw : wellFormedGuild data = true)
    (hS : Cache.get c.servers (data.field "id") = none) :
    (onServerUpdate env c data).thrown = none ∧
    (onServerUpdate env c data).effects.map (fun e => (e.emitted, e.seen.servers))
      = [ (some "warn", c.servers),
          (some "serverCreated", (onServerUpdate env c data).client.servers) ] ∧
    (onServerUpdate env c data).client.servers
      = c.servers ++ [(Server.construct env c data).server] ∧
    (Server.construct env c data).server.id = data.field "id" ∧
    (onServerUpdate env c data).client.state = c.state := by
  have hb := Server.construct_ok env c data hw
  have hf := Server.construct_frame env c data
  have hd : data.nullish = false := by
    simp only [wellFormedGuild, Bool.and_eq_true, Bool.not_eq_true'] at hw
    exact hw.1.1.1
  have hadd : Cache.add (Server.construct env c data).client.servers
      (Server.construct env c data).server
      = (c.servers ++ [(Server.construct env c data).server],
          (Server.construct env c data).server) := by
    have : Cache.get c.servers (Keyed.key (Server.construct env c data).server) = none := by
      show Cache.get c.servers (Server.construct env c data).server.id = none
      rw [hf.2.2.2.2.2.2.2]; exact hS
    simp [Cache.add, hf.1, this]
  refine ⟨?_, ?_, ?_, hf.2.2.2.2.2.2.2, ?_⟩
  · simp [onServerUpdate, JSVal.get, hd, hS, hb, Run.done]
  · simp [onServerUpdate, JSVal.get, hd, hS, hb, Run.done, warn, emit, Effect.emitted]
  · simp [onServerUpdate, JSVal.get, hd, hS, hb, Run.done, hadd]
  · simp [onServerUpdate, JSVal.get, hd, hS, hb, Run.done, hf.2.2.1]

/-- A witness of `C12_server_update_uncached`: the frame for server "3". -/
theorem C12_server_update_uncached_witness :
    wellFormedGuild (exGuildFrame "3" "new") = true ∧
    Cache.get exGuildClient.servers ((exGuildFrame "3" "new").field "id") = none ∧
    (onServerUpdate (exEnv 0) exGuildClient (exGuildFrame "3" "new")).effects.map
        (fun e => (e.emitted, e.seen.servers))
      = [ (some "warn", exGuildClient.servers),
          (some "serverCreated",
            (onServerUpdate (exEnv 0) exGuildClient (exGuildFrame "3" "new")).client.servers) ] :=
  ⟨by decide, by decide,
   (C12_server_update_uncached (exEnv 0) exGuildClient (exGuildFrame "3" "new")
      (by decide) (by decide)).2.1⟩

/-! ### Channel frames -/

/-- A channel-created frame whose id is not cached and whose `guild_id` names
no cached server takes the diagnostic branch, whatever its `is_private`. -/
theorem channelCreate_needs_server (c : InternalClient) (data : JSVal)
    (hd : data.nullish = false)
    (hc : Cache.get c.channels (data.field "id") = none)
    (hs : Cache.get c.servers (data.field "guild_id") = none) :
    onChannelCreate c data = Run.done c [warn c "channel created but server does not exist"] := by
  simp [onChannelCreate, JSVal.get, hd, hc, hs]

/-- C13.  Server "1" is cached and channel "50" is in no cache.  The
channel-created frame for the direct channel "50", which carries
`is_private` and no `guild_id`, emits the diagnostic "channel created but
server does not exist" and leaves the client, so the direct-channel cache, as
it is.  The same frame with the `guild_id` of the cached server "1" emits
"channelCreated" and inserts the channel into the direct-channel cache: the
direct branch is reached only when a server is cached under the frame's
`guild_id`. -/
theorem C13_direct_channel_needs_server :
    (exDirectFrame.field "is_private").truthy = true ∧
    Cache.get exGuildClient.channels (exDirectFrame.field "id") = none ∧
    Cache.get exGuildClient.private_channels (exDirectFrame.field "id") = none ∧
    onChannelCreate exGuildClient exDirectFrame
      = Run.done exGuildClient
          [warn exGuildClient "channel created but server does not exist"] ∧
    emittedNames (onChannelCreate exGuildClient exDirectInGuildFrame).effects
      = ["channelCreated"] ∧
    (onChannelCreate exGuildClient exDirectInGuildFrame).client.private_channels.map Channel.id
      = [JSVal.str "50"] := by
  refine ⟨by decide, by decide, by decide, by decide, by decide, by decide⟩

/-- A lookup is absent exactly when no entry has the key. -/
theorem Cache.get_eq_none_iff {α : Type} [Keyed α] (xs : List α) (k : JSVal) :
    Cache.get xs k = none ↔ ∀ x ∈ xs, Keyed.key x ≠ k := by
  simp [Cache.get, List.find?_eq_none]

/-- The entity a lookup returns is an entry of the cache. -/
theorem Cache.mem_of_get {α : Type} [Keyed α] {xs : List α} {k : JSVal} {x : α}
    (h : Cache.get xs k = some x) : x ∈ xs :=
  List.mem_of_find?_eq_some h

/-- With one entry per key, the in-place mutation under key `k` changes the
entries of key `k` and no other. -/
theorem Cache.modify_eq_map {α : Type} [Keyed α] (xs : List α) (k : JSVal) (f : α → α)
    (h : (xs.map Keyed.key).Nodup) :
    Cache.modify xs k f = xs.map (fun x => if Keyed.key x = k then f x else x) := by
  induction xs with
  | nil => rfl
  | cons x rest ih =>
    simp only [List.map_cons, List.nodup_cons] at h
    by_cases hx : Keyed.key x = k
    · have hrest : rest.map (fun y => if Keyed.key y = k then f y else y) = rest := by
        have : ∀ y ∈ rest, (fun y => if Keyed.key y = k then f y else y) y = id y := by
          intro y hy
          have hne : Keyed.key y ≠ k := by
            intro e
            exact h.1 (by rw [hx, ← e]; exact List.mem_map_of_mem _ hy)
          simp [hne]
        rw [List.map_congr_left this, List.map_id]
      simp [Cache.modify, hx, hrest]
    · simp [Cache.modify, hx, ih h.2]

/-- With one entry per key, `update` replaces the entries that have the key of
`old` and no other. -/
theorem Cache.update_eq_map {α : Type} [Keyed α] (xs : List α) (old new : α)
    (h : (xs.map Keyed.key).Nodup) :
    Cache.update xs old new
      = xs.map (fun x => if Keyed.key x = Keyed.key old then new else x) := by
  induction xs with
  | nil => rfl
  | cons x rest ih =>
    simp only [List.map_cons, List.nodup_cons] at h
    by_cases hx : Keyed.key x = Keyed.key old
    · have hrest : rest.map (fun y => if Keyed.key y = Keyed.key old then new else y) = rest := by
        have : ∀ y ∈ rest,
            (fun y => if Keyed.key y = Keyed.key old then new else y) y = id y := by
          intro y hy
          have hne : Keyed.key y ≠ Keyed.key old := by
            intro e
            exact h.1 (by rw [hx, ← e]; exact List.mem_map_of_mem _ hy)
          simp [hne]
        rw [List.map_congr_left this, List.map_id]
      simp [Cache.update, hx, hrest]
    · simp [Cache.update, hx, ih h.2]

/-- Replacing an id by itself in a list of ids changes nothing. -/
theorem Cache.update_ids_self (ids : List JSVal) (id : JSVal) :
    Cache.update ids id id = ids := by
  induction ids with
  | nil => rfl
  | cons x rest ih =>
    by_cases hx : x = id
    · simp [Cache.update, Keyed.key, hx]
    · simp [Cache.update, Keyed.key, hx, ih]

/-- An in-place mutation that changes no field changes nothing. -/
theorem Cache.modify_same {α : Type} [Keyed α] (xs : List α) (k : JSVal) (f : α → α)
    (h : ∀ x, f x = x) : Cache.modify xs k f = xs := by
  induction xs with
  | nil => rfl
  | cons x rest ih =>
    by_cases hx : Keyed.key x = k
    · simp [Cache.modify, hx, h]
    · simp [Cache.modify, hx, ih]

/-- Adding an entity whose key is not present appends it. -/
theorem Cache.add_absent {α : Type} [Keyed α] (xs : List α) (e : α)
    (h : Cache.get xs (Keyed.key e) = none) : Cache.add xs e = (xs ++ [e], e) := by
  simp [Cache.add, h]

/-- Adding an id that is not listed appends it. -/
theorem Cache.add_new_id (ids : List JSVal) (id : JSVal) (h : id ∉ ids) :
    (Cache.add ids id).1 = ids ++ [id] := by
  have : Cache.get ids (Keyed.key id) = none := by
    rw [Cache.get_eq_none_iff]
    intro x hx e
    have e2 : x = id := e
    exact h (e2 ▸ hx)
  simp [Cache.add, this]

/-- Removing an id from a list of distinct ids filters it out. -/
theorem Cache.removeKey_ids (ids : List JSVal) (id : JSVal) (h : ids.Nodup) :
    Cache.removeKey ids id = ids.filter (fun x => decide (x ≠ id)) := by
  have := Cache.removeKey_eq_filter ids id (by simpa [Keyed.key] using h)
  simpa [Keyed.key] using this

/-! ### The channel and server caches agree -/

/-- On the caches of a client, `Linked` is the two predicates together. -/
theorem linked_iff (c : InternalClient) :
    Linked c.channels c.servers ↔ DistinctIds c ∧ Consistent c := Iff.rfl

/-- Appending a channel with a new id and parent `S`, and its id to the channel
list of `S`, preserves the invariant. -/
theorem Linked.append {channels : List Channel} {servers : List Server}
    (h : Linked channels servers) (ch : Channel) (S : Server)
    (hnew : ∀ x ∈ channels, x.id ≠ ch.id) (hpar : ch.server = some S.id) :
    Linked (channels ++ [ch])
      (servers.map (fun s =>
        if s.id = S.id then { s with channels := s.channels ++ [ch.id] } else s)) := by
  obtain ⟨⟨h1, h2, h3⟩, h4⟩ := h
  refine ⟨⟨?_, ?_, ?_⟩, ?_⟩
  · rw [List.map_append, List.nodup_append]
    refine ⟨h1, by simp, ?_⟩
    intro a ha hb
    simp only [List.map_cons, List.map_nil, List.mem_singleton] at hb
    obtain ⟨x, hx, hxa⟩ := List.mem_map.mp ha
    exact hnew x hx (hxa.trans hb)
  · rw [List.map_map]
    have : (Server.id ∘ fun s =>
        if s.id = S.id then { s with channels := s.channels ++ [ch.id] } else s) = Server.id := by
      funext s
      simp only [Function.comp]
      split <;> rfl
    rw [this]; exact h2
  · intro T hT
    obtain ⟨s, hs, rfl⟩ := List.mem_map.mp hT
    by_cases hid : s.id = S.id
    · simp only [hid, if_true]
      rw [List.nodup_append]
      refine ⟨h3 s hs, by simp, ?_⟩
      intro a ha hb
      simp only [List.mem_singleton] at hb
      obtain ⟨x, hx, hxid, _⟩ := (h4 s hs).1 a ha
      exact hnew x hx (hxid.trans hb)
    · simp only [hid, if_false]
      exact h3 s hs
  · intro T hT
    obtain ⟨s, hs, rfl⟩ := List.mem_map.mp hT
    by_cases hid : s.id = S.id
    · simp only [hid, if_true]
      constructor
      · intro id hmem
        rcases List.mem_append.mp hmem with hl | hr
        · obtain ⟨x, hx, hxid, hxs⟩ := (h4 s hs).1 id hl
          exact ⟨x, List.mem_append_left _ hx, hxid, by rw [hxs, hid]⟩
        · simp only [List.mem_singleton] at hr
          exact ⟨ch, by simp, hr.symm, hpar⟩
      · intro x hx hxs
        rcases List.mem_append.mp hx with hl | hr
        · exact List.mem_append_left _ ((h4 s hs).2 x hl (by rw [hxs, hid]))
        · simp only [List.mem_singleton] at hr
          rw [hr]; simp
    · simp only [hid, if_false]
      constructor
      · intro id hmem
        obtain ⟨x, hx, hxid, hxs⟩ := (h4 s hs).1 id hmem
        exact ⟨x, List.mem_append_left _ hx, hxid, hxs⟩
      · intro x hx hxs
        rcases List.mem_append.mp hx with hl | hr
        · exact (h4 s hs).2 x hl hxs
        · simp only [List.mem_singleton] at hr
          rw [hr, hpar] at hxs
          exact absurd (Option.some.inj hxs).symm hid

/-- Replacing channels by channels of the same id and parent preserves the
invariant. -/
theorem Linked.map_channels {channels : List Channel} {servers : List Server}
    (h : Linked channels servers) (g : Channel → Channel)
    (hg : ∀ x ∈ channels, (g x).id = x.id ∧ (g x).server = x.server) :
    Linked (channels.map g) servers := by
  obtain ⟨⟨h1, h2, h3⟩, h4⟩ := h
  refine ⟨⟨?_, h2, h3⟩, ?_⟩
  · rw [List.map_map]
    have : List.map (Channel.id ∘ g) channels = List.map Channel.id channels :=
      List.map_congr_left (fun x hx => (hg x hx).1)
    rw [this]; exact h1
  · intro S hS
    constructor
    · intro id hmem
      obtain ⟨x, hx, hxid, hxs⟩ := (h4 S hS).1 id hmem
      exact ⟨g x, List.mem_map_of_mem g hx, (hg x hx).1.trans hxid, (hg x hx).2.trans hxs⟩
    · intro y hy hys
      obtain ⟨x, hx, rfl⟩ := List.mem_map.mp hy
      rw [(hg x hx).1]
      exact (h4 S hS).2 x hx ((hg x hx).2.symm.trans hys)

/-- Removing a cached channel, and its id from the channel list of its parent,
preserves the invariant. -/
theorem Linked.delete_channel {channels : List Channel} {servers : List Server}
    (h : Linked channels servers) (channel : Channel) (hmem : channel ∈ channels) :
    Linked (channels.filter (fun x => decide (x.id ≠ channel.id)))
      (servers.map (fun s =>
        if channel.server = some s.id then
          { s with channels := s.channels.filter (fun x => decide (x ≠ channel.id)) }
        else s)) := by
  obtain ⟨⟨h1, h2, h3⟩, h4⟩ := h
  refine ⟨⟨?_, ?_, ?_⟩, ?_⟩
  · exact List.Nodup.sublist (List.Sublist.map _ (List.filter_sublist channels)) h1
  · rw [List.map_map]
    have : (Server.id ∘ fun s =>
        if channel.server = some s.id then
          { s with channels := s.channels.filter (fun x => decide (x ≠ channel.id)) }
        else s) = Server.id := by
      funext s
      simp only [Function.comp]
      split <;> rfl
    rw [this]; exact h2
  · intro T hT
    obtain ⟨s, hs, rfl⟩ := List.mem_map.mp hT
    by_cases hid : channel.server = some s.id
    · simp only [hid, if_true]
      exact List.Nodup.filter _ (h3 s hs)
    · simp only [hid, if_false]
      exact h3 s hs
  · intro T hT
    obtain ⟨s, hs, rfl⟩ := List.mem_map.mp hT
    by_cases hid : channel.server = some s.id
    · simp only [hid, if_true]
      constructor
      · intro id hin
        obtain ⟨hin1, hin2⟩ := List.mem_filter.mp hin
        have hne : id ≠ channel.id := by simpa using hin2
        obtain ⟨x, hx, hxid, hxs⟩ := (h4 s hs).1 id hin1
        refine ⟨x, List.mem_filter.mpr ⟨hx, ?_⟩, hxid, hxs⟩
        simpa [hxid] using hne
      · intro x hx hxs
        obtain ⟨hx1, hx2⟩ := List.mem_filter.mp hx
        have hne : x.id ≠ channel.id := by simpa using hx2
        exact List.mem_filter.mpr ⟨(h4 s hs).2 x hx1 hxs, by simpa using hne⟩
    · simp only [hid, if_false]
      constructor
      · intro id hin
        obtain ⟨x, hx, hxid, hxs⟩ := (h4 s hs).1 id hin
        have hne : x.id ≠ channel.id := by
          intro e
          have hxc : x = channel := List.inj_on_of_nodup_map h1 hx hmem e
          rw [hxc] at hxs
          exact hid hxs
        exact ⟨x, List.mem_filter.mpr ⟨hx, by simpa using hne⟩, hxid, hxs⟩
      · intro x hx hxs
        exact (h4 s hs).2 x (List.mem_filter.mp hx).1 hxs

/-- Removing a cached server together with the channels it lists preserves the
invariant. -/
theorem Linked.delete_server {channels : List Channel} {servers : List Server}
    (h : Linked channels servers) (S : Server) (hS : S ∈ servers) :
    Linked (channels.filter (fun ch => decide (ch.id ∉ S.channels)))
      (servers.filter (fun s => decide (s.id ≠ S.id))) := by
  obtain ⟨⟨h1, h2, h3⟩, h4⟩ := h
  refine ⟨⟨?_, ?_, ?_⟩, ?_⟩
  · exact List.Nodup.sublist (List.Sublist.map _ (List.filter_sublist channels)) h1
  · exact List.Nodup.sublist (List.Sublist.map _ (List.filter_sublist servers)) h2
  · intro T hT
    exact h3 T (List.mem_filter.mp hT).1
  · intro T hT
    obtain ⟨hT1, hT2⟩ := List.mem_filter.mp hT
    have hne : T.id ≠ S.id := by simpa using hT2
    constructor
    · intro id hin
      obtain ⟨x, hx, hxid, hxs⟩ := (h4 T hT1).1 id hin
      have hnot : x.id ∉ S.channels := by
        intro hin2
        obtain ⟨y, hy, hyid, hys⟩ := (h4 S hS).1 x.id hin2
        have hyx : y = x := List.inj_on_of_nodup_map h1 hy hx hyid
        rw [hyx, hxs] at hys
        exact hne (Option.some.inj hys)
      exact ⟨x, List.mem_filter.mpr ⟨hx, by simpa using hnot⟩, hxid, hxs⟩
    · intro x hx hxs
      exact (h4 T hT1).2 x (List.mem_filter.mp hx).1 hxs

/-- The two `add` calls of the channel-created case preserve the invariant. -/
theorem linked_add_channel {channels : List Channel} {servers : List Server}
    (h : Linked channels servers) (ch : Channel) (server : Server)
    (hnone : Cache.get channels ch.id = none) (hpar : ch.server = some server.id) :
    Linked (Cache.add channels ch).1
      (Cache.modify servers server.id
        (fun s => { s with channels := (Cache.add s.channels (Cache.add channels ch).2.id).1 })) := by
  have hadd : Cache.add channels ch = (channels ++ [ch], ch) := Cache.add_absent channels ch hnone
  have hnew : ∀ x ∈ channels, x.id ≠ ch.id := (Cache.get_eq_none_iff channels ch.id).mp hnone
  rw [hadd]
  simp only []
  rw [Cache.modify_eq_map _ _ _ h.1.2.1]
  have hmap : servers.map (fun x => if Keyed.key x = server.id then
        { x with channels := (Cache.add x.channels ch.id).1 } else x)
      = servers.map (fun s =>
          if s.id = server.id then { s with channels := s.channels ++ [ch.id] } else s) := by
    apply List.map_congr_left
    intro s hs
    by_cases hid : s.id = server.id
    · have hk : Keyed.key s = server.id := hid
      have hnot : ch.id ∉ s.channels := by
        intro hin
        obtain ⟨x, hx, hxid, _⟩ := (h.2 s hs).1 ch.id hin
        exact hnew x hx hxid
      simp only [hk, hid, if_true]
      rw [Cache.add_new_id _ _ hnot]
    · have hk : ¬ Keyed.key s = server.id := hid
      simp only [hk, hid, if_false]
  rw [hmap]
  exact Linked.append h ch server hnew hpar

/-- The two `remove` calls of the channel-deleted case preserve the invariant. -/
theorem linked_remove_channel {channels : List Channel} {servers : List Server}
    (h : Linked channels servers) (channel : Channel) (hmem : channel ∈ channels) :
    Linked (Cache.remove channels channel)
      (match channel.server with
        | some sid =>
          Cache.modify servers sid
            (fun s => { s with channels := Cache.removeKey s.channels channel.id })
        | none => servers) := by
  have hch : Cache.remove channels channel
      = channels.filter (fun x => decide (x.id ≠ channel.id)) :=
    Cache.removeKey_eq_filter channels channel.id h.1.1
  have hsv : (match channel.server with
        | some sid =>
          Cache.modify servers sid
            (fun s => { s with channels := Cache.removeKey s.channels channel.id })
        | none => servers)
      = servers.map (fun s =>
          if channel.server = some s.id then
            { s with channels := s.channels.filter (fun x => decide (x ≠ channel.id)) }
          else s) := by
    cases hs : channel.server with
    | none =>
      simp
    | some sid =>
      simp only []
      rw [Cache.modify_eq_map _ _ _ h.1.2.1]
      apply List.map_congr_left
      intro s hs
      by_cases hid : s.id = sid
      · have hk : Keyed.key s = sid := hid
        simp only [hk, hid, if_true]
        rw [Cache.removeKey_ids _ _ (h.1.2.2 s hs)]
      · have hk : ¬ Keyed.key s = sid := hid
        have hk2 : ¬ (some sid = some s.id) := fun e => hid (Option.some.inj e).symm
        simp only [hk, hk2, if_false]
  rw [hch, hsv]
  exact Linked.delete_channel h channel hmem

/-- The two `update` calls of the channel-updated case preserve the invariant:
the replacement has the id and the parent of the channel it replaces. -/
theorem linked_update_channel {channels : List Channel} {servers : List Server}
    (h : Linked channels servers) (channel chan : Channel) (sid : JSVal)
    (hfound : ∀ x ∈ channels, x.id = channel.id → x = channel)
    (hid : chan.id = channel.id) (hpar : chan.server = channel.server) :
    Linked (Cache.update channels channel chan)
      (Cache.modify servers sid
        (fun s => { s with channels := Cache.update s.channels channel.id chan.id })) := by
  have hsv : Cache.modify servers sid
      (fun s => { s with channels := Cache.update s.channels channel.id chan.id }) = servers := by
    apply Cache.modify_same
    intro s
    rw [hid, Cache.update_ids_self]
  rw [hsv, Cache.update_eq_map _ _ _ h.1.1]
  apply Linked.map_channels h
  intro x hx
  by_cases hk : Keyed.key x = Keyed.key channel
  · have hxc : x = channel := hfound x hx hk
    simp only [hk, if_true]
    rw [hxc]
    exact ⟨hid, hpar⟩
  · simp [hk]

/-- The cascade of the server-deleted case preserves the invariant. -/
theorem linked_remove_server {channels : List Channel} {servers : List Server}
    (h : Linked channels servers) (server : Server) (hmem : server ∈ servers) :
    Linked (removeChannels channels server.channels) (Cache.remove servers server) := by
  have hch := removeChannels_eq_filter server.channels channels h.1.1
  have hsv : Cache.remove servers server = servers.filter (fun s => decide (s.id ≠ server.id)) :=
    Cache.removeKey_eq_filter servers server.id h.1.2.1
  rw [hch, hsv]
  exact Linked.delete_server h server hmem

/-- The channel-created case preserves the invariant. -/
theorem linked_onChannelCreate (c : InternalClient) (data : JSVal)
    (h : Linked c.channels c.servers) :
    Linked (onChannelCreate c data).client.channels (onChannelCreate c data).client.servers := by
  unfold onChannelCreate
  cases hn : data.nullish with
  | true => simpa [JSVal.get, hn, Run.raise] using h
  | false =>
    rw [JSVal.get_of_not_nullish hn "id"]
    simp only []
    cases hch : Cache.get c.channels (data.field "id") with
    | some x => simpa [Run.done] using h
    | none =>
      simp only []
      cases hsv : Cache.get c.servers (data.field "guild_id") with
      | none => simpa [Run.done] using h
      | some server =>
        simp only [Channel.construct, hn]
        by_cases hp : (data.field "is_private").truthy = true
        · simpa [hp, Run.done] using h
        · simp only [hp, Run.done]
          exact linked_add_channel h _ server hch rfl

/-- The channel-deleted case preserves the invariant. -/
theorem linked_onChannelDelete (c : InternalClient) (data : JSVal)
    (h : Linked c.channels c.servers) :
    Linked (onChannelDelete c data).client.channels (onChannelDelete c data).client.servers := by
  unfold onChannelDelete
  cases hn : data.nullish with
  | true => simpa [JSVal.get, hn, Run.raise] using h
  | false =>
    rw [JSVal.get_of_not_nullish hn "id"]
    simp only []
    cases hch : Cache.get c.channels (data.field "id") with
    | none => simpa [Run.done] using h
    | some channel =>
      simp only [Run.done]
      exact linked_remove_channel h channel (Cache.mem_of_get hch)

/-- The channel-updated case preserves the invariant. -/
theorem linked_onChannelUpdate (c : InternalClient) (data : JSVal)
    (h : Linked c.channels c.servers) :
    Linked (onChannelUpdate c data).client.channels (onChannelUpdate c data).client.servers := by
  unfold onChannelUpdate
  cases hn : data.nullish with
  | true => simpa [JSVal.get, hn, Run.raise] using h
  | false =>
    rw [JSVal.get_of_not_nullish hn "id"]
    simp only []
    cases hch : findChannel c (data.field "id") with
    | none => simpa [Run.done] using h
    | some channel =>
      simp only [Channel.construct, hn]
      have hkey : channel.id = data.field "id" := by
        unfold findChannel at hch
        cases hg : Cache.get c.channels (data.field "id") with
        | some ch =>
          rw [hg] at hch
          simp only [Option.some.injEq] at hch
          rw [← hch]
          exact Cache.key_of_get hg
        | none =>
          rw [hg] at hch
          exact Cache.key_of_get hch
      have hfound : ∀ x ∈ c.channels, x.id = channel.id → x = channel := by
        intro x hx hxid
        unfold findChannel at hch
        cases hg : Cache.get c.channels (data.field "id") with
        | some ch =>
          rw [hg] at hch
          simp only [Option.some.injEq] at hch
          rw [hch] at hg
          exact List.inj_on_of_nodup_map h.1.1 hx (Cache.mem_of_get hg) hxid
        | none =>
          exact absurd (hxid.trans hkey) ((Cache.get_eq_none_iff _ _).mp hg x hx)
      by_cases hpm : channel.kind = ChannelKind.pm
      · simp only [hpm, if_true, Bool.false_eq_true, if_false]
        split <;> exact h
      · simp only [hpm, if_false]
        cases hs : channel.server with
        | none => simpa [Run.done] using h
        | some sid =>
          simp only [Run.done]
          apply linked_update_channel h channel _ sid hfound
          · split <;> exact hkey.symm
          · rw [hs]; split <;> rfl

/-- The server-deleted case preserves the invariant. -/
theorem linked_onServerDelete (c : InternalClient) (data : JSVal)
    (h : Linked c.channels c.servers) :
    Linked (onServerDelete c data).client.channels (onServerDelete c data).client.servers := by
  unfold onServerDelete
  cases hn : data.nullish with
  | true => simpa [JSVal.get, hn, Run.raise] using h
  | false =>
    rw [JSVal.get_of_not_nullish hn "id"]
    simp only []
    cases hsv : Cache.get c.servers (data.field "id") with
    | none => simpa [Run.done] using h
    | some server =>
      simp only [Run.done]
      exact linked_remove_server h server (Cache.mem_of_get hsv)

/-- C14.  Let the caches hold at most one entry per identity.  If, before a
channel-created, channel-deleted, channel-updated or server-deleted frame,
a channel is in the global channel cache with parent server `S` if and only
if it is in the channel list of the cached server `S`, then the same holds
after the frame is handled, and the caches still hold at most one entry per
identity; this for every payload, the ones the handler warns about or raises
on included. -/
theorem C14_consistency_preserved (env : Env) (c : InternalClient) (p : PacketType)
    (data : JSVal)
    (hp : p = PacketType.CHANNEL_CREATE ∨ p = PacketType.CHANNEL_DELETE ∨
      p = PacketType.CHANNEL_UPDATE ∨ p = PacketType.SERVER_DELETE)
    (hd : DistinctIds c) (hc : Consistent c) :
    DistinctIds (handle env c p data).client ∧ Consistent (handle env c p data).client := by
  have h : Linked c.channels c.servers := ⟨hd, hc⟩
  rcases hp with rfl | rfl | rfl | rfl
  · exact linked_onChannelCreate c data h
  · exact linked_onChannelDelete c data h
  · exact linked_onChannelUpdate c data h
  · exact linked_onServerDelete c data h

/-- A witness of `C14_consistency_preserved`: the channel-deleted frame for
channel "10" on the client that caches the servers "1" and "2". -/
theorem C14_consistency_preserved_witness :
    (DistinctIds exTwoGuilds ∧ Consistent exTwoGuilds) ∧
    (handle (exEnv 0) exTwoGuilds PacketType.CHANNEL_DELETE exChannelGone).client.channels
      = [exChannel20] ∧
    DistinctIds (handle (exEnv 0) exTwoGuilds PacketType.CHANNEL_DELETE exChannelGone).client ∧
    Consistent (handle (exEnv 0) exTwoGuilds PacketType.CHANNEL_DELETE exChannelGone).client :=
  ⟨by decide, by decide,
    C14_consistency_preserved (exEnv 0) exTwoGuilds PacketType.CHANNEL_DELETE exChannelGone
      (Or.inr (Or.inl rfl)) (by decide) (by decide)⟩

/-! ### The order of mutation and notification -/

/-- The full-sync case performs its effects after its mutations. -/
theorem seesResult_onReady (env : Env) (c : InternalClient) (data : JSVal) :
    SeesResult (onReady env c data) := by
  unfold onReady
  split
  · simp [SeesResult, Run.raise]
  · split
    · simp [SeesResult, Run.raise]
    · simp only []
      split
      · simp [SeesResult, Run.raise]
      · split
        · simp [SeesResult, Run.raise]
        · split
          · simp [SeesResult, Run.raise]
          · split
            · simp [SeesResult, Run.raise]
            · simp [SeesResult, Run.done, emit, Effect.emitted]

/-- Every case other than the presence and the message-deleted case emits its
notifications, the diagnostic "warn" apart, after its last mutation. -/
theorem seesResult_handle (env : Env) (c : InternalClient) (p : PacketType) (data : JSVal)
    (h1 : p ≠ PacketType.PRESENCE_UPDATE) (h2 : p ≠ PacketType.MESSAGE_DELETE) :
    SeesResult (handle env c p data) := by
  cases p
  case READY => exact seesResult_onReady env c data
  case PRESENCE_UPDATE => exact absurd rfl h1
  case MESSAGE_DELETE => exact absurd rfl h2
  all_goals
    simp only [handle]
    first
      | unfold onMessageCreate
      | unfold onMessageUpdate
      | unfold onServerCreate
      | unfold onServerDelete
      | unfold onServerUpdate
      | unfold onChannelCreate
      | unfold onChannelDelete
      | unfold onChannelUpdate
      | unfold onServerRoleCreate
      | unfold onServerRoleDelete
      | unfold onServerRoleUpdate
      | unfold onServerMemberAdd
      | unfold onServerMemberRemove
      | unfold onServerMemberUpdate
      | unfold onTyping
      | unfold onBan
    repeat' split
    all_goals try simp only []
    all_goals repeat' split
    all_goals simp [SeesResult, Run.done, Run.raise, emit, warn, Effect.emitted]

/-- The presence and the message-deleted case emit their notifications before
their first mutation. -/
theorem seesClient_before (env : Env) (c : InternalClient) (p : PacketType) (data : JSVal)
    (h : p = PacketType.PRESENCE_UPDATE ∨ p = PacketType.MESSAGE_DELETE) :
    SeesClient c (handle env c p data) := by
  rcases h with h | h <;> subst h <;> simp only [handle]
  · unfold onPresenceUpdate
    repeat' split
    all_goals simp [SeesClient, Run.done, Run.raise, emit, warn]
  · unfold onMessageDelete
    repeat' split
    all_goals simp [SeesClient, Run.done, Run.raise, emit, warn]

/-- C15.  At "presence" the user cache still holds the old status ("online",
the frame carries "idle"), at "userUpdate" it still holds the user before the
replacement (username "bob", the frame carries "robert"), and at
"messageDeleted" the message "100" is still in its channel's collection:
the three notifications are emitted before the mutation, which is visible
only in the client after the handler. -/
theorem C15_notification_before_mutation :
    (onPresenceUpdate exGuildClient exPresenceFrame).effects.map
        (fun e => (e.emitted, (Cache.get e.seen.users (JSVal.str "7")).map User.status))
      = [(some "presence", some (JSVal.str "online"))] ∧
    (Cache.get (onPresenceUpdate exGuildClient exPresenceFrame).client.users
        (JSVal.str "7")).map User.status = some (JSVal.str "idle") ∧
    (onPresenceUpdate exGuildClient exRenameFrame).effects.map
        (fun e => (e.emitted, (Cache.get e.seen.users (JSVal.str "7")).map User.username))
      = [(some "userUpdate", some (JSVal.str "bob"))] ∧
    (Cache.get (onPresenceUpdate exGuildClient exRenameFrame).client.users
        (JSVal.str "7")).map User.username = some (JSVal.str "robert") ∧
    (onMessageDelete exGuildClient exDeleteFrame).effects.map
        (fun e => (e.emitted, e.seen.channels.map (fun ch => ch.messages.map Message.id)))
      = [(some "messageDeleted", [[JSVal.str "100"]])] ∧
    (onMessageDelete exGuildClient exDeleteFrame).client.channels.map
        (fun ch => ch.messages.map Message.id) = [[]] := by
  refine ⟨by decide, by decide, by decide, by decide, by decide, by decide⟩

/-- The order of mutation and notification in every case.  For every frame type
other than presence-update and message-deleted, every notification of the
handler other than the diagnostic "warn" is emitted with the client as the
handler leaves it: all its mutations are applied before the notification.
For a presence-update and a message-deleted frame every notification
("presence", "userUpdate", "messageDeleted", "warn") is emitted with the
client as it was before the frame: the mutation follows the notification. -/
theorem emission_order (env : Env) (c : InternalClient) (p : PacketType) (data : JSVal) :
    (p ≠ PacketType.PRESENCE_UPDATE → p ≠ PacketType.MESSAGE_DELETE →
      ∀ e ∈ (handle env c p data).effects, ∀ name, e.emitted = some name → name ≠ "warn" →
        e.seen = (handle env c p data).client) ∧
    ((p = PacketType.PRESENCE_UPDATE ∨ p = PacketType.MESSAGE_DELETE) →
      ∀ e ∈ (handle env c p data).effects, e.seen = c) :=
  ⟨fun h1 h2 => seesResult_handle env c p data h1 h2, fun h => seesClient_before env c p data h⟩

/-- The theorem `emission_order` at a message-created frame and a presence
frame. -/
theorem emission_order_witness :
    (∀ e ∈ (handle (exEnv 0) exSynced PacketType.MESSAGE_CREATE exCreateFrame).effects,
      ∀ name, e.emitted = some name → name ≠ "warn" →
        e.seen = (handle (exEnv 0) exSynced PacketType.MESSAGE_CREATE exCreateFrame).client) ∧
    (∀ e ∈ (handle (exEnv 0) exGuildClient PacketType.PRESENCE_UPDATE exPresenceFrame).effects,
      e.seen = exGuildClient) :=
  ⟨(emission_order (exEnv 0) exSynced PacketType.MESSAGE_CREATE exCreateFrame).1
      (by decide) (by decide),
   (emission_order (exEnv 0) exGuildClient PacketType.PRESENCE_UPDATE exPresenceFrame).2
      (Or.inl rfl)⟩

/-! ### Login, logout and the push connection -/

/-- When the gateway request fails after an accepted credential request (whose
`err` is falsy), the failure handler sets the state, emits "disconnected" and
then raises on `err.response`: the promise of `login` is never settled. -/
theorem gatewayDone_failure_raises (c : InternalClient) (err token gerr gres : JSVal)
    (herr : err.truthy = false) (hg : gerr.truthy = true) :
    (gatewayDone c err token gerr gres).outcome = Outcome.pending ∧
    (gatewayDone c err token gerr gres).thrown.isSome = true ∧
    (gatewayDone c err token gerr gres).client = { c with state := ConnectionState.DISCONNECTED } ∧
    emittedNames (gatewayDone c err token gerr gres).effects = ["disconnected"] := by
  have hr : ∃ e, responseText err = Except.error e := by
    cases err <;> simp [JSVal.truthy] at herr <;>
      simp [responseText, JSVal.get, JSVal.nullish, JSVal.field, herr]
  obtain ⟨e, he⟩ := hr
  simp [gatewayDone, hg, rejectWith, he, Settled.raise, emittedNames, emit, Effect.emitted]

/-- C16.  A login started from `IDLE` whose credential request succeeds and
whose gateway request then fails: the state ends `DISCONNECTED` and exactly
one "disconnected" notification fires, but the failure handler raises a
`TypeError` (it reads `response` of the credential callback's null `err`)
and the promise of `login` stays pending: the login does not complete as a
rejection. -/
theorem C16_gateway_failure_leaves_login_pending :
    (login InternalClient.new (JSVal.str "a@b.c") (JSVal.str "pw")).client.state
      = ConnectionState.LOGGING_IN ∧
    (loginDone (login InternalClient.new (JSVal.str "a@b.c") (JSVal.str "pw")).client
        (JSVal.str "a@b.c") (JSVal.str "pw") JSVal.null exLoginResponse).client
      = exAuthenticated ∧
    (gatewayDone exAuthenticated JSVal.null (JSVal.str "token") exHttpError
        JSVal.undefined).outcome = Outcome.pending ∧
    (gatewayDone exAuthenticated JSVal.null (JSVal.str "token") exHttpError
        JSVal.undefined).thrown = some (JSError.typeError "response") ∧
    (gatewayDone exAuthenticated JSVal.null (JSVal.str "token") exHttpError
        JSVal.undefined).client.state = ConnectionState.DISCONNECTED ∧
    emittedNames (gatewayDone exAuthenticated JSVal.null (JSVal.str "token") exHttpError
        JSVal.undefined).effects = ["disconnected"] := by
  refine ⟨by decide, by decide, by decide, by decide, by decide, by decide⟩

/-- The callback of the logout request emits no notification, whatever the
client and the answer: its only effect is closing the websocket when the
request succeeded and there is one. -/
theorem logoutDone_emits_nothing (c : InternalClient) (err : JSVal) :
    emittedNames (logoutDone c err).effects = [] := by
  simp only [logoutDone, rejectWith]
  split
  · split <;> rfl
  · cases c.websocket <;> rfl

/-- C17.  A logout while no websocket is open (state `LOGGED_IN`, between the
credential answer and the creation of the socket) is not gated, and when
its request succeeds it moves the session to `DISCONNECTED` and resolves
with no effect at all: no "disconnected" notification is emitted, and there
is no socket whose close handler could emit one later.  With a websocket
open the logout emits no notification either, its only effect is closing the
socket.  A failed gateway request on a client that holds a socket handle
moves to `DISCONNECTED`, emits "disconnected" and leaves the handle in
place. -/
theorem C17_logout_emits_no_disconnected :
    logout exAuthenticated
      = Settled.wait exAuthenticated
          [authorized exAuthenticated "POST" Endpoint.LOGOUT "" JSVal.undefined] ∧
    (logoutDone exAuthenticated JSVal.null).client.state = ConnectionState.DISCONNECTED ∧
    (logoutDone exAuthenticated JSVal.null).outcome = Outcome.resolved Arg.absent ∧
    (logoutDone exAuthenticated JSVal.null).effects = [] ∧
    (logoutDone exClient JSVal.null).client.state = ConnectionState.DISCONNECTED ∧
    (logoutDone exClient JSVal.null).effects.map Effect.action = [Action.wsClose] ∧
    (gatewayDone { exAuthenticated with websocket := exClient.websocket } JSVal.null
        (JSVal.str "token") exHttpError JSVal.undefined).client.state
      = ConnectionState.DISCONNECTED ∧
    (gatewayDone { exAuthenticated with websocket := exClient.websocket } JSVal.null
        (JSVal.str "token") exHttpError JSVal.undefined).client.websocket
      = some { url := JSVal.str "wss://gateway" } := by
  refine ⟨by decide, by decide, by decide, by decide, by decide, by decide, by decide,
    by decide⟩

/-- The four transitions to `DISCONNECTED`.  A failed credential request sets
the state to `DISCONNECTED`, the websocket handle to `null` and emits exactly
one "disconnected"; a failed gateway request sets the state to `DISCONNECTED`
and emits exactly one "disconnected", leaving the websocket handle as it is;
the close of the push connection sets the state to `DISCONNECTED`, the handle
to `null` and emits exactly one "disconnected"; a successful logout sets the
state to `DISCONNECTED` and the handle to `null`, emits no notification, and
its only effect is closing the websocket when there is one. -/
theorem disconnect_paths (c : InternalClient) (email password err res token gerr gres : JSVal) :
    (err.truthy = true →
      (loginDone c email password err res).client
        = { c with state := ConnectionState.DISCONNECTED, websocket := none } ∧
      emittedNames (loginDone c email password err res).effects = ["disconnected"]) ∧
    (gerr.truthy = true →
      (gatewayDone c err token gerr gres).client.state = ConnectionState.DISCONNECTED ∧
      (gatewayDone c err token gerr gres).client.websocket = c.websocket ∧
      emittedNames (gatewayDone c err token gerr gres).effects = ["disconnected"]) ∧
    ((onclose c).client = { c with websocket := none, state := ConnectionState.DISCONNECTED } ∧
      emittedNames (onclose c).effects = ["disconnected"]) ∧
    (err.truthy = false →
      (logoutDone c err).client.state = ConnectionState.DISCONNECTED ∧
      (logoutDone c err).client.websocket = none ∧
      emittedNames (logoutDone c err).effects = [] ∧
      (logoutDone c err).effects.map Effect.action
        = (if c.websocket.isSome then [Action.wsClose] else [])) := by
  refine ⟨?_, ?_, ?_, ?_⟩
  · intro h
    simp only [loginDone, h, if_true, rejectWith]
    split <;> simp [Settled.raise, Settled.reject, emittedNames, emit, Effect.emitted]
  · intro h
    simp only [gatewayDone, h, if_true, rejectWith]
    split <;> simp [Settled.raise, Settled.reject, emittedNames, emit, Effect.emitted]
  · simp [onclose, Run.done, emittedNames, emit, Effect.emitted]
  · intro h
    refine ⟨?_, ?_, logoutDone_emits_nothing c err, ?_⟩
    · simp [logoutDone, h, Settled.resolve]
    · simp [logoutDone, h, Settled.resolve]
    · cases hws : c.websocket <;> simp [logoutDone, h, Settled.resolve, hws]

/-- The theorem `disconnect_paths` at a refused credential request, a failed
gateway request and a successful logout. -/
theorem disconnect_paths_witness :
    (loginDone (login InternalClient.new (JSVal.str "a@b.c") (JSVal.str "pw")).client
        (JSVal.str "a@b.c") (JSVal.str "pw") exHttpError JSVal.undefined).client.state
      = ConnectionState.DISCONNECTED ∧
    emittedNames (gatewayDone exAuthenticated JSVal.null (JSVal.str "token") exHttpError
        JSVal.undefined).effects = ["disconnected"] ∧
    (logoutDone exClient JSVal.null).client.websocket = none := by
  have h := disconnect_paths
    (login InternalClient.new (JSVal.str "a@b.c") (JSVal.str "pw")).client
    (JSVal.str "a@b.c") (JSVal.str "pw") exHttpError JSVal.undefined (JSVal.str "token")
    exHttpError JSVal.undefined
  have h2 := disconnect_paths exAuthenticated (JSVal.str "a@b.c") (JSVal.str "pw")
    JSVal.null JSVal.undefined (JSVal.str "token") exHttpError JSVal.undefined
  have h3 := disconnect_paths exClient (JSVal.str "a@b.c") (JSVal.str "pw")
    JSVal.null JSVal.undefined (JSVal.str "token") exHttpError JSVal.undefined
  refine ⟨?_, (h2.2.1 rfl).2.2, (h3.2.2.2 rfl).2.1⟩
  rw [(h.1 rfl).1]

/-- C18.  For every session state and every text frame whose data does not
parse as JSON, or parses to `undefined` or `null`, of which no payload field
can be read, the message handler emits exactly one "error" notification,
which carries the exception, emits nothing else (no "raw", no domain
notification), raises nothing and leaves the client, so the connection state
and all caches, unchanged. -/
theorem C18_malformed_frame_dropped (env : Env) (c : InternalClient) (e : MessageEvent)
    (x : JSError) (htext : e.type ≠ "Binary")
    (hbad : env.jsonParse e.data = Except.error x ∨
      ∃ v, env.jsonParse e.data = Except.ok v ∧ v.nullish = true ∧ x = JSError.typeError "d") :
    onmessage env c e = Run.done c [emit c "error" [Arg.error x]] := by
  rcases hbad with h | ⟨v, hv, hn, hx⟩
  · simp [onmessage, htext, decode, h]
  · simp [onmessage, htext, decode, hv, JSVal.get, hn, hx]

/-- A witness of `C18_malformed_frame_dropped`: a text frame that is no JSON. -/
theorem C18_malformed_frame_dropped_witness :
    onmessage (exEnv 0) exGuildClient { type := "Text", data := "not json" }
      = Run.done exGuildClient
          [emit exGuildClient "error" [Arg.error (JSError.syntaxError "Unexpected token")]] :=
  C18_malformed_frame_dropped (exEnv 0) exGuildClient { type := "Text", data := "not json" }
    (JSError.syntaxError "Unexpected token") (by decide) (Or.inl rfl)

/-! ### The full-sync frame -/

/-- After `add`, the cache has an entry under the key of the entity. -/
theorem Cache.get_add_self {α : Type} [Keyed α] (xs : List α) (e : α) :
    (Cache.get (Cache.add xs e).1 (Keyed.key e)).isSome = true := by
  unfold Cache.add
  split
  · rename_i x h
    simp [h]
  · rename_i h
    simp only [Cache.get] at h
    simp [Cache.get, List.find?_append, h]

/-- The function `add` keeps every entry. -/
theorem Cache.get_add_mono {α : Type} [Keyed α] (xs : List α) (e : α) (k : JSVal)
    (h : (Cache.get xs k).isSome = true) : (Cache.get (Cache.add xs e).1 k).isSome = true := by
  unfold Cache.add
  split
  · exact h
  · simp only [Cache.get] at h ⊢
    rw [List.find?_append]
    cases hx : List.find? (fun x => decide (Keyed.key x = k)) xs with
    | none => simp [hx] at h
    | some x => simp

/-- The member loop of the `Server` constructor keeps every cached user. -/
theorem Server.addMembers_users_mono (env : Env) (ms : List JSVal) (c : InternalClient)
    (s : Server) (k : JSVal) (h : (Cache.get c.users k).isSome = true) :
    (Cache.get (Server.addMembers env ms c s).client.users k).isSome = true := by
  induction ms generalizing c s with
  | nil => exact h
  | cons d rest ih =>
    simp only [Server.addMembers]
    split
    · exact h
    · exact ih _ _ (Cache.get_add_mono c.users _ k h)

/-- The `Server` constructor keeps every cached user. -/
theorem Server.construct_users_mono (env : Env) (c : InternalClient) (d : JSVal) (k : JSVal)
    (h : (Cache.get c.users k).isSome = true) :
    (Cache.get (Server.construct env c d).client.users k).isSome = true := by
  simp only [Server.construct]
  split
  · exact h
  · split
    · exact h
    · split
      · have hf := Server.addChannels_frame (listField d "channels") c
          { id := d.field "id", name := d.field "name", region := d.field "region",
            channels := [], roles := ‹List Role›, members := [], memberMap := [] }
        simp only [hf.2.1]; exact h
      · apply Server.addMembers_users_mono
        have hf := Server.addChannels_frame (listField d "channels") c
          { id := d.field "id", name := d.field "name", region := d.field "region",
            channels := [], roles := ‹List Role›, members := [], memberMap := [] }
        rw [hf.2.1]; exact h

/-- The guild loop of the full-sync case on well-formed guilds: it completes,
keeps every cached user and server, and caches a server for every guild. -/
theorem addServers_spec (env : Env) (gs : List JSVal) (c : InternalClient)
    (hw : gs.all wellFormedGuild = true) :
    (addServers env gs c).2 = none ∧
    (addServers env gs c).1.state = c.state ∧
    (addServers env gs c).1.private_channels = c.private_channels ∧
    (∀ k, (Cache.get c.users k).isSome = true →
      (Cache.get (addServers env gs c).1.users k).isSome = true) ∧
    (∀ k, (Cache.get c.servers k).isSome = true →
      (Cache.get (addServers env gs c).1.servers k).isSome = true) ∧
    (∀ g ∈ gs, (Cache.get (addServers env gs c).1.servers (g.field "id")).isSome = true) := by
  induction gs generalizing c with
  | nil => simp [addServers]
  | cons d rest ih =>
    simp only [List.all_cons, Bool.and_eq_true] at hw
    have hok := Server.construct_ok env c d hw.1
    have hf := Server.construct_frame env c d
    have hstep : addServers env (d :: rest) c
        = addServers env rest
            { (Server.construct env c d).client with
              servers := (Cache.add (Server.construct env c d).client.servers
                (Server.construct env c d).server).1 } := by
      simp [addServers, hok]
    rw [hstep]
    obtain ⟨i1, i2, i3, i4, i5, i6⟩ := ih
      { (Server.construct env c d).client with
        servers := (Cache.add (Server.construct env c d).client.servers
          (Server.construct env c d).server).1 } hw.2
    refine ⟨i1, ?_, ?_, ?_, ?_, ?_⟩
    · rw [i2]; exact hf.2.2.1
    · rw [i3]; exact hf.2.1
    · intro k hk
      exact i4 k (Server.construct_users_mono env c d k hk)
    · intro k hk
      apply i5 k
      apply Cache.get_add_mono
      rw [hf.1]; exact hk
    · intro g hg
      rcases List.mem_cons.mp hg with rfl | hg
      · apply i5
        have := Cache.get_add_self (Server.construct env c g).client.servers
          (Server.construct env c g).server
        have hk : Keyed.key (Server.construct env c g).server = g.field "id" :=
          hf.2.2.2.2.2.2.2
        rw [hk] at this
        exact this
      · exact i6 g hg

/-- The private-channel loop of the full-sync case: it completes, changes the
direct-channel cache only, and caches a channel for every entry. -/
theorem addPrivateChannels_spec (ps : List JSVal) (c : InternalClient)
    (hw : ps.all (fun p => !p.nullish) = true) :
    (addPrivateChannels ps c).2 = none ∧
    (addPrivateChannels ps c).1.state = c.state ∧
    (addPrivateChannels ps c).1.users = c.users ∧
    (addPrivateChannels ps c).1.servers = c.servers ∧
    (∀ k, (Cache.get c.private_channels k).isSome = true →
      (Cache.get (addPrivateChannels ps c).1.private_channels k).isSome = true) ∧
    (∀ p ∈ ps,
      (Cache.get (addPrivateChannels ps c).1.private_channels (p.field "id")).isSome = true) := by
  induction ps generalizing c with
  | nil => simp [addPrivateChannels]
  | cons d rest ih =>
    simp only [List.all_cons, Bool.and_eq_true, Bool.not_eq_true'] at hw
    have hstep : addPrivateChannels (d :: rest) c
        = addPrivateChannels rest
            { c with private_channels := (Cache.add c.private_channels
                { kind := ChannelKind.pm, id := d.field "id", type := d.field "type",
                  name := d.field "name", server := none, messages := [] }).1 } := by
      simp [addPrivateChannels, Channel.construct, hw.1]
    rw [hstep]
    obtain ⟨i1, i2, i3, i4, i5, i6⟩ := ih
      { c with private_channels := (Cache.add c.private_channels
          { kind := ChannelKind.pm, id := d.field "id", type := d.field "type",
            name := d.field "name", server := none, messages := [] }).1 } hw.2
    refine ⟨i1, i2, i3, i4, ?_, ?_⟩
    · intro k hk
      exact i5 k (Cache.get_add_mono c.private_channels _ k hk)
    · intro p hp
      rcases List.mem_cons.mp hp with rfl | hp
      · apply i5
        exact Cache.get_add_self c.private_channels
          { kind := ChannelKind.pm, id := p.field "id", type := p.field "type",
            name := p.field "name", server := none, messages := [] }
      · exact i6 p hp

/-- C19.  For every session, the ones in state `LOGGED_IN` included, and every
well-formed full-sync frame, the handler completes and afterwards the state
is `READY`, the user cache holds the payload's own user, the server cache
holds a server for every guild of the payload, the direct-channel cache holds
a channel for every private channel of the payload, exactly one recurring
task, the heartbeat, is scheduled, at the payload's `heartbeat_interval`, and
exactly one "ready" notification is emitted (followed by two "debug"
notifications), with the caches populated and the state set. -/
theorem C19_full_sync (env : Env) (c : InternalClient) (data : JSVal)
    (hw : wellFormedReady data = true) :
    (onReady env c data).thrown = none ∧
    (onReady env c data).client.state = ConnectionState.READY ∧
    (Cache.get (onReady env c data).client.users ((data.field "user").field "id")).isSome
      = true ∧
    (∀ g ∈ listField data "guilds",
      (Cache.get (onReady env c data).client.servers (g.field "id")).isSome = true) ∧
    (∀ p ∈ listField data "private_channels",
      (Cache.get (onReady env c data).client.private_channels (p.field "id")).isSome = true) ∧
    scheduledIntervals (onReady env c data).effects
      = [(Task.heartbeat, data.field "heartbeat_interval")] ∧
    emittedNames (onReady env c data).effects = ["ready", "debug", "debug"] ∧
    (∀ e ∈ (onReady env c data).effects, e.seen = (onReady env c data).client) := by
  simp only [wellFormedReady, Bool.and_eq_true, Bool.not_eq_true'] at hw
  obtain ⟨⟨⟨hd, hu⟩, hg⟩, hp⟩ := hw
  obtain ⟨gs, hgs, hgw⟩ : ∃ gs, data.field "guilds" = JSVal.arr gs ∧
      gs.all wellFormedGuild = true := by
    cases hf : data.field "guilds" <;> simp [hf] at hg
    exact ⟨_, rfl, by simpa using hg⟩
  obtain ⟨ps, hps, hpw⟩ : ∃ ps, data.field "private_channels" = JSVal.arr ps ∧
      ps.all (fun p => !p.nullish) = true := by
    cases hf : data.field "private_channels" <;> simp [hf] at hp
    exact ⟨_, rfl, by simpa using hp⟩
  have hlg : listField data "guilds" = gs := by simp [listField, hgs]
  have hlp : listField data "private_channels" = ps := by simp [listField, hps]
  obtain ⟨u, hcu, huid⟩ : ∃ u : User, User.construct (data.field "user") = Except.ok u ∧
      Keyed.key u = (data.field "user").field "id" := by
    refine ⟨_, by simp only [User.construct, hu]; rfl, rfl⟩
  obtain ⟨a1, a2, a3, a4, a5, a6⟩ := addServers_spec env gs
    { c with users := (Cache.add c.users u).1 } hgw
  obtain ⟨b1, b2, b3, b4, b5, b6⟩ := addPrivateChannels_spec ps
    (addServers env gs { c with users := (Cache.add c.users u).1 }).1 hpw
  rcases hA : addServers env gs { c with users := (Cache.add c.users u).1 } with ⟨c2, o2⟩
  rw [hA] at a1 a2 a3 a4 a5 a6 b1 b2 b3 b4 b5 b6
  simp only at a1 a2 a3 a4 a5 a6 b1 b2 b3 b4 b5 b6
  subst a1
  rcases hB : addPrivateChannels ps c2 with ⟨c3, o3⟩
  rw [hB] at b1 b2 b3 b4 b5 b6
  simp only at b1 b2 b3 b4 b5 b6
  subst b1
  have hrun : onReady env c data
      = Run.done { c3 with state := ConnectionState.READY }
          [ { action := Action.setInterval Task.heartbeat (data.field "heartbeat_interval"),
              seen := { c3 with state := ConnectionState.READY } },
            emit { c3 with state := ConnectionState.READY } "ready" [],
            emit { c3 with state := ConnectionState.READY } "debug"
              [Arg.text ("ready packet took " ++ toString (env.later - env.now)
                ++ "ms to process")],
            emit { c3 with state := ConnectionState.READY } "debug"
              [Arg.text ("ready with " ++ toString c3.servers.length
                ++ " servers, " ++ toString c3.channels.length ++ " channels and "
                ++ toString c3.users.length ++ " users cached.")] ] := by
    simp [onReady, JSVal.get, hd, hcu, hgs, hps, JSVal.elements, hA, hB]
  rw [hrun, hlg, hlp]
  refine ⟨rfl, rfl, ?_, ?_, ?_, ?_, ?_, ?_⟩
  · simp only [Run.done]
    rw [b3]
    apply a4
    have := Cache.get_add_self c.users u
    rw [huid] at this
    exact this
  · intro g hg
    simp only [Run.done]
    rw [b4]
    exact a6 g hg
  · intro p hp
    simp only [Run.done]
    exact b6 p hp
  · simp [Run.done, scheduledIntervals, emit]
  · simp [Run.done, emittedNames, emit, Effect.emitted]
  · simp [Run.done, emit]

/-- A witness of `C19_full_sync`: the full-sync frame on an authenticated
client. -/
theorem C19_full_sync_witness :
    wellFormedReady exReadyFrame = true ∧
    (onReady (exEnv 0) exLoggedIn exReadyFrame).client.state = ConnectionState.READY ∧
    scheduledIntervals (onReady (exEnv 0) exLoggedIn exReadyFrame).effects
      = [(Task.heartbeat, JSVal.num 41250)] ∧
    emittedNames (onReady (exEnv 0) exLoggedIn exReadyFrame).effects
      = ["ready", "debug", "debug"] :=
  ⟨by decide,
   (C19_full_sync (exEnv 0) exLoggedIn exReadyFrame (by decide)).2.1,
   (C19_full_sync (exEnv 0) exLoggedIn exReadyFrame (by decide)).2.2.2.2.2.1,
   (C19_full_sync (exEnv 0) exLoggedIn exReadyFrame (by decide)).2.2.2.2.2.2.1⟩

/-! ### Server-created frames -/

/-- A well-formed server-created frame for a server that is not cached appends
the server built from the payload and emits "serverCreated" with the absent
result of the lookup. -/
theorem serverCreate_emits_absent (env : Env) (c : InternalClient) (data : JSVal)
    (hw : wellFormedGuild data = true)
    (hS : Cache.get c.servers (data.field "id") = none) :
    (onServerCreate env c data).effects
      = [emit (onServerCreate env c data).client "serverCreated" [Arg.absent]] ∧
    (onServerCreate env c data).client.servers
      = c.servers ++ [(Server.construct env c data).server] := by
  have hb := Server.construct_ok env c data hw
  have hf := Server.construct_frame env c data
  have hd : data.nullish = false := by
    simp only [wellFormedGuild, Bool.and_eq_true, Bool.not_eq_true'] at hw
    exact hw.1.1.1
  have hadd : Cache.add (Server.construct env c data).client.servers
      (Server.construct env c data).server
      = (c.servers ++ [(Server.construct env c data).server],
          (Server.construct env c data).server) := by
    have : Cache.get c.servers (Keyed.key (Server.construct env c data).server) = none := by
      show Cache.get c.servers (Server.construct env c data).server.id = none
      rw [hf.2.2.2.2.2.2.2]; exact hS
    simp [Cache.add, hf.1, this]
  constructor
  · simp [onServerCreate, JSVal.get, hd, hS, hb, Run.done]
  · simp [onServerCreate, JSVal.get, hd, hS, hb, Run.done, hadd]

/-- C20.  No server "3" is cached; the server-created frame for "3" inserts
exactly one server "3" into the server cache and emits exactly one
"serverCreated" notification, whose argument is the absent result of the
lookup and not the server that was inserted.  The frame for the cached
server "1" changes nothing and emits nothing. -/
theorem C20_server_created_carries_absent :
    Cache.get exGuildClient.servers (JSVal.str "3") = none ∧
    (onServerCreate (exEnv 0) exGuildClient (exGuildFrame "3" "new")).effects.map Effect.action
      = [Action.emit "serverCreated" [Arg.absent]] ∧
    (onServerCreate (exEnv 0) exGuildClient (exGuildFrame "3" "new")).client.servers
      = [ exServer,
          { id := JSVal.str "3", name := JSVal.str "new", region := JSVal.str "london",
            channels := [], roles := [], members := [], memberMap := [] } ] ∧
    onServerCreate (exEnv 0) exGuildClient (exGuildFrame "1" "guild")
      = Run.done exGuildClient [] := by
  refine ⟨by decide, by decide, by decide, by decide⟩

/-! ### The channel-history query -/

/-- The text `params.join()` of a one-item list is the item. -/
theorem intercalate_one (a : String) : ",".intercalate [a] = a := rfl

/-- The text `params.join()` of a two-item list: the items with a comma between
them. -/
theorem intercalate_two (a b : String) : ",".intercalate [a, b] = a ++ "," ++ b := rfl

/-- The text `params.join()` of the empty list is empty. -/
theorem intercalate_none : ",".intercalate [] = "" := rfl

/-- A text that starts with a non-empty text is not empty. -/
theorem append_ne_empty (a b : String) (h : a ≠ "") : a ++ b ≠ "" := by
  intro e
  have hd : (a ++ b).data = [] := by rw [e]
  rw [String.data_append] at hd
  exact h (String.ext (List.append_eq_nil.mp hd).1)

/-- The request of `getChannelLogs`: the channel's messages endpoint followed by
the limit, and then nothing when no bound is given, `&before=` or `&after=`
with the identity when one bound is given, and both parameters after a single
`&`, with a comma between them, when both are given. -/
theorem getChannelLogs_query (c : InternalClient) (channel : Channel) (limit : JSVal)
    (before after : Option Message) :
    (requestsOf (getChannelLogs c channel limit before after).effects).map
        (fun r => (r.endpoint, r.query))
      = [(Endpoint.CHANNEL_MESSAGES channel.id,
          "?limit=" ++ (if limit = JSVal.undefined then JSVal.num 500 else limit).toStr ++
            (match before, after with
              | none, none => ""
              | some b, none => "&" ++ ("before=" ++ b.id.toStr)
              | none, some a => "&" ++ ("after=" ++ a.id.toStr)
              | some b, some a =>
                "&" ++ ("before=" ++ b.id.toStr ++ "," ++ ("after=" ++ a.id.toStr))))] := by
  have hb : ∀ x : String, "before=" ++ x ≠ "" := fun x => append_ne_empty _ _ (by decide)
  have ha : ∀ x : String, "after=" ++ x ≠ "" := fun x => append_ne_empty _ _ (by decide)
  have hba : ∀ x y : String, "before=" ++ x ++ "," ++ y ≠ "" := fun x y =>
    append_ne_empty _ _ (append_ne_empty _ _ (hb x))
  cases before <;> cases after <;>
    simp [getChannelLogs, requestsOf, authorized, Settled.wait, joinedParams, logParams,
      intercalate_none, intercalate_one, intercalate_two, hb, ha, hba]

/-- C21.  For channel "10", limit 50 and both bounds given (before message
"100", after message "200") the request goes to the channel's messages
endpoint with the text `?limit=50&before=100,after=200`: the two parameters
are joined by a comma, not each prefixed by `&`.  With one bound the text is
`?limit=50&before=100` or `?limit=50&after=200`, with none `?limit=50`, and
with no limit given `?limit=500`. -/
theorem C21_both_bounds_joined_by_comma :
    (requestsOf (getChannelLogs exClient exChannel (JSVal.num 50) (some exMessage)
        (some exLaterMessage)).effects).map (fun r => (r.endpoint, r.query))
      = [(Endpoint.CHANNEL_MESSAGES (JSVal.str "10"), "?limit=50&before=100,after=200")] ∧
    (requestsOf (getChannelLogs exClient exChannel (JSVal.num 50) (some exMessage)
        none).effects).map Request.query = ["?limit=50&before=100"] ∧
    (requestsOf (getChannelLogs exClient exChannel (JSVal.num 50) none
        (some exLaterMessage)).effects).map Request.query = ["?limit=50&after=200"] ∧
    (requestsOf (getChannelLogs exClient exChannel (JSVal.num 50) none
        none).effects).map Request.query = ["?limit=50"] ∧
    (requestsOf (getChannelLogs exClient exChannel JSVal.undefined none
        none).effects).map Request.query = ["?limit=500"] := by
  refine ⟨by decide, by decide, by decide, by decide, by decide⟩

/-! ### Channel-deleted frames and direct channels -/

/-- A channel-deleted frame whose id is not in the global channel cache takes
the diagnostic branch, whatever the direct-channel cache holds. -/
theorem channelDelete_ignores_direct (c : InternalClient) (data : JSVal)
    (hd : data.nullish = false) (hc : Cache.get c.channels (data.field "id") = none) :
    onChannelDelete c data
      = Run.done c [warn c "channel deleted but already out of cache?"] := by
  simp [onChannelDelete, JSVal.get, hd, hc]

/-- C22.  The direct channel "50" is held in the direct-channel cache.  The
channel-deleted frame for "50" emits the diagnostic "channel deleted but
already out of cache?", emits no "channelDeleted", and leaves the client, so
the direct-channel cache with channel "50" in it, as it is.  The
channel-updated case does find the same channel: it emits "channelUpdated". -/
theorem C22_direct_channel_not_deleted :
    Cache.get exDirectClient.private_channels (exDirectGone.field "id")
      = some exDirectChannel ∧
    onChannelDelete exDirectClient exDirectGone
      = Run.done exDirectClient
          [warn exDirectClient "channel deleted but already out of cache?"] ∧
    (onChannelDelete exDirectClient exDirectGone).client.private_channels
      = [exDirectChannel] ∧
    emittedNames (onChannelUpdate exDirectClient exDirectGone).effects = ["channelUpdated"] := by
  refine ⟨by decide, by decide, by decide, by decide⟩

/-! ### Frames and the connection state -/

/-- Every case other than the full-sync case leaves the session fields as they
are, also when it raises. -/
theorem sameSession_handle (env : Env) (c : InternalClient) (p : PacketType) (data : JSVal)
    (hp : p ≠ PacketType.READY) : SameSession c (handle env c p data).client := by
  have hs : ∀ d, (Server.construct env c d).client.state = c.state :=
    fun d => (Server.construct_frame env c d).2.2.1
  have hw : ∀ d, (Server.construct env c d).client.websocket = c.websocket :=
    fun d => (Server.construct_frame env c d).2.2.2.1
  have ht : ∀ d, (Server.construct env c d).client.token = c.token :=
    fun d => (Server.construct_frame env c d).2.2.2.2.1
  have he : ∀ d, (Server.construct env c d).client.email = c.email :=
    fun d => (Server.construct_frame env c d).2.2.2.2.2.1
  have hpw : ∀ d, (Server.construct env c d).client.password = c.password :=
    fun d => (Server.construct_frame env c d).2.2.2.2.2.2.1
  cases p
  case READY => exact absurd rfl hp
  all_goals
    simp only [handle]
    first
      | unfold onMessageCreate
      | unfold onMessageDelete
      | unfold onMessageUpdate
      | unfold onServerCreate
      | unfold onServerDelete
      | unfold onServerUpdate
      | unfold onChannelCreate
      | unfold onChannelDelete
      | unfold onChannelUpdate
      | unfold onServerRoleCreate
      | unfold onServerRoleDelete
      | unfold onServerRoleUpdate
      | unfold onServerMemberAdd
      | unfold onServerMemberRemove
      | unfold onServerMemberUpdate
      | unfold onPresenceUpdate
      | unfold onTyping
      | unfold onBan
    repeat' split
    all_goals try simp only []
    all_goals repeat' split
    all_goals simp [SameSession, Run.done, Run.raise, hs, hw, ht, he, hpw]

/-- The delayed check of the typing case leaves the session fields as they are. -/
theorem sameSession_typingStop (now : Int) (c : InternalClient) (uid : JSVal)
    (channel : Channel) : SameSession c (typingStop now c uid channel).client := by
  unfold typingStop
  repeat' split
  all_goals simp [SameSession, Run.done]

/-- The constant of the selected case is the tag. -/
theorem selectCase_tag (env : Env) (t : JSVal) (p : PacketType)
    (h : selectCase env t = some p) : env.packetType p = t := by
  have := List.find?_some h
  simpa using this

/-- C23.  For every session and every frame that decodes (to `packet` with
payload `data`) and whose type tag is not the constant of `READY`, the
message handler leaves the connection state, token, email, password and
websocket handle unchanged, whether the selected case completes, warns or
raises; and when the tag is the constant of no case, the handler leaves the
whole client, so every cache, unchanged and its only effect is the "raw"
notification that carries the packet. -/
theorem C23_frames_keep_session (env : Env) (c : InternalClient) (e : MessageEvent)
    (text : String) (packet data : JSVal)
    (hraw : (if e.type = "Binary" then env.inflate e.data else Except.ok e.data)
      = Except.ok text)
    (hdec : decode env text = Except.ok (packet, data))
    (htag : packet.field "t" ≠ env.packetType PacketType.READY) :
    SameSession c (onmessage env c e).client ∧
    (selectCase env (packet.field "t") = none →
      onmessage env c e = Run.done c [emit c "raw" [Arg.val packet]]) := by
  constructor
  · simp only [onmessage, hraw, hdec]
    cases hsel : selectCase env (packet.field "t") with
    | none => simp [SameSession, Run.done]
    | some p =>
      simp only [Run.after]
      apply sameSession_handle
      intro hp
      rw [hp] at hsel
      exact htag (selectCase_tag env _ _ hsel).symm
  · intro hsel
    simp only [onmessage, hraw, hdec, hsel]

/-- A witness of `C23_frames_keep_session`: a typing frame and a frame with the
unknown tag "RESUMED". -/
theorem C23_frames_keep_session_witness :
    SameSession exGuildClient
      (onmessage (exParsing (JSVal.obj [("t", JSVal.str "TYPING_START"), ("d", exTypingFrame)]))
        exGuildClient { type := "Text", data := "frame" }).client ∧
    onmessage (exParsing (JSVal.obj [("t", JSVal.str "RESUMED"), ("d", JSVal.obj [])]))
        exGuildClient { type := "Text", data := "frame" }
      = Run.done exGuildClient
          [emit exGuildClient "raw"
            [Arg.val (JSVal.obj [("t", JSVal.str "RESUMED"), ("d", JSVal.obj [])])]] :=
  ⟨(C23_frames_keep_session
      (exParsing (JSVal.obj [("t", JSVal.str "TYPING_START"), ("d", exTypingFrame)]))
      exGuildClient { type := "Text", data := "frame" } "frame"
      (JSVal.obj [("t", JSVal.str "TYPING_START"), ("d", exTypingFrame)]) exTypingFrame
      rfl rfl (by decide)).1,
   (C23_frames_keep_session
      (exParsing (JSVal.obj [("t", JSVal.str "RESUMED"), ("d", JSVal.obj [])]))
      exGuildClient { type := "Text", data := "frame" } "frame"
      (JSVal.obj [("t", JSVal.str "RESUMED"), ("d", JSVal.obj [])]) (JSVal.obj [])
      rfl rfl (by decide)).2 (by decide)⟩

end DiscordJS
